import Mathlib

/-!
Value resolution and the environment listing of ziti `create config`.

A shallow embedding of

* `ziti/cmd/create_config_environment.go` (the `environment` sub-command and its `run`),
* the test harness of `ziti/cmd/create_config_controller_test.go`
  (the parsed controller document and the lists of required fields),

together with the Go library functions they call (`strings.ToLower`, `filepath.Dir`,
`time.ParseDuration`, `os.Stat`, `logrus.Fatalf`, ...).  The value-resolution engine itself
(`create_config.go`, `create_config_controller.go`, the `helpers` and `constants` packages and
the YAML templates) is described by the specification only; its definitions are marked
`Modelled from the spec:`.

Go strings are modelled by `String`; every function that inspects single bytes only looks for
ASCII bytes (`/`, `.`, `:`, digits), so working on characters gives the same result.
-/

namespace Ziti

/-! ## Go library: `strings` -/

namespace unicode

/-- Go `unicode.ToLower` on one rune.  ASCII capitals move down by 32.  The only two runes
outside ASCII whose lower case is an ASCII letter are U+0130 (to `i`) and U+212A, the Kelvin
sign (to `k`); every other rune outside ASCII has a lower case outside ASCII and is kept as it
is here, which does not change any comparison of the result with ASCII text. -/
def ToLower (r : Char) : Char :=
  if 'A' ≤ r ∧ r ≤ 'Z' then Char.ofNat (r.toNat + 32)
  else if r = Char.ofNat 0x130 then 'i'
  else if r = Char.ofNat 0x212A then 'k'
  else r

end unicode

namespace strings

/-- Go `strings.ToLower`: every rune mapped to its lower case. -/
def ToLower (s : String) : String := String.mk (s.data.map unicode.ToLower)

/-- The pieces of a list of characters between the occurrences of `sep`; the result is never
empty. -/
def splitChars (sep : Char) : List Char → List (List Char)
  | [] => [[]]
  | c :: cs =>
    if c = sep then [] :: splitChars sep cs
    else
      match splitChars sep cs with
      | [] => [[c]]
      | e :: es => (c :: e) :: es

/-- Go `strings.Split(s, sep)` for a separator of one ASCII character. -/
def Split (s : String) (sep : Char) : List String := (splitChars sep s.data).map String.mk

/-- Go `strings.Split(s, sep)[0]`, the way the tests take the host part of an address (the
result of `Split` is never empty, so the index is in range). -/
def SplitFirst (sep : Char) (s : String) : String := (Split s sep).headD ""

end strings

/-! ## Go library: `path/filepath` (Unix) -/

namespace filepath

/-- State of the loop of `filepath.Clean`: the elements written so far (last one first) and
`dotdot`, the number of leading `..` elements that cannot be removed. -/
structure CleanState where
  out : List (List Char)
  dotdot : Nat

/-- One round of the loop of `filepath.Clean`, on the path element `e` (the bytes between two
separators): empty elements and `.` are skipped, `..` removes the last element when there is
one to remove and is kept on a path that is not rooted, any other element is appended. -/
def cleanStep (rooted : Bool) (st : CleanState) (e : List Char) : CleanState :=
  if e = [] then st
  else if e = ['.'] then st
  else if e = ['.', '.'] then
    if st.out.length > st.dotdot then { st with out := st.out.tail }
    else if !rooted then { out := e :: st.out, dotdot := st.out.length + 1 }
    else st
  else { st with out := e :: st.out }

/-- Elements joined with `/`. -/
def joinSep : List (List Char) → List Char
  | [] => []
  | [e] => e
  | e :: es => e ++ '/' :: joinSep es

/-- Go `filepath.Clean` on a list of characters. -/
def cleanChars (path : List Char) : List Char :=
  match path with
  | [] => ['.']
  | c :: _ =>
    let rooted : Bool := c = '/'
    let st := (strings.splitChars '/' path).foldl (cleanStep rooted) { out := [], dotdot := 0 }
    let body := joinSep st.out.reverse
    if rooted then '/' :: body
    else if body = [] then ['.'] else body

/-- Go `filepath.Clean`: the shortest path name equivalent to `path` by lexical processing. -/
def Clean (path : String) : String := String.mk (cleanChars path.data)

/-- The part of `path` up to and including its last separator (`path[:i+1]` in `Dir`). -/
def dirPart (path : List Char) : List Char :=
  (path.reverse.dropWhile (fun c => c != '/')).reverse

/-- Go `filepath.Dir`: all but the last element of `path`, cleaned. -/
def Dir (path : String) : String := String.mk (cleanChars (dirPart path.data))

end filepath

/-! ## Go library: `time` -/

namespace time

/-- Go `time.Duration`: a count of nanoseconds.  In Go it is an `int64`; here it is an
integer, and the range of `int64` enters where a duration is computed (`ParseDuration`,
`wrapInt64`). -/
abbrev Duration := Int

/-- Go arithmetic on `int64`: the result of an operation is the exact result modulo `2^64`,
read as a signed number between `-2^63` and `2^63 - 1`. -/
def wrapInt64 (x : Int) : Int :=
  (x + 9223372036854775808) % 18446744073709551616 - 9223372036854775808

def Nanosecond : Duration := 1
def Microsecond : Duration := 1000 * Nanosecond
def Millisecond : Duration := 1000 * Microsecond
def Second : Duration := 1000 * Millisecond
def Minute : Duration := 60 * Second
def Hour : Duration := 60 * Minute

/-- Whether `c` is one of `0` .. `9`. -/
def isDigit (c : Char) : Bool := decide ('0' ≤ c) && decide (c ≤ '9')

/-- Value of the digit `c`. -/
def digitVal (c : Char) : Nat := c.toNat - 48

/-- Go `time.leadingInt`: consumes `[0-9]*`; `none` is the overflow error. -/
def leadingInt : List Char → Nat → Option (Nat × List Char)
  | [], x => some (x, [])
  | c :: cs, x =>
    if isDigit c then
      if x > 2 ^ 63 / 10 then none
      else
        let y := x * 10 + digitVal c
        if y > 2 ^ 63 then none else leadingInt cs y
    else some (x, c :: cs)

/-- Go `time.leadingFraction`: consumes `[0-9]*` after the point; returns the digits kept as
a number, how many were kept (`scale` is ten to that power) and the rest.  Digits past the
overflow point are dropped. -/
def leadingFraction : List Char → Nat → Nat → Bool → Nat × Nat × List Char
  | [], x, k, _ => (x, k, [])
  | c :: cs, x, k, overflow =>
    if isDigit c then
      if overflow then leadingFraction cs x k true
      else if x > (2 ^ 63 - 1) / 10 then leadingFraction cs x k true
      else
        let y := x * 10 + digitVal c
        if y > 2 ^ 63 then leadingFraction cs x k true
        else leadingFraction cs y (k + 1) false
    else (x, k, c :: cs)

/-- The step `(\.[0-9]*)?` of `time.ParseDuration` on what follows the integer part: the
fraction digits as a number, how many were kept, the rest, and `post`, whether a digit was
consumed after the point. -/
def optFraction (s1 : List Char) : Nat × Nat × List Char × Bool :=
  match s1 with
  | '.' :: s2 =>
    let r := leadingFraction s2 0 0 false
    (r.1, r.2.1, r.2.2, s2.length != r.2.2.length)
  | _ => (0, 0, s1, false)

/-- Go `time.unitMap`. -/
def unitMap (u : List Char) : Option Nat :=
  if u = ['n', 's'] then some 1
  else if u = ['u', 's'] then some 1000
  else if u = [Char.ofNat 0xB5, 's'] then some 1000
  else if u = [Char.ofNat 0x3BC, 's'] then some 1000
  else if u = ['m', 's'] then some 1000000
  else if u = ['s'] then some 1000000000
  else if u = ['m'] then some 60000000000
  else if u = ['h'] then some 3600000000000
  else none

/-- The float64 expression `uint64(float64(f) * (float64(unit) / scale))` of
`time.ParseDuration`, with `scale` ten to the power `k`.  Floating point is not modelled: the
function is a parameter of the parser and is consulted only for inputs with a non-zero
fractional part. -/
abbrev FracNanos := (f : Nat) → (k : Nat) → (unit : Nat) → Nat

/-- The loop `for s != ""` of `time.ParseDuration`, with the sum `d` so far.  Every round
consumes at least one character of the unit, so `fuel` greater than the length of `s` is never
used up; the outer `none` says the fuel ran out, the inner `none` is the error return. -/
def parseLoop (frac : FracNanos) : Nat → List Char → Nat → Option (Option Nat)
  | 0, _, _ => none
  | fuel + 1, s, d =>
    match s with
    | [] => some (some d)
    | c :: _ =>
      if !(c = '.' || isDigit c) then some none
      else
        match leadingInt s 0 with
        | none => some none
        | some (v, s1) =>
          let pre : Bool := s.length != s1.length
          let fr := optFraction s1
          let f := fr.1
          let k := fr.2.1
          let s3 := fr.2.2.1
          let post := fr.2.2.2
          if !pre && !post then some none
          else
            let u := s3.takeWhile (fun c => !(c = '.' || isDigit c))
            let s4 := s3.dropWhile (fun c => !(c = '.' || isDigit c))
            if u = [] then some none
            else
              match unitMap u with
              | none => some none
              | some unit =>
                if v > 2 ^ 63 / unit then some none
                else
                  let v1 := v * unit
                  let next : Nat → Option (Option Nat) := fun v2 =>
                    let d1 := (d + v2) % 2 ^ 64
                    if d1 > 2 ^ 63 then some none else parseLoop frac fuel s4 d1
                  if f > 0 then
                    let v2 := (v1 + frac f k unit) % 2 ^ 64
                    if v2 > 2 ^ 63 then some none else next v2
                  else next v1

/-- Go `time.ParseDuration`: `[-+]?([0-9]*(\.[0-9]*)?[a-z]+)+`, with `none` for the error
return. -/
def ParseDuration (frac : FracNanos) (str : String) : Option Duration :=
  let s0 := str.data
  let neg : Bool := s0.head? = some '-'
  let s := match s0 with
    | c :: cs => if c = '-' ∨ c = '+' then cs else s0
    | [] => s0
  if s = ['0'] then some 0
  else if s = [] then none
  else
    match parseLoop frac (s.length + 1) s 0 with
    | some (some d) =>
      if neg then some (-(d : Int))
      else if d > 2 ^ 63 - 1 then none
      else some (d : Int)
    | _ => none

end time

/-! ## Go library: errors, `os`, `logrus` -/

namespace syscall

/-- The error numbers a file-system call of the program can report. -/
inductive Errno where
  | ENOENT
  | EACCES
  | ENOTDIR
  | other (msg : String)
  deriving DecidableEq, Repr

/-- Go `syscall.Errno.Error` (Unix message table). -/
def Errno.Error : Errno → String
  | .ENOENT => "no such file or directory"
  | .EACCES => "permission denied"
  | .ENOTDIR => "not a directory"
  | .other msg => msg

end syscall

/-- Go error values the program handles: `*fs.PathError`, a plain error with a message
(`errors.New`, the errors of `text/template`) and the wrapper of `github.com/pkg/errors`. -/
inductive GoError where
  | PathError (Op : String) (Path : String) (Err : syscall.Errno)
  | New (msg : String)
  | Wrap (cause : GoError) (msg : String)
  deriving DecidableEq, Repr

namespace GoError

/-- The method `Error()`: `Op + " " + Path + ": " + Err.Error()` for a path error,
`msg + ": " + cause.Error()` for a wrapped one. -/
def Error : GoError → String
  | PathError op path err => op ++ " " ++ path ++ ": " ++ err.Error
  | New msg => msg
  | Wrap cause msg => msg ++ ": " ++ cause.Error

/-- The function `errors.Cause` of `github.com/pkg/errors`: the innermost error. -/
def Cause : GoError → GoError
  | Wrap cause _ => Cause cause
  | e => e

end GoError

namespace errors

/-- The function `errors.Wrap(err, message)` of `github.com/pkg/errors` for a non-nil `err`. -/
def Wrap (err : GoError) (message : String) : GoError := GoError.Wrap err message

end errors

namespace os

/-- Go `*os.File` values the program holds. -/
inductive File where
  | Stdout
  | Stderr
  | named (name : String)
  deriving DecidableEq, Repr

/-- Go `os.IsNotExist`: the error, a path error unwrapped, is `ENOENT`. -/
def IsNotExist : Option GoError → Bool
  | some (GoError.PathError _ _ syscall.Errno.ENOENT) => true
  | _ => false

end os

/-! ## `create_config_environment.go` -/

/-- Go `EnvVar`. -/
structure EnvVar where
  Name : String
  Description : String
  Value : String
  deriving DecidableEq, Repr

/-- Go `EnvVariableTemplateData`. -/
structure EnvVariableTemplateData where
  OSCommentPrefix : String
  OSVarDeclare : String
  EnvVars : List EnvVar
  deriving DecidableEq, Repr

/-- Go `CreateConfigOptions` (declared in `create_config.go`): the fields that
`create_config_environment.go` and the tests read. -/
structure CreateConfigOptions where
  Output : String
  Verbose : Bool
  Args : List String
  deriving DecidableEq, Repr

/-- Go `CreateConfigEnvironmentOptions`. -/
structure CreateConfigEnvironmentOptions extends CreateConfigOptions, EnvVariableTemplateData where
  output : String
  deriving DecidableEq, Repr

/-- What `run` finds outside the program: whether the embedded template
`config_templates/environment.yml` parses, the answers of the file system, and what executing
the parsed template writes before it succeeds or fails. -/
structure World where
  /-- Error of `template.New("environment-config").Parse(environmentConfigTemplate)`. -/
  parseErr : Option GoError
  /-- Error number of `os.Stat(name)`, `none` when the file exists. -/
  stat : String → Option syscall.Errno
  /-- Error number of `os.Create(name)`, `none` when the file was created. -/
  create : String → Option syscall.Errno
  /-- Text that `tmpl.Execute(f, options)` writes to `f`, and its error. -/
  execute : os.File → CreateConfigEnvironmentOptions → String × Option GoError

/-- What `run` does to the outside, in order. -/
inductive Effect where
  | Stat (name : String)
  | Fatalf (msg : String)
  | Create (name : String)
  | Debugf (msg : String)
  | Execute (f : os.File) (text : String)
  | Close (f : os.File)
  deriving DecidableEq, Repr

/-- How a call ends: it returns its `error` (`none` is `nil`) to the caller, or the process is
terminated inside it by `os.Exit(code)`. -/
inductive Outcome where
  | returned (err : Option GoError)
  | exited (code : Int)
  deriving DecidableEq, Repr

/-- Outcome and effects of one call. -/
structure RunResult where
  outcome : Outcome
  effects : List Effect
  deriving DecidableEq, Repr

namespace os

/-- Go `os.Stat(name)`: the error is a `*PathError` with `Op` `stat`. -/
def Stat (w : World) (name : String) : Option GoError :=
  (w.stat name).map (GoError.PathError "stat" name)

/-- Go `os.Create(name)`: the error is a `*PathError` with `Op` `open`. -/
def Create (w : World) (name : String) : Option GoError :=
  (w.create name).map (GoError.PathError "open" name)

end os

namespace CreateConfigEnvironmentOptions

/-- The tail of `run` from `defer func() { _ = f.Close() }()` on: the template is executed
against `f`, and `f` is closed when `run` returns. -/
def runExecute (w : World) (options : CreateConfigEnvironmentOptions) (f : os.File)
    (before : List Effect) : RunResult :=
  match w.execute f options with
  | (text, some err) =>
    { outcome := .returned (some (errors.Wrap err "unable to execute template")),
      effects := before ++ [.Execute f text, .Close f] }
  | (text, none) =>
    { outcome := .returned none,
      effects := before ++ [.Execute f text,
        .Debugf ("Environment configuration file generated successfully and written to: "
          ++ options.Output),
        .Close f] }

/-- Go `(*CreateConfigEnvironmentOptions).run`.  `logrus.Fatalf` logs its message and then
calls `os.Exit(1)`, so the `return err` that follows it in the source is never reached. -/
def run (w : World) (options : CreateConfigEnvironmentOptions) : RunResult :=
  match w.parseErr with
  | some err => { outcome := .returned (some err), effects := [] }
  | none =>
    if strings.ToLower options.Output != "stdout" then
      let basePath := filepath.Dir options.Output ++ "/"
      if os.IsNotExist (os.Stat w (filepath.Dir basePath)) then
        { outcome := .exited 1,
          effects := [.Stat (filepath.Dir basePath),
            .Fatalf ("Provided path: [" ++ basePath ++ "] does not exist\n")] }
      else
        match os.Create w options.Output with
        | some err =>
          { outcome := .returned
              (some (errors.Wrap err ("unable to create config file: " ++ options.Output))),
            effects := [.Stat (filepath.Dir basePath), .Create options.Output,
              .Debugf ("Created output file: " ++ options.Output)] }
        | none =>
          runExecute w options (os.File.named options.Output)
            [.Stat (filepath.Dir basePath), .Create options.Output,
              .Debugf ("Created output file: " ++ options.Output)]
    else runExecute w options os.File.Stdout []

end CreateConfigEnvironmentOptions

/-! ## The value tree

`ConfigTemplateValues` is declared in `create_config.go`; the fields below are the ones that
`create_config_environment.go` and `create_config_controller_test.go` read. -/

/-- Modelled from the spec: the `Identity` part of the value tree (identity material paths);
the declaration is in `create_config.go`. -/
structure IdentityValues where
  Cert : String
  ServerCert : String
  Key : String
  Ca : String
  deriving DecidableEq, Repr

/-- Modelled from the spec: the control-plane listener part of the value tree, declared in
`create_config.go`. -/
structure CtrlValues where
  ListenerAddress : String
  ListenerPort : String
  MinConnectTimeout : time.Duration
  MaxConnectTimeout : time.Duration
  DefaultConnectTimeout : time.Duration
  DefaultQueuedConnects : Int
  MinOutstandingConnects : Int
  MaxOutstandingConnects : Int
  DefaultOutstandingConnects : Int
  deriving DecidableEq, Repr

/-- Modelled from the spec: the management listener part of the value tree, declared in
`create_config.go`. -/
structure MgmtValues where
  ListenerAddress : String
  ListenerPort : String
  MinConnectTimeout : time.Duration
  MaxConnectTimeout : time.Duration
  DefaultConnectTimeout : time.Duration
  MinQueuedConnects : Int
  MaxQueuedConnects : Int
  DefaultQueuedConnects : Int
  MinOutstandingConnects : Int
  MaxOutstandingConnects : Int
  DefaultOutstandingConnects : Int
  deriving DecidableEq, Repr

/-- Modelled from the spec: the health-check timings of the value tree, declared in
`create_config.go`. -/
structure HealthChecksValues where
  Interval : time.Duration
  Timeout : time.Duration
  InitialDelay : time.Duration
  deriving DecidableEq, Repr

/-- Modelled from the spec: the edge API settings of the value tree, declared in
`create_config.go`. -/
structure EdgeApiValues where
  Address : String
  Port : String
  APIActivityUpdateInterval : time.Duration
  SessionTimeout : time.Duration
  APIActivityUpdateBatchSize : Int
  deriving DecidableEq, Repr

/-- Modelled from the spec: the enrollment part of the value tree, declared in
`create_config.go`. -/
structure EdgeEnrollmentValues where
  SigningCert : String
  SigningCertKey : String
  DefaultEdgeIdentityDuration : time.Duration
  EdgeIdentityDuration : time.Duration
  DefaultEdgeRouterDuration : time.Duration
  EdgeRouterDuration : time.Duration
  deriving DecidableEq, Repr

/-- Modelled from the spec: one web bind point of the value tree (interface and advertised
address, each with host and port), declared in `create_config.go`. -/
structure BindPointsValues where
  InterfaceAddress : String
  InterfacePort : String
  AddressAddress : String
  AddressPort : String
  deriving DecidableEq, Repr

/-- Modelled from the spec: the per-binding options of the value tree, declared in
`create_config.go`. -/
structure WebOptionsValues where
  IdleTimeout : time.Duration
  ReadTimeout : time.Duration
  WriteTimeout : time.Duration
  MinTLSVersion : String
  MaxTLSVersion : String
  deriving DecidableEq, Repr

/-- Modelled from the spec: the web part of the value tree, declared in `create_config.go`. -/
structure WebValues where
  BindPoints : BindPointsValues
  Identity : IdentityValues
  Options : WebOptionsValues
  deriving DecidableEq, Repr

/-- Modelled from the spec: the controller part of the value tree, declared in
`create_config.go`. -/
structure ControllerTemplateValues where
  Identity : IdentityValues
  Ctrl : CtrlValues
  Mgmt : MgmtValues
  HealthChecks : HealthChecksValues
  EdgeApi : EdgeApiValues
  EdgeEnrollment : EdgeEnrollmentValues
  Web : WebValues
  deriving DecidableEq, Repr

/-- Modelled from the spec: the edge part of the router values, declared in
`create_config.go`. -/
structure EdgeRouterTemplateValues where
  Hostname : String
  Port : String
  ListenerBindPort : String
  IPOverride : String
  AdvertisedHost : String
  deriving DecidableEq, Repr

/-- Modelled from the spec: the router part of the value tree, declared in
`create_config.go`. -/
structure RouterTemplateValues where
  Edge : EdgeRouterTemplateValues
  IdentityCert : String
  IdentityServerCert : String
  IdentityKey : String
  IdentityCA : String
  deriving DecidableEq, Repr

/-- Modelled from the spec: the value tree, the Go struct `ConfigTemplateValues` declared in
`create_config.go`. -/
structure ConfigTemplateValues where
  ZitiHome : String
  Controller : ControllerTemplateValues
  Router : RouterTemplateValues
  deriving DecidableEq, Repr

/-! ### The required fields, as `TestCreateConfigControllerTemplateValues` lists them -/

/-- The list `expectedNonEmptyStringFields` of the test. -/
def expectedNonEmptyStringFields : List String :=
  [".ZitiHome",
   ".Controller.Identity.Cert",
   ".Controller.Identity.ServerCert",
   ".Controller.Identity.Key",
   ".Controller.Identity.Ca",
   ".Controller.Ctrl.ListenerAddress",
   ".Controller.Ctrl.ListenerPort",
   ".Controller.Mgmt.ListenerAddress",
   ".Controller.Mgmt.ListenerPort",
   ".Controller.EdgeApi.Address",
   ".Controller.EdgeApi.Port",
   ".Controller.EdgeEnrollment.SigningCert",
   ".Controller.EdgeEnrollment.SigningCertKey",
   ".Controller.Web.BindPoints.InterfaceAddress",
   ".Controller.Web.BindPoints.InterfacePort",
   ".Controller.Web.BindPoints.AddressAddress",
   ".Controller.Web.BindPoints.AddressPort",
   ".Controller.Web.Identity.Ca",
   ".Controller.Web.Identity.Key",
   ".Controller.Web.Identity.ServerCert",
   ".Controller.Web.Identity.Cert",
   ".Controller.Web.Options.MinTLSVersion",
   ".Controller.Web.Options.MaxTLSVersion"]

/-- The list `expectedNonEmptyStringValues` of the test, read from `data`. -/
def expectedNonEmptyStringValues (data : ConfigTemplateValues) : List String :=
  [data.ZitiHome,
   data.Controller.Identity.Cert,
   data.Controller.Identity.ServerCert,
   data.Controller.Identity.Key,
   data.Controller.Identity.Ca,
   data.Controller.Ctrl.ListenerAddress,
   data.Controller.Ctrl.ListenerPort,
   data.Controller.Mgmt.ListenerAddress,
   data.Controller.Mgmt.ListenerPort,
   data.Controller.EdgeApi.Address,
   data.Controller.EdgeApi.Port,
   data.Controller.EdgeEnrollment.SigningCert,
   data.Controller.EdgeEnrollment.SigningCertKey,
   data.Controller.Web.BindPoints.InterfaceAddress,
   data.Controller.Web.BindPoints.InterfacePort,
   data.Controller.Web.BindPoints.AddressAddress,
   data.Controller.Web.BindPoints.AddressPort,
   data.Controller.Web.Identity.Ca,
   data.Controller.Web.Identity.Key,
   data.Controller.Web.Identity.ServerCert,
   data.Controller.Web.Identity.Cert,
   data.Controller.Web.Options.MinTLSVersion,
   data.Controller.Web.Options.MaxTLSVersion]

/-- The list `expectedNonZeroTimeFields` of the test. -/
def expectedNonZeroTimeFields : List String :=
  [".Controller.Ctrl.MinConnectTimeout",
   ".Controller.Ctrl.MaxConnectTimeout",
   ".Controller.Ctrl.DefaultConnectTimeout",
   ".Controller.Mgmt.MinConnectTimeout",
   ".Controller.Mgmt.MaxConnectTimeout",
   ".Controller.Mgmt.DefaultConnectTimeout",
   ".Controller.HealthChecks.Interval",
   ".Controller.HealthChecks.Timeout",
   ".Controller.HealthChecks.InitialDelay",
   ".Controller.EdgeApi.APIActivityUpdateInterval",
   ".Controller.EdgeApi.SessionTimeout",
   ".Controller.EdgeEnrollment.DefaultEdgeIdentityDuration",
   ".Controller.EdgeEnrollment.EdgeIdentityDuration",
   ".Controller.EdgeEnrollment.DefaultEdgeRouterDuration",
   ".Controller.EdgeEnrollment.EdgeRouterDuration",
   ".Controller.Web.Options.IdleTimeout",
   ".Controller.Web.Options.ReadTimeout",
   ".Controller.Web.Options.WriteTimeout"]

/-- The list `expectedNonZeroTimeValues` of the test, read from `data`. -/
def expectedNonZeroTimeValues (data : ConfigTemplateValues) : List time.Duration :=
  [data.Controller.Ctrl.MinConnectTimeout,
   data.Controller.Ctrl.MaxConnectTimeout,
   data.Controller.Ctrl.DefaultConnectTimeout,
   data.Controller.Mgmt.MinConnectTimeout,
   data.Controller.Mgmt.MaxConnectTimeout,
   data.Controller.Mgmt.DefaultConnectTimeout,
   data.Controller.HealthChecks.Interval,
   data.Controller.HealthChecks.Timeout,
   data.Controller.HealthChecks.InitialDelay,
   data.Controller.EdgeApi.APIActivityUpdateInterval,
   data.Controller.EdgeApi.SessionTimeout,
   data.Controller.EdgeEnrollment.DefaultEdgeIdentityDuration,
   data.Controller.EdgeEnrollment.EdgeIdentityDuration,
   data.Controller.EdgeEnrollment.DefaultEdgeRouterDuration,
   data.Controller.EdgeEnrollment.EdgeRouterDuration,
   data.Controller.Web.Options.IdleTimeout,
   data.Controller.Web.Options.ReadTimeout,
   data.Controller.Web.Options.WriteTimeout]

/-- The list `expectedNonZeroIntFields` of the test. -/
def expectedNonZeroIntFields : List String :=
  [".Controller.Ctrl.DefaultQueuedConnects",
   ".Controller.Ctrl.MinOutstandingConnects",
   ".Controller.Ctrl.MaxOutstandingConnects",
   ".Controller.Ctrl.DefaultOutstandingConnects",
   ".Controller.Mgmt.MinQueuedConnects",
   ".Controller.Mgmt.MaxQueuedConnects",
   ".Controller.Mgmt.DefaultQueuedConnects",
   ".Controller.Mgmt.MinOutstandingConnects",
   ".Controller.Mgmt.MaxOutstandingConnects",
   ".Controller.Mgmt.DefaultOutstandingConnects",
   ".Controller.EdgeApi.APIActivityUpdateBatchSize"]

/-- The list `expectedNonZeroIntValues` of the test, read from `data`. -/
def expectedNonZeroIntValues (data : ConfigTemplateValues) : List Int :=
  [data.Controller.Ctrl.DefaultQueuedConnects,
   data.Controller.Ctrl.MinOutstandingConnects,
   data.Controller.Ctrl.MaxOutstandingConnects,
   data.Controller.Ctrl.DefaultOutstandingConnects,
   data.Controller.Mgmt.MinQueuedConnects,
   data.Controller.Mgmt.MaxQueuedConnects,
   data.Controller.Mgmt.DefaultQueuedConnects,
   data.Controller.Mgmt.MinOutstandingConnects,
   data.Controller.Mgmt.MaxOutstandingConnects,
   data.Controller.Mgmt.DefaultOutstandingConnects,
   data.Controller.EdgeApi.APIActivityUpdateBatchSize]

/-! ## Source resolver (spec 4.2) -/

/-- The process environment, as `os.LookupEnv` reads it: `none` for a variable that is not
set, `some ""` for one set to the empty string. -/
abbrev Environ := String → Option String

namespace constants

/-- Name of the variable that overrides `Controller.Identity.Cert` (spelled out in
`TestZitiCtrlIdentityCert`). -/
def CtrlIdentityCertVarName : String := "ZITI_PKI_CTRL_CERT"

/-- Name of the variable that overrides `Controller.Web.BindPoints.AddressAddress` (spelled out
in `TestAdvertisedBindAddress`). -/
def CtrlWebAdvertisedAddressVarName : String := "ZITI_CTRL_WEB_ADVERTISED_ADDRESS"

/-- Name of the variable that overrides `Controller.EdgeEnrollment.EdgeIdentityDuration`
(spelled out in `TestEdgeRouterAndIdentityEnrollmentDurationTogetherEnvVar`). -/
def CtrlEdgeIdentityEnrollmentDurationVarName : String := "ZITI_EDGE_IDENTITY_ENROLLMENT_DURATION"

/-- Name of the variable that overrides `Controller.EdgeEnrollment.EdgeRouterDuration`
(spelled out in `TestEdgeRouterAndIdentityEnrollmentDurationTogetherEnvVar`). -/
def CtrlEdgeRouterEnrollmentDurationVarName : String := "ZITI_EDGE_ROUTER_ENROLLMENT_DURATION"

end constants

/-- The names of the remaining environment variables.  The package `constants` is outside
src, so the values of its `...VarName` constants are parameters; the fields carry the names
of the Go constants that `create_config_environment.go` pairs with the fields of the value
tree. -/
structure Constants where
  ZitiHomeVarName : String
  CtrlIdentityServerCertVarName : String
  CtrlIdentityKeyVarName : String
  CtrlIdentityCAVarName : String
  CtrlListenerAddressVarName : String
  CtrlListenerPortVarName : String
  CtrlMgmtAddressVarName : String
  CtrlMgmtPortVarName : String
  CtrlEdgeApiAddressVarName : String
  CtrlEdgeApiPortVarName : String
  CtrlSigningCertVarName : String
  CtrlSigningKeyVarName : String
  CtrlWebInterfaceAddressVarName : String
  CtrlWebInterfacePortVarName : String
  CtrlWebAdvertisedPortVarName : String
  CtrlWebIdentityCertVarName : String
  CtrlWebIdentityServerCertVarName : String
  CtrlWebIdentityKeyVarName : String
  CtrlWebIdentityCAVarName : String

/-- Modelled from the spec: the parsed command-line flags of the controller command
(`create_config_controller.go` is outside src).  The tests pass `--routerEnrollmentDuration`
and `--identityEnrollmentDuration`; `none` is a flag that was not given. -/
structure Flags where
  routerEnrollmentDuration : Option String
  identityEnrollmentDuration : Option String

/-- Modelled from the spec: the errors of a generation (spec 4.2 to 4.4): a coercion failure
with the field and the offending raw value, a required field left unresolved, a placeholder of
the template that the value tree does not have. -/
inductive ConfigError where
  | coercion (field : String) (raw : String)
  | unresolved (field : String)
  | placeholder (name : String)
  deriving DecidableEq, Repr

/-- Modelled from the spec: the override that wins for one field, if there is one (spec 4.2;
the resolver is outside src).  A flag given on this invocation wins; otherwise the
environment variable counts when it is set and not empty; a variable set to the empty string
is treated as not set. -/
def override (cliValue : Option String) (env : Environ) (envName : String) : Option String :=
  match cliValue with
  | some c => some c
  | none =>
    match env envName with
    | some e => if e = "" then none else some e
    | none => none

/-- Modelled from the spec: `resolve` of spec 4.2 for a string field (the resolver is outside
src).  The winning override is used as it is, the default otherwise. -/
def resolveString (defaultValue : String) (cliValue : Option String) (env : Environ)
    (envName : String) : String :=
  (override cliValue env envName).getD defaultValue

/-- The number a string of decimal digits denotes. -/
def decimalValue (cs : List Char) : Nat := cs.foldl (fun acc c => acc * 10 + time.digitVal c) 0

/-- Modelled from the spec: the coercion of a duration field (spec 4.3; outside src).  A raw
numeric value is a number of minutes, anything else is read as a standard duration string.
The field is a Go `time.Duration`, an `int64` of nanoseconds (src converts it with
`int64(...)`, the tests take it as `*time.Duration`): the number of minutes is read as an
`int64`, a numeral that does not fit being a coercion failure, and its product with
`time.Minute` wraps as the multiplication of Go does. -/
def coerceDuration (frac : time.FracNanos) (raw : String) : Option time.Duration :=
  if raw.data ≠ [] ∧ raw.data.all time.isDigit = true then
    if decimalValue raw.data < 2 ^ 63 then
      some (time.wrapInt64 ((decimalValue raw.data : Int) * time.Minute))
    else none
  else time.ParseDuration frac raw

/-- Modelled from the spec: `resolve` of spec 4.2 for a duration field (the resolver is
outside src).  The winning override is coerced, a failure is reported with the field and the
raw value; without an override the default is used. -/
def resolveDuration (frac : time.FracNanos) (field : String) (defaultValue : time.Duration)
    (cliValue : Option String) (env : Environ) (envName : String) :
    Except ConfigError time.Duration :=
  match override cliValue env envName with
  | none => .ok defaultValue
  | some raw =>
    match coerceDuration frac raw with
    | some d => .ok d
    | none => .error (.coercion field raw)

/-! ## Value tree builder (spec 4.3) -/

/-- Modelled from the spec: everything a build reads (spec 1 and 4.3): the parsed flags, the
process environment, the working directory, the answer of `os.Hostname()` (`none` when it
fails), the network-derived fallback identifier, the Default Registry (spec 4.1, as a tree of
static defaults) and the names of the environment variables.  `frac` and `fmtMinutes` stand
for the floating-point arithmetic of `time.ParseDuration` and of printing a duration that is
not a whole number of minutes. -/
structure BuildInput where
  flags : Flags
  environ : Environ
  workingDir : String
  hostname : Option String
  networkName : String
  defaults : ConfigTemplateValues
  names : Constants
  frac : time.FracNanos
  fmtMinutes : time.Duration → String

/-- Modelled from the spec: `cmdhelper.HostnameOrNetworkName()` (package `helpers`, outside
src): the hostname, or the network-derived identifier when hostname resolution fails
(spec 7 d). -/
def HostnameOrNetworkName (i : BuildInput) : String :=
  match i.hostname with
  | some h => h
  | none => i.networkName

/-- The first result of `os.Hostname()`, the empty string when it fails (the tests read it as
`expectedValue, _ := os.Hostname()`). -/
def osHostname (i : BuildInput) : String := i.hostname.getD ""

/-- Modelled from the spec: default of the identity certificate path,
`<workingDirectory>/<hostnameOrNetworkIdentifier>.cert` (spec 4.3). -/
def defaultIdentityCert (i : BuildInput) : String :=
  i.workingDir ++ "/" ++ HostnameOrNetworkName i ++ ".cert"

/-- Modelled from the spec: the tree assembled from the per-field resolutions, the two
enrollment durations already coerced (spec 4.3; the builder is outside src).  Fields for which
src shows no environment variable take the value of the Default Registry, and so do the router
fields, which a controller build does not require. -/
def assemble (i : BuildInput) (identityDuration routerDuration : time.Duration) :
    ConfigTemplateValues :=
  let d := i.defaults
  let env := i.environ
  let n := i.names
  { ZitiHome := resolveString d.ZitiHome none env n.ZitiHomeVarName
    Controller :=
      { Identity :=
          { Cert := resolveString (defaultIdentityCert i) none env
              constants.CtrlIdentityCertVarName
            ServerCert := resolveString d.Controller.Identity.ServerCert none env
              n.CtrlIdentityServerCertVarName
            Key := resolveString d.Controller.Identity.Key none env n.CtrlIdentityKeyVarName
            Ca := resolveString d.Controller.Identity.Ca none env n.CtrlIdentityCAVarName }
        Ctrl :=
          { d.Controller.Ctrl with
            ListenerAddress := resolveString d.Controller.Ctrl.ListenerAddress none env
              n.CtrlListenerAddressVarName
            ListenerPort := resolveString d.Controller.Ctrl.ListenerPort none env
              n.CtrlListenerPortVarName }
        Mgmt :=
          { d.Controller.Mgmt with
            ListenerAddress := resolveString d.Controller.Mgmt.ListenerAddress none env
              n.CtrlMgmtAddressVarName
            ListenerPort := resolveString d.Controller.Mgmt.ListenerPort none env
              n.CtrlMgmtPortVarName }
        HealthChecks := d.Controller.HealthChecks
        EdgeApi :=
          { d.Controller.EdgeApi with
            Address := resolveString d.Controller.EdgeApi.Address none env
              n.CtrlEdgeApiAddressVarName
            Port := resolveString d.Controller.EdgeApi.Port none env n.CtrlEdgeApiPortVarName }
        EdgeEnrollment :=
          { d.Controller.EdgeEnrollment with
            SigningCert := resolveString d.Controller.EdgeEnrollment.SigningCert none env
              n.CtrlSigningCertVarName
            SigningCertKey := resolveString d.Controller.EdgeEnrollment.SigningCertKey none env
              n.CtrlSigningKeyVarName
            EdgeIdentityDuration := identityDuration
            EdgeRouterDuration := routerDuration }
        Web :=
          { BindPoints :=
              { InterfaceAddress :=
                  resolveString d.Controller.Web.BindPoints.InterfaceAddress none env
                    n.CtrlWebInterfaceAddressVarName
                InterfacePort := resolveString d.Controller.Web.BindPoints.InterfacePort none env
                  n.CtrlWebInterfacePortVarName
                AddressAddress := resolveString (osHostname i) none env
                  constants.CtrlWebAdvertisedAddressVarName
                AddressPort := resolveString d.Controller.Web.BindPoints.AddressPort none env
                  n.CtrlWebAdvertisedPortVarName }
            Identity :=
              { Cert := resolveString d.Controller.Web.Identity.Cert none env
                  n.CtrlWebIdentityCertVarName
                ServerCert := resolveString d.Controller.Web.Identity.ServerCert none env
                  n.CtrlWebIdentityServerCertVarName
                Key := resolveString d.Controller.Web.Identity.Key none env
                  n.CtrlWebIdentityKeyVarName
                Ca := resolveString d.Controller.Web.Identity.Ca none env
                  n.CtrlWebIdentityCAVarName }
            Options := d.Controller.Web.Options } }
    Router := d.Router }

/-- The first field of `fields` whose value in `values` is the zero value. -/
def firstUnresolved {α : Type} [DecidableEq α] (zero : α) : List String → List α → Option String
  | f :: fs, v :: vs => if v = zero then some f else firstUnresolved zero fs vs
  | _, _ => none

/-- Modelled from the spec: the build-time check of spec 4.3 (the builder is outside src): a
required field that ended up empty or zero aborts the build and is reported by its
identifier.  The required fields are the ones `TestCreateConfigControllerTemplateValues`
enumerates. -/
def validate (data : ConfigTemplateValues) : Except ConfigError ConfigTemplateValues :=
  match firstUnresolved "" expectedNonEmptyStringFields (expectedNonEmptyStringValues data) with
  | some f => .error (.unresolved f)
  | none =>
    match firstUnresolved 0 expectedNonZeroTimeFields (expectedNonZeroTimeValues data) with
    | some f => .error (.unresolved f)
    | none =>
      match firstUnresolved 0 expectedNonZeroIntFields (expectedNonZeroIntValues data) with
      | some f => .error (.unresolved f)
      | none => .ok data

/-- Modelled from the spec: `build(Controller)` of spec 4.3 (the builder is outside src): the
two enrollment durations are resolved, each with its flag, its environment variable and its
registry value; the tree is assembled, and the required fields are checked.  A coercion error
or an unresolved required field aborts the build; no tree is handed on. -/
def build (i : BuildInput) : Except ConfigError ConfigTemplateValues :=
  match resolveDuration i.frac ".Controller.EdgeEnrollment.EdgeIdentityDuration"
      i.defaults.Controller.EdgeEnrollment.EdgeIdentityDuration
      i.flags.identityEnrollmentDuration i.environ
      constants.CtrlEdgeIdentityEnrollmentDurationVarName with
  | .error e => .error e
  | .ok identityDuration =>
    match resolveDuration i.frac ".Controller.EdgeEnrollment.EdgeRouterDuration"
        i.defaults.Controller.EdgeEnrollment.EdgeRouterDuration
        i.flags.routerEnrollmentDuration i.environ
        constants.CtrlEdgeRouterEnrollmentDurationVarName with
    | .error e => .error e
    | .ok routerDuration => validate (assemble i identityDuration routerDuration)

/-! ## The parsed controller document (`create_config_controller_test.go`) -/

/-- Go `Identity` of the test file. -/
structure Identity where
  Cert : String
  Server_cert : String
  Key : String
  Ca : String
  deriving DecidableEq, Repr

/-- Go `Ctrl` of the test file. -/
structure Ctrl where
  Listener : String
  deriving DecidableEq, Repr

/-- Go `Mgmt` of the test file. -/
structure Mgmt where
  Listener : String
  deriving DecidableEq, Repr

/-- Go `BoltCheck` of the test file. -/
structure BoltCheck where
  Interval : String
  Timeout : String
  InitialDelay : String
  deriving DecidableEq, Repr

/-- Go `HealthChecks` of the test file. -/
structure HealthChecks where
  BoltCheck : BoltCheck
  deriving DecidableEq, Repr

/-- Go `Api` of the test file. -/
structure Api where
  SessionTimeout : String
  Address : String
  deriving DecidableEq, Repr

/-- Go `SigningCert` of the test file. -/
structure SigningCert where
  Cert : String
  Key : String
  deriving DecidableEq, Repr

/-- Go `EdgeIdentity` of the test file. -/
structure EdgeIdentity where
  Duration : String
  deriving DecidableEq, Repr

/-- Go `EdgeRouter` of the test file. -/
structure EdgeRouter where
  Duration : String
  deriving DecidableEq, Repr

/-- Go `Enrollment` of the test file. -/
structure Enrollment where
  SigningCert : SigningCert
  EdgeIdentity : EdgeIdentity
  EdgeRouter : EdgeRouter
  deriving DecidableEq, Repr

/-- Go `Edge` of the test file. -/
structure Edge where
  Api : Api
  Enrollment : Enrollment
  deriving DecidableEq, Repr

/-- Go `BindPoints` of the test file. -/
structure BindPoints where
  BpInterface : String
  Address : String
  deriving DecidableEq, Repr

/-- Go `Options` of the test file. -/
structure Options where
  IdleTimeout : String
  ReadTimeout : String
  WriteTimeout : String
  MinTLSVersion : String
  MaxTLSVersion : String
  deriving DecidableEq, Repr

/-- Go `ApiOptions` of the test file (no fields). -/
structure ApiOptions where
  deriving DecidableEq, Repr

/-- Go `Apis` of the test file. -/
structure Apis where
  Binding : String
  Options : ApiOptions
  deriving DecidableEq, Repr

/-- Go `Web` of the test file. -/
structure Web where
  Name : String
  BindPoints : List BindPoints
  Identity : Identity
  Options : Options
  Apis : List Apis
  deriving DecidableEq, Repr

/-- Go `ControllerConfig` of the test file. -/
structure ControllerConfig where
  V : String
  Db : String
  Identity : Identity
  Ctrl : Ctrl
  Mgmt : Mgmt
  HealthChecks : HealthChecks
  Edge : Edge
  Web : List Web
  deriving DecidableEq, Repr

/-! ## Renderer (spec 4.4) -/

/-- A rendered document: its scalar entries, each under the path of YAML keys that leads to
it (a list index is the key `0`, `1`, ...).  The YAML text itself, and its quoting rules, are
the business of the template engine and of the YAML library and are not modelled. -/
abbrev Document := List (List String × String)

/-- A piece of a template value: literal text or a placeholder. -/
inductive Segment where
  | text (s : String)
  | action (name : String)
  deriving DecidableEq, Repr

/-- A template: for every scalar entry of the document, its path and the pieces of its
value. -/
abbrev Template := List (List String × List Segment)

/-- Modelled from the spec: a duration re-emitted into the document is expressed in minutes
(spec 4.3: `1h` renders as `60m`, the `m` being text of the template).  A whole number of
minutes is printed as its decimal numeral; `fmtMinutes` prints any other duration. -/
def minutesText (fmtMinutes : time.Duration → String) (d : time.Duration) : String :=
  if d % time.Minute = 0 then toString (d / time.Minute) else fmtMinutes d

/-- Modelled from the spec: the value of a placeholder in the value tree (`render` of
spec 4.4; the template engine is an external collaborator).  `none` is a placeholder that the
tree does not have. -/
def placeholderValue (fmtMinutes : time.Duration → String) (data : ConfigTemplateValues)
    (name : String) : Option String :=
  if name = ".Controller.Identity.Cert" then some data.Controller.Identity.Cert
  else if name = ".Controller.Identity.ServerCert" then some data.Controller.Identity.ServerCert
  else if name = ".Controller.Identity.Key" then some data.Controller.Identity.Key
  else if name = ".Controller.Identity.Ca" then some data.Controller.Identity.Ca
  else if name = ".Controller.EdgeEnrollment.SigningCert" then
    some data.Controller.EdgeEnrollment.SigningCert
  else if name = ".Controller.EdgeEnrollment.SigningCertKey" then
    some data.Controller.EdgeEnrollment.SigningCertKey
  else if name = ".Controller.EdgeEnrollment.EdgeIdentityDuration" then
    some (minutesText fmtMinutes data.Controller.EdgeEnrollment.EdgeIdentityDuration)
  else if name = ".Controller.EdgeEnrollment.EdgeRouterDuration" then
    some (minutesText fmtMinutes data.Controller.EdgeEnrollment.EdgeRouterDuration)
  else if name = ".Controller.Web.BindPoints.AddressAddress" then
    some data.Controller.Web.BindPoints.AddressAddress
  else if name = ".Controller.Web.BindPoints.AddressPort" then
    some data.Controller.Web.BindPoints.AddressPort
  else if name = ".Controller.Web.Identity.Cert" then some data.Controller.Web.Identity.Cert
  else if name = ".Controller.Web.Identity.ServerCert" then
    some data.Controller.Web.Identity.ServerCert
  else if name = ".Controller.Web.Identity.Key" then some data.Controller.Web.Identity.Key
  else if name = ".Controller.Web.Identity.Ca" then some data.Controller.Web.Identity.Ca
  else none

/-- Modelled from the spec: substitution of the placeholders of one value (spec 4.4); a
placeholder absent from the tree is a hard error. -/
def renderValue (lookup : String → Option String) : List Segment → Except ConfigError String
  | [] => .ok ""
  | .text s :: rest =>
    match renderValue lookup rest with
    | .ok tail => .ok (s ++ tail)
    | .error e => .error e
  | .action name :: rest =>
    match lookup name with
    | none => .error (.placeholder name)
    | some v =>
      match renderValue lookup rest with
      | .ok tail => .ok (v ++ tail)
      | .error e => .error e

/-- Modelled from the spec: `render(tree, template)` of spec 4.4 (the template engine is an
external collaborator): every value of the template with its placeholders substituted. -/
def render (fmtMinutes : time.Duration → String) (data : ConfigTemplateValues) :
    Template → Except ConfigError Document
  | [] => .ok []
  | (path, segments) :: rest =>
    match renderValue (placeholderValue fmtMinutes data) segments with
    | .error e => .error e
    | .ok v =>
      match render fmtMinutes data rest with
      | .ok doc => .ok ((path, v) :: doc)
      | .error e => .error e

/-- Modelled from the spec: the entries of the controller template
(`config_templates/controller.yml`, outside src) that the spec and the tests determine: the
identity paths, the signing certificate, the two enrollment durations in minutes followed by
`m`, and the advertised address of the first web bind point, composed as `host:port` from its
two separately resolved parts.  The other entries of the template are left out. -/
def controllerTemplate : Template :=
  [(["identity", "cert"], [.action ".Controller.Identity.Cert"]),
   (["identity", "server_cert"], [.action ".Controller.Identity.ServerCert"]),
   (["identity", "key"], [.action ".Controller.Identity.Key"]),
   (["identity", "ca"], [.action ".Controller.Identity.Ca"]),
   (["edge", "enrollment", "signingCert", "cert"],
      [.action ".Controller.EdgeEnrollment.SigningCert"]),
   (["edge", "enrollment", "signingCert", "key"],
      [.action ".Controller.EdgeEnrollment.SigningCertKey"]),
   (["edge", "enrollment", "edgeIdentity", "duration"],
      [.action ".Controller.EdgeEnrollment.EdgeIdentityDuration", .text "m"]),
   (["edge", "enrollment", "edgeRouter", "duration"],
      [.action ".Controller.EdgeEnrollment.EdgeRouterDuration", .text "m"]),
   (["web", "0", "bindPoints", "0", "address"],
      [.action ".Controller.Web.BindPoints.AddressAddress", .text ":",
       .action ".Controller.Web.BindPoints.AddressPort"]),
   (["web", "0", "identity", "cert"], [.action ".Controller.Web.Identity.Cert"]),
   (["web", "0", "identity", "server_cert"], [.action ".Controller.Web.Identity.ServerCert"]),
   (["web", "0", "identity", "key"], [.action ".Controller.Web.Identity.Key"]),
   (["web", "0", "identity", "ca"], [.action ".Controller.Web.Identity.Ca"])]

/-- The scalar of `doc` at `path`; a key that is absent leaves the Go field at its zero
value, the empty string. -/
def scalarAt (doc : Document) (path : List String) : String :=
  match doc.find? (fun e => e.1 = path) with
  | some e => e.2
  | none => ""

/-- Whether `doc` has an entry below `pre`. -/
def hasEntryBelow (doc : Document) (pre : List String) : Bool :=
  doc.any (fun e => pre.isPrefixOf e.1)

/-- Go `configToStruct` of the test file: `yaml.Unmarshal` into a `ControllerConfig`, on the
entries of the document.  The template has one web binding with one bind point. -/
def configToStruct (doc : Document) : ControllerConfig :=
  { V := scalarAt doc ["v"]
    Db := scalarAt doc ["db"]
    Identity :=
      { Cert := scalarAt doc ["identity", "cert"]
        Server_cert := scalarAt doc ["identity", "server_cert"]
        Key := scalarAt doc ["identity", "key"]
        Ca := scalarAt doc ["identity", "ca"] }
    Ctrl := { Listener := scalarAt doc ["ctrl", "listener"] }
    Mgmt := { Listener := scalarAt doc ["mgmt", "listener"] }
    HealthChecks :=
      { BoltCheck :=
          { Interval := scalarAt doc ["healthChecks", "boltCheck", "interval"]
            Timeout := scalarAt doc ["healthChecks", "boltCheck", "timeout"]
            InitialDelay := scalarAt doc ["healthChecks", "boltCheck", "initialDelay"] } }
    Edge :=
      { Api :=
          { SessionTimeout := scalarAt doc ["edge", "api", "sessionTimeout"]
            Address := scalarAt doc ["edge", "api", "address"] }
        Enrollment :=
          { SigningCert :=
              { Cert := scalarAt doc ["edge", "enrollment", "signingCert", "cert"]
                Key := scalarAt doc ["edge", "enrollment", "signingCert", "key"] }
            EdgeIdentity :=
              { Duration := scalarAt doc ["edge", "enrollment", "edgeIdentity", "duration"] }
            EdgeRouter :=
              { Duration := scalarAt doc ["edge", "enrollment", "edgeRouter", "duration"] } } }
    Web :=
      if hasEntryBelow doc ["web", "0"] then
        [{ Name := scalarAt doc ["web", "0", "name"]
           BindPoints :=
             if hasEntryBelow doc ["web", "0", "bindPoints", "0"] then
               [{ BpInterface := scalarAt doc ["web", "0", "bindPoints", "0", "interface"]
                  Address := scalarAt doc ["web", "0", "bindPoints", "0", "address"] }]
             else []
           Identity :=
             { Cert := scalarAt doc ["web", "0", "identity", "cert"]
               Server_cert := scalarAt doc ["web", "0", "identity", "server_cert"]
               Key := scalarAt doc ["web", "0", "identity", "key"]
               Ca := scalarAt doc ["web", "0", "identity", "ca"] }
           Options :=
             { IdleTimeout := scalarAt doc ["web", "0", "options", "idleTimeout"]
               ReadTimeout := scalarAt doc ["web", "0", "options", "readTimeout"]
               WriteTimeout := scalarAt doc ["web", "0", "options", "writeTimeout"]
               MinTLSVersion := scalarAt doc ["web", "0", "options", "minTLSVersion"]
               MaxTLSVersion := scalarAt doc ["web", "0", "options", "maxTLSVersion"] }
           Apis := [] }]
      else [] }

/-- The expression `strings.Split(ctrlConfig.Web[0].BindPoints[0].Address, ":")[0]` of the
tests: the host part of the advertised address of the first web bind point; `none` stands for
the index-out-of-range panic. -/
def webAddressHost (ctrlConfig : ControllerConfig) : Option String :=
  match ctrlConfig.Web with
  | [] => none
  | w :: _ =>
    match w.BindPoints with
    | [] => none
    | b :: _ => some (strings.SplitFirst ':' b.Address)

/-- Modelled from the spec: one controller config generation, the pipeline resolve, build,
render of spec 5 (the command is in `create_config_controller.go`, outside src), followed by
the `configToStruct` of the tests.  The result is the value tree `data` and the parsed
document. -/
def generate (i : BuildInput) : Except ConfigError (ConfigTemplateValues × ControllerConfig) :=
  match build i with
  | .error e => .error e
  | .ok data =>
    match render i.fmtMinutes data controllerTemplate with
    | .error e => .error e
    | .ok doc => .ok (data, configToStruct doc)

/-! ## A concrete installation, for the worked instances -/

/-- A Default Registry with every required value filled. -/
def exampleDefaults : ConfigTemplateValues :=
  { ZitiHome := "/home/ziti"
    Controller :=
      { Identity :=
          { Cert := "", ServerCert := "/pki/ctrl.server.chain.cert", Key := "/pki/ctrl.key",
            Ca := "/pki/ctrl.cas.cert" }
        Ctrl :=
          { ListenerAddress := "0.0.0.0", ListenerPort := "6262",
            MinConnectTimeout := 10 * time.Millisecond,
            MaxConnectTimeout := 60000 * time.Millisecond,
            DefaultConnectTimeout := 1000 * time.Millisecond,
            DefaultQueuedConnects := 1, MinOutstandingConnects := 1,
            MaxOutstandingConnects := 5000, DefaultOutstandingConnects := 16 }
        Mgmt :=
          { ListenerAddress := "0.0.0.0", ListenerPort := "10000",
            MinConnectTimeout := 10 * time.Millisecond,
            MaxConnectTimeout := 60000 * time.Millisecond,
            DefaultConnectTimeout := 1000 * time.Millisecond,
            MinQueuedConnects := 1, MaxQueuedConnects := 5000, DefaultQueuedConnects := 1,
            MinOutstandingConnects := 1, MaxOutstandingConnects := 5000,
            DefaultOutstandingConnects := 16 }
        HealthChecks :=
          { Interval := 30 * time.Second, Timeout := 20 * time.Second,
            InitialDelay := 30 * time.Second }
        EdgeApi :=
          { Address := "0.0.0.0", Port := "1280",
            APIActivityUpdateInterval := 90 * time.Second,
            SessionTimeout := 30 * time.Minute, APIActivityUpdateBatchSize := 250 }
        EdgeEnrollment :=
          { SigningCert := "/pki/signing.cert", SigningCertKey := "/pki/signing.key",
            DefaultEdgeIdentityDuration := 180 * time.Minute,
            EdgeIdentityDuration := 180 * time.Minute,
            DefaultEdgeRouterDuration := 180 * time.Minute,
            EdgeRouterDuration := 180 * time.Minute }
        Web :=
          { BindPoints :=
              { InterfaceAddress := "0.0.0.0", InterfacePort := "1280", AddressAddress := "",
                AddressPort := "1280" }
            Identity :=
              { Cert := "/pki/web.cert", ServerCert := "/pki/web.server.chain.cert",
                Key := "/pki/web.key", Ca := "/pki/web.cas.cert" }
            Options :=
              { IdleTimeout := 5000 * time.Millisecond, ReadTimeout := 5000 * time.Millisecond,
                WriteTimeout := 100000 * time.Millisecond, MinTLSVersion := "TLS1.2",
                MaxTLSVersion := "TLS1.3" } } }
    Router :=
      { Edge :=
          { Hostname := "router", Port := "3022", ListenerBindPort := "10080", IPOverride := "",
            AdvertisedHost := "" }
        IdentityCert := "/pki/router.cert", IdentityServerCert := "/pki/router.server.cert",
        IdentityKey := "/pki/router.key", IdentityCA := "/pki/router.cas.cert" } }

/-- Names for the environment variables whose spelling src does not show. -/
def exampleNames : Constants :=
  { ZitiHomeVarName := "ZITI_HOME"
    CtrlIdentityServerCertVarName := "ZITI_PKI_CTRL_SERVER_CERT"
    CtrlIdentityKeyVarName := "ZITI_PKI_CTRL_KEY"
    CtrlIdentityCAVarName := "ZITI_PKI_CTRL_CA"
    CtrlListenerAddressVarName := "ZITI_CTRL_LISTENER_ADDRESS"
    CtrlListenerPortVarName := "ZITI_CTRL_LISTENER_PORT"
    CtrlMgmtAddressVarName := "ZITI_CTRL_MGMT_ADDRESS"
    CtrlMgmtPortVarName := "ZITI_CTRL_MGMT_PORT"
    CtrlEdgeApiAddressVarName := "ZITI_CTRL_EDGE_API_ADDRESS"
    CtrlEdgeApiPortVarName := "ZITI_CTRL_EDGE_API_PORT"
    CtrlSigningCertVarName := "ZITI_PKI_SIGNER_CERT"
    CtrlSigningKeyVarName := "ZITI_PKI_SIGNER_KEY"
    CtrlWebInterfaceAddressVarName := "ZITI_CTRL_WEB_INTERFACE_ADDRESS"
    CtrlWebInterfacePortVarName := "ZITI_CTRL_WEB_INTERFACE_PORT"
    CtrlWebAdvertisedPortVarName := "ZITI_CTRL_WEB_ADVERTISED_PORT"
    CtrlWebIdentityCertVarName := "ZITI_PKI_WEB_CERT"
    CtrlWebIdentityServerCertVarName := "ZITI_PKI_WEB_SERVER_CERT"
    CtrlWebIdentityKeyVarName := "ZITI_PKI_WEB_KEY"
    CtrlWebIdentityCAVarName := "ZITI_PKI_WEB_CA" }

/-- The environment in which exactly the variables of `keys` are set (what the harness of
the tests leaves after `unsetZitiEnv` and `setEnvByMap(keys)`). -/
def environOf (keys : List (String × String)) : Environ := fun name =>
  match keys.find? (fun kv => kv.1 = name) with
  | some kv => some kv.2
  | none => none

/-- A generation on the example installation with the given flags and variables. -/
def exampleInput (flags : Flags) (keys : List (String × String)) : BuildInput :=
  { flags := flags
    environ := environOf keys
    workingDir := "/work"
    hostname := some "ctrl-host"
    networkName := "10.0.0.7"
    defaults := exampleDefaults
    names := exampleNames
    frac := fun _ _ _ => 0
    fmtMinutes := fun _ => "" }

/-- No flag given. -/
def noFlags : Flags := { routerEnrollmentDuration := none, identityEnrollmentDuration := none }

/-- Go `os.Setenv(key, value)` on the environment. -/
def Setenv (env : Environ) (key value : String) : Environ :=
  fun name => if name = key then some value else env name

/-- Go `os.Unsetenv(key)` on the environment. -/
def Unsetenv (env : Environ) (key : String) : Environ :=
  fun name => if name = key then none else env name

/-- A world in which the template parses, every directory but `/IDoNotExist` exists, files can
be created, and executing the template writes one line. -/
def exampleWorld : World :=
  { parseErr := none
    stat := fun name => if name = "/IDoNotExist" then some syscall.Errno.ENOENT else none
    create := fun _ => none
    execute := fun _ options => (options.OSCommentPrefix ++ " environment\n", none) }

/-- Options of the environment command with the given `Output`. -/
def exampleOptions (output : String) : CreateConfigEnvironmentOptions :=
  { Output := output, Verbose := false, Args := [], OSCommentPrefix := "#",
    OSVarDeclare := "export", EnvVars := [], output := "" }

/-! ## Path elements, for the proofs about `filepath.Clean` -/

namespace filepath

/-- A path element that `Clean` keeps as it is: not empty, not `.`, not `..`, and without a
separator inside. -/
def IsName (e : List Char) : Prop := e ≠ [] ∧ e ≠ ['.'] ∧ e ≠ ['.', '.'] ∧ '/' ∉ e

/-- What the loop of `Clean` keeps true of its output: names on top of `dotdot` elements
`..`, and no `..` at all on a rooted path. -/
def Settled (rooted : Bool) (st : CleanState) : Prop :=
  ∃ top, st.out = top ++ List.replicate st.dotdot ['.', '.'] ∧ (∀ x ∈ top, IsName x) ∧
    (rooted = true → st.dotdot = 0)

end filepath

/-! ## Go library: `fmt` -/

namespace fmt

/-- A piece of a format string: a character of text, a verb with its flag `-` and its width,
or a `%` that ends the format without a verb. -/
inductive Piece where
  | text (c : Char)
  | verb (minus : Bool) (width : Option Nat) (verb : Char)
  | noverb
  deriving DecidableEq, Repr

/-- The pieces of a format string.  After a `%` come the flag `-`, the digits of the width
and the verb; `pending` holds flag and width while they are read.  This is the part of the
syntax of `fmt` that the program uses (no other flag, no precision, no argument index). -/
def scan : List Char → Option (Bool × Option Nat) → List Piece
  | [], none => []
  | [], some _ => [Piece.noverb]
  | c :: cs, none =>
    if c = '%' then scan cs (some (false, none)) else Piece.text c :: scan cs none
  | c :: cs, some (minus, width) =>
    if c = '-' ∧ width = none then scan cs (some (true, none))
    else if time.isDigit c then
      scan cs (some (minus, some (width.getD 0 * 10 + time.digitVal c)))
    else Piece.verb minus width c :: scan cs none

/-- Number of verbs of a list of pieces. -/
def countVerbs : List Piece → Nat
  | [] => 0
  | Piece.verb _ _ _ :: ps => countVerbs ps + 1
  | _ :: ps => countVerbs ps

/-- Number of verbs of a format string, each of which takes one operand. -/
def verbs (format : String) : Nat := countVerbs (scan format.data none)

/-- Go `fmt`: a string operand padded with spaces to the width, on the right with the flag
`-`, on the left without; the width counts runes. -/
def pad (minus : Bool) (width : Option Nat) (s : String) : String :=
  match width with
  | none => s
  | some w =>
    if minus then s ++ String.mk (List.replicate (w - s.length) ' ')
    else String.mk (List.replicate (w - s.length) ' ') ++ s

/-- The output of `fmt.Sprintf` for string operands, piece by piece: `%s` and `%v` print the
next operand, a verb without operand prints `%!s(MISSING)`, operands left over are listed as
`%!(EXTRA string=...)`.  `none` is a verb outside the modelled part of `fmt`. -/
def render : List Piece → List String → Option String
  | [], [] => some ""
  | [], a :: rest =>
    some ("%!(EXTRA " ++ ", ".intercalate ((a :: rest).map (fun x => "string=" ++ x)) ++ ")")
  | Piece.text c :: ps, args => (render ps args).map (fun out => String.singleton c ++ out)
  | Piece.noverb :: ps, args => (render ps args).map (fun out => "%!(NOVERB)" ++ out)
  | Piece.verb minus width v :: ps, args =>
    if v = 's' ∨ v = 'v' then
      match args with
      | [] => (render ps []).map (fun out => "%!" ++ String.singleton v ++ "(MISSING)" ++ out)
      | a :: rest => (render ps rest).map (fun out => pad minus width a ++ out)
    else none

/-- Go `fmt.Sprintf(format, args...)` for string operands. -/
def Sprintf (format : String) (args : List String) : Option String :=
  render (scan format.data none) args

/-- Go `fmt.Sprintf("%.0f", d.Minutes())`: the minutes of `d` rounded to a whole number.  A
whole number of minutes is a float64 without fraction and prints as its decimal numeral; the
rounding of any other duration is floating-point arithmetic and is left to `round`. -/
def SprintfMinutes (round : time.Duration → String) (d : time.Duration) : String :=
  if d % time.Minute = 0 then toString (d / time.Minute) else round d

end fmt

/-! ## The `environment` command: `PreRun` and the help text -/

namespace strconv

/-- Go `strconv.FormatInt(i, 10)`: the decimal numeral of `i`, with `-` in front of a
negative number. -/
def FormatInt (i : Int) : String := toString i

end strconv

namespace logrus

/-- Go `logrus.Level`. -/
inductive Level where
  | PanicLevel
  | FatalLevel
  | ErrorLevel
  | WarnLevel
  | InfoLevel
  | DebugLevel
  | TraceLevel
  deriving DecidableEq, Repr

end logrus

/-- The state of the standard logger of `logrus`: what `logrus.SetLevel` and
`logrus.SetOutput` set. -/
structure Logger where
  Level : logrus.Level
  Out : os.File
  deriving DecidableEq, Repr

/-- The constants of the package `constants` (outside src) that the environment listing uses
next to the names in `Constants`: the names of the router variables and the descriptions.  They
are parameters; the fields carry the names of the Go constants. -/
structure ListingConstants where
  ZitiEdgeRouterNameVarName : String
  ZitiEdgeRouterPortVarName : String
  ZitiEdgeRouterListenerBindPortVarName : String
  ZitiRouterIdentityCertVarName : String
  ZitiRouterIdentityServerCertVarName : String
  ZitiRouterIdentityKeyVarName : String
  ZitiRouterIdentityCAVarName : String
  ZitiEdgeRouterIPOverrideVarName : String
  ZitiEdgeRouterAdvertisedHostVarName : String
  ZitiHomeVarDescription : String
  CtrlIdentityCertVarDescription : String
  CtrlIdentityServerCertVarDescription : String
  CtrlIdentityKeyVarDescription : String
  CtrlIdentityCAVarDescription : String
  CtrlListenerAddressVarDescription : String
  CtrlListenerPortVarDescription : String
  CtrlMgmtAddressVarDescription : String
  CtrlMgmtPortVarDescription : String
  CtrlEdgeApiAddressVarDescription : String
  CtrlEdgeApiPortVarDescription : String
  CtrlSigningCertVarDescription : String
  CtrlSigningKeyVarDescription : String
  CtrlEdgeIdentityEnrollmentDurationVarDescription : String
  CtrlEdgeRouterEnrollmentDurationVarDescription : String
  CtrlWebInterfaceAddressVarDescription : String
  CtrlWebInterfacePortVarDescription : String
  CtrlWebAdvertisedAddressVarDescription : String
  CtrlWebAdvertisedPortVarDescription : String
  CtrlEdgeIdentityCertVarDescription : String
  CtrlEdgeIdentityServerCertVarDescription : String
  CtrlEdgeIdentityKeyVarDescription : String
  CtrlEdgeIdentityCAVarDescription : String
  ZitiEdgeRouterNameVarDescription : String
  ZitiEdgeRouterPortVarDescription : String
  ZitiEdgeRouterListenerBindPortVarDescription : String
  ZitiRouterIdentityCertVarDescription : String
  ZitiRouterIdentityServerCertVarDescription : String
  ZitiRouterIdentityKeyVarDescription : String
  ZitiRouterIdentityCAVarDescription : String
  ZitiEdgeRouterIPOverrideVarDescription : String
  ZitiEdgeRouterAdvertisedHostVarDescription : String

namespace NewCmdCreateConfigEnvironment

/-- The slice that `PreRun` assigns to `environmentOptions.EnvVars`, read from `data`
(lines 95 to 128 of `create_config_environment.go`). -/
def EnvVars (c : Constants) (l : ListingConstants) (data : ConfigTemplateValues) :
    List EnvVar :=
  [⟨c.ZitiHomeVarName, l.ZitiHomeVarDescription, data.ZitiHome⟩,
   ⟨constants.CtrlIdentityCertVarName, l.CtrlIdentityCertVarDescription,
      data.Controller.Identity.Cert⟩,
   ⟨c.CtrlIdentityServerCertVarName, l.CtrlIdentityServerCertVarDescription,
      data.Controller.Identity.ServerCert⟩,
   ⟨c.CtrlIdentityKeyVarName, l.CtrlIdentityKeyVarDescription, data.Controller.Identity.Key⟩,
   ⟨c.CtrlIdentityCAVarName, l.CtrlIdentityCAVarDescription, data.Controller.Identity.Ca⟩,
   ⟨c.CtrlListenerAddressVarName, l.CtrlListenerAddressVarDescription,
      data.Controller.Ctrl.ListenerAddress⟩,
   ⟨c.CtrlListenerPortVarName, l.CtrlListenerPortVarDescription,
      data.Controller.Ctrl.ListenerPort⟩,
   ⟨c.CtrlMgmtAddressVarName, l.CtrlMgmtAddressVarDescription,
      data.Controller.Mgmt.ListenerAddress⟩,
   ⟨c.CtrlMgmtPortVarName, l.CtrlMgmtPortVarDescription, data.Controller.Mgmt.ListenerPort⟩,
   ⟨c.CtrlEdgeApiAddressVarName, l.CtrlEdgeApiAddressVarDescription,
      data.Controller.EdgeApi.Address⟩,
   ⟨c.CtrlEdgeApiPortVarName, l.CtrlEdgeApiPortVarDescription, data.Controller.EdgeApi.Port⟩,
   ⟨c.CtrlSigningCertVarName, l.CtrlSigningCertVarDescription,
      data.Controller.EdgeEnrollment.SigningCert⟩,
   ⟨c.CtrlSigningKeyVarName, l.CtrlSigningKeyVarDescription,
      data.Controller.EdgeEnrollment.SigningCertKey⟩,
   ⟨constants.CtrlEdgeIdentityEnrollmentDurationVarName,
      l.CtrlEdgeIdentityEnrollmentDurationVarDescription,
      strconv.FormatInt data.Controller.EdgeEnrollment.EdgeIdentityDuration⟩,
   ⟨constants.CtrlEdgeRouterEnrollmentDurationVarName,
      l.CtrlEdgeRouterEnrollmentDurationVarDescription,
      strconv.FormatInt data.Controller.EdgeEnrollment.EdgeRouterDuration⟩,
   ⟨c.CtrlWebInterfaceAddressVarName, l.CtrlWebInterfaceAddressVarDescription,
      data.Controller.Web.BindPoints.InterfaceAddress⟩,
   ⟨c.CtrlWebInterfacePortVarName, l.CtrlWebInterfacePortVarDescription,
      data.Controller.Web.BindPoints.InterfacePort⟩,
   ⟨constants.CtrlWebAdvertisedAddressVarName, l.CtrlWebAdvertisedAddressVarDescription,
      data.Controller.Web.BindPoints.AddressAddress⟩,
   ⟨c.CtrlWebAdvertisedPortVarName, l.CtrlWebAdvertisedPortVarDescription,
      data.Controller.Web.BindPoints.AddressPort⟩,
   ⟨c.CtrlWebIdentityCertVarName, l.CtrlEdgeIdentityCertVarDescription,
      data.Controller.Web.Identity.Cert⟩,
   ⟨c.CtrlWebIdentityServerCertVarName, l.CtrlEdgeIdentityServerCertVarDescription,
      data.Controller.Web.Identity.ServerCert⟩,
   ⟨c.CtrlWebIdentityKeyVarName, l.CtrlEdgeIdentityKeyVarDescription,
      data.Controller.Web.Identity.Key⟩,
   ⟨c.CtrlWebIdentityCAVarName, l.CtrlEdgeIdentityCAVarDescription,
      data.Controller.Web.Identity.Ca⟩,
   ⟨l.ZitiEdgeRouterNameVarName, l.ZitiEdgeRouterNameVarDescription,
      data.Router.Edge.Hostname⟩,
   ⟨l.ZitiEdgeRouterPortVarName, l.ZitiEdgeRouterPortVarDescription, data.Router.Edge.Port⟩,
   ⟨l.ZitiEdgeRouterListenerBindPortVarName, l.ZitiEdgeRouterListenerBindPortVarDescription,
      data.Router.Edge.ListenerBindPort⟩,
   ⟨l.ZitiRouterIdentityCertVarName, l.ZitiRouterIdentityCertVarDescription,
      data.Router.IdentityCert⟩,
   ⟨l.ZitiRouterIdentityServerCertVarName, l.ZitiRouterIdentityServerCertVarDescription,
      data.Router.IdentityServerCert⟩,
   ⟨l.ZitiRouterIdentityKeyVarName, l.ZitiRouterIdentityKeyVarDescription,
      data.Router.IdentityKey⟩,
   ⟨l.ZitiRouterIdentityCAVarName, l.ZitiRouterIdentityCAVarDescription,
      data.Router.IdentityCA⟩,
   ⟨l.ZitiEdgeRouterIPOverrideVarName, l.ZitiEdgeRouterIPOverrideVarDescription,
      data.Router.Edge.IPOverride⟩,
   ⟨l.ZitiEdgeRouterAdvertisedHostVarName, l.ZitiEdgeRouterAdvertisedHostVarDescription,
      data.Router.Edge.AdvertisedHost⟩]

/-- The process-wide variables that the `environment` command reads and writes: `data`,
`environmentOptions` and the standard logger. -/
structure State where
  data : ConfigTemplateValues
  environmentOptions : CreateConfigEnvironmentOptions
  logger : Logger
  deriving DecidableEq, Repr

/-- Go `PreRun` of the `environment` command.  `GOOS` is `runtime.GOOS`.  The five calls that
fill `data` (`populateConfigValues`, `SetZitiRouterIdentity`, `SetControllerIdentity`,
`SetEdgeConfig`, `SetWebConfig`) are outside src; `populate` stands for what they do to
`data`. -/
def PreRun (GOOS : String) (populate : ConfigTemplateValues → ConfigTemplateValues)
    (c : Constants) (l : ListingConstants) (s : State) : State :=
  let data := populate s.data
  let withVars : CreateConfigEnvironmentOptions :=
    { s.environmentOptions with EnvVars := EnvVars c l data }
  let withTokens : CreateConfigEnvironmentOptions :=
    if GOOS = "windows" then { withVars with OSCommentPrefix := "rem", OSVarDeclare := "SET" }
    else { withVars with OSCommentPrefix := "#", OSVarDeclare := "export" }
  let logger : Logger :=
    if withTokens.Verbose then
      { Level := logrus.Level.DebugLevel
        Out := if strings.ToLower withTokens.Output != "stdout" then os.File.Stdout
          else os.File.Stderr }
    else s.logger
  { data := data, environmentOptions := withTokens, logger := logger }

/-- The first argument of `fmt.Sprintf` in `NewCmdCreateConfigEnvironment`: two lines of
introduction, an empty line between them, and 34 rows (lines 163 to 198). -/
def createConfigLongFormat : String :=
  "Creates a config file for specified Ziti component using environment variables which have default values but can be manually set to override the config output.\n\n"
    ++ "The following environment variables can be set to override config values (current value is displayed):\n"
    ++ "%-36s %-50s %s\n"
    ++ String.join (List.replicate 32 "%-40s %-50s %s\n")
    ++ "%-40s %-50s %s"

/-- The operands of `fmt.Sprintf` in `NewCmdCreateConfigEnvironment`, read from `data` as it
is when the command is built (lines 199 to 232).  `round` stands for the float64 rounding of
`%.0f`. -/
def createConfigLongArgs (round : time.Duration → String) (c : Constants)
    (l : ListingConstants) (data : ConfigTemplateValues) : List String :=
  [c.ZitiHomeVarName, l.ZitiHomeVarDescription, data.ZitiHome,
   constants.CtrlIdentityCertVarName, l.CtrlIdentityCertVarDescription,
     data.Controller.Identity.Cert,
   c.CtrlIdentityServerCertVarName, l.CtrlIdentityServerCertVarDescription,
     data.Controller.Identity.ServerCert,
   c.CtrlIdentityKeyVarName, l.CtrlIdentityKeyVarDescription, data.Controller.Identity.Key,
   c.CtrlIdentityCAVarName, l.CtrlIdentityCAVarDescription, data.Controller.Identity.Ca,
   c.CtrlListenerAddressVarName, l.CtrlListenerAddressVarDescription,
     data.Controller.Ctrl.ListenerAddress,
   c.CtrlListenerPortVarName, l.CtrlListenerPortVarDescription,
     data.Controller.Ctrl.ListenerPort,
   c.CtrlMgmtAddressVarName, l.CtrlMgmtAddressVarDescription,
     data.Controller.Mgmt.ListenerAddress,
   c.CtrlMgmtPortVarName, l.CtrlMgmtPortVarDescription, data.Controller.Mgmt.ListenerPort,
   c.CtrlEdgeApiAddressVarName, l.CtrlEdgeApiAddressVarDescription,
     data.Controller.EdgeApi.Address,
   c.CtrlEdgeApiPortVarName, l.CtrlEdgeApiPortVarDescription, data.Controller.EdgeApi.Port,
   c.CtrlSigningCertVarName, l.CtrlSigningCertVarDescription,
     data.Controller.EdgeEnrollment.SigningCert,
   c.CtrlSigningKeyVarName, l.CtrlSigningKeyVarDescription,
     data.Controller.EdgeEnrollment.SigningCertKey,
   constants.CtrlEdgeIdentityEnrollmentDurationVarName,
     l.CtrlEdgeIdentityEnrollmentDurationVarDescription,
     strconv.FormatInt data.Controller.EdgeEnrollment.EdgeIdentityDuration,
   constants.CtrlEdgeRouterEnrollmentDurationVarName,
     l.CtrlEdgeRouterEnrollmentDurationVarDescription,
     strconv.FormatInt data.Controller.EdgeEnrollment.EdgeRouterDuration,
   c.CtrlWebInterfaceAddressVarName, l.CtrlWebInterfaceAddressVarDescription,
     data.Controller.Web.BindPoints.InterfaceAddress,
   c.CtrlWebInterfacePortVarName, l.CtrlWebInterfacePortVarDescription,
     data.Controller.Web.BindPoints.InterfacePort,
   constants.CtrlWebAdvertisedAddressVarName, l.CtrlWebAdvertisedAddressVarDescription,
     data.Controller.Web.BindPoints.AddressAddress,
   c.CtrlWebAdvertisedPortVarName, l.CtrlWebAdvertisedPortVarDescription,
     data.Controller.Web.BindPoints.AddressPort,
   c.CtrlWebIdentityCertVarName, l.CtrlEdgeIdentityCertVarDescription,
     data.Controller.Web.Identity.Cert,
   c.CtrlWebIdentityServerCertVarName, l.CtrlEdgeIdentityServerCertVarDescription,
     data.Controller.Web.Identity.ServerCert,
   c.CtrlWebIdentityKeyVarName, l.CtrlEdgeIdentityKeyVarDescription,
     data.Controller.Web.Identity.Key,
   c.CtrlWebIdentityCAVarName, l.CtrlEdgeIdentityCAVarDescription,
     data.Controller.Web.Identity.Ca,
   l.ZitiEdgeRouterNameVarName, l.ZitiEdgeRouterNameVarDescription, data.Router.Edge.Hostname,
   l.ZitiEdgeRouterPortVarName, l.ZitiEdgeRouterPortVarDescription, data.Router.Edge.Port,
   l.ZitiEdgeRouterListenerBindPortVarName, l.ZitiEdgeRouterListenerBindPortVarDescription,
     data.Router.Edge.ListenerBindPort,
   l.ZitiRouterIdentityCertVarName, l.ZitiRouterIdentityCertVarDescription,
     data.Router.IdentityCert,
   l.ZitiRouterIdentityServerCertVarName, l.ZitiRouterIdentityServerCertVarDescription,
     data.Router.IdentityServerCert,
   l.ZitiRouterIdentityKeyVarName, l.ZitiRouterIdentityKeyVarDescription,
     data.Router.IdentityKey,
   l.ZitiRouterIdentityCAVarName, l.ZitiRouterIdentityCAVarDescription,
     data.Router.IdentityCA,
   l.ZitiEdgeRouterIPOverrideVarName, l.ZitiEdgeRouterIPOverrideVarDescription,
     data.Router.Edge.IPOverride,
   l.ZitiEdgeRouterAdvertisedHostVarName, l.ZitiEdgeRouterAdvertisedHostVarDescription,
     data.Router.Edge.AdvertisedHost,
   constants.CtrlEdgeIdentityEnrollmentDurationVarName,
     l.CtrlEdgeIdentityEnrollmentDurationVarDescription,
     fmt.SprintfMinutes round data.Controller.EdgeEnrollment.EdgeIdentityDuration,
   constants.CtrlEdgeRouterEnrollmentDurationVarName,
     l.CtrlEdgeRouterEnrollmentDurationVarDescription,
     fmt.SprintfMinutes round data.Controller.EdgeEnrollment.EdgeRouterDuration]

/-- The text `createConfigLong` that `NewCmdCreateConfigEnvironment` stores as `cmd.Long`. -/
def createConfigLong (round : time.Duration → String) (c : Constants)
    (l : ListingConstants) (data : ConfigTemplateValues) : Option String :=
  fmt.Sprintf createConfigLongFormat (createConfigLongArgs round c l data)

/-! The help text once more, this time as the table that the description of it states, to be
compared with the text that `fmt.Sprintf` builds. -/

/-- The introduction of the help text: two sentences with an empty line between them. -/
def helpIntroduction : String :=
  "Creates a config file for specified Ziti component using environment variables which have default values but can be manually set to override the config output.\n\n"
    ++ "The following environment variables can be set to override config values (current value is displayed):\n"

/-- The entries of the help table: the 32 entries of the listing that `PreRun` builds, in
their order, and then the two enrollment durations once more, with the value in minutes. -/
def helpEntries (round : time.Duration → String) (c : Constants) (l : ListingConstants)
    (data : ConfigTemplateValues) : List EnvVar :=
  EnvVars c l data ++
    [⟨constants.CtrlEdgeIdentityEnrollmentDurationVarName,
        l.CtrlEdgeIdentityEnrollmentDurationVarDescription,
        fmt.SprintfMinutes round data.Controller.EdgeEnrollment.EdgeIdentityDuration⟩,
     ⟨constants.CtrlEdgeRouterEnrollmentDurationVarName,
        l.CtrlEdgeRouterEnrollmentDurationVarDescription,
        fmt.SprintfMinutes round data.Controller.EdgeEnrollment.EdgeRouterDuration⟩]

/-- One row of the help table: the name, filled with spaces up to `width` characters, a
space, the description, filled with spaces up to 50 characters, a space, and the value. -/
def helpRow (width : Nat) (e : EnvVar) : String :=
  e.Name ++ String.mk (List.replicate (width - e.Name.length) ' ') ++ " "
    ++ e.Description ++ String.mk (List.replicate (50 - e.Description.length) ' ') ++ " "
    ++ e.Value

/-- The rows of the help table, one per entry: the name column is 36 wide in the first row
and 40 wide in the others. -/
def helpRows (round : time.Duration → String) (c : Constants) (l : ListingConstants)
    (data : ConfigTemplateValues) : List String :=
  match helpEntries round c l data with
  | [] => []
  | e :: es => helpRow 36 e :: es.map (helpRow 40)

/-- The help text as a table: the introduction, then the rows, one per line, with no line
end after the last. -/
def helpTable (round : time.Duration → String) (c : Constants) (l : ListingConstants)
    (data : ConfigTemplateValues) : String :=
  helpIntroduction ++ "\n".intercalate (helpRows round c l data)

end NewCmdCreateConfigEnvironment

/-! ## The harness of the controller tests -/

/-- Modelled from the spec: the Go struct `CreateConfigControllerOptions` (declared in
`create_config_controller.go`, outside src): the embedded `CreateConfigOptions` and the flags
of the controller command. -/
structure CreateConfigControllerOptions extends CreateConfigOptions where
  flags : Flags

/-- Go `CreateConfigControllerOptions{}`: every field at its zero value, no flag set. -/
def emptyCreateConfigControllerOptions : CreateConfigControllerOptions :=
  { Output := "", Verbose := false, Args := [], flags := noFlags }

/-- Go `ConfigTemplateValues{}`, the value tree with every field at its zero value. -/
def emptyConfigTemplateValues : ConfigTemplateValues :=
  { ZitiHome := ""
    Controller :=
      { Identity := { Cert := "", ServerCert := "", Key := "", Ca := "" }
        Ctrl :=
          { ListenerAddress := "", ListenerPort := "", MinConnectTimeout := 0,
            MaxConnectTimeout := 0, DefaultConnectTimeout := 0, DefaultQueuedConnects := 0,
            MinOutstandingConnects := 0, MaxOutstandingConnects := 0,
            DefaultOutstandingConnects := 0 }
        Mgmt :=
          { ListenerAddress := "", ListenerPort := "", MinConnectTimeout := 0,
            MaxConnectTimeout := 0, DefaultConnectTimeout := 0, MinQueuedConnects := 0,
            MaxQueuedConnects := 0, DefaultQueuedConnects := 0, MinOutstandingConnects := 0,
            MaxOutstandingConnects := 0, DefaultOutstandingConnects := 0 }
        HealthChecks := { Interval := 0, Timeout := 0, InitialDelay := 0 }
        EdgeApi :=
          { Address := "", Port := "", APIActivityUpdateInterval := 0, SessionTimeout := 0,
            APIActivityUpdateBatchSize := 0 }
        EdgeEnrollment :=
          { SigningCert := "", SigningCertKey := "", DefaultEdgeIdentityDuration := 0,
            EdgeIdentityDuration := 0, DefaultEdgeRouterDuration := 0, EdgeRouterDuration := 0 }
        Web :=
          { BindPoints :=
              { InterfaceAddress := "", InterfacePort := "", AddressAddress := "",
                AddressPort := "" }
            Identity := { Cert := "", ServerCert := "", Key := "", Ca := "" }
            Options :=
              { IdleTimeout := 0, ReadTimeout := 0, WriteTimeout := 0, MinTLSVersion := "",
                MaxTLSVersion := "" } } }
    Router :=
      { Edge :=
          { Hostname := "", Port := "", ListenerBindPort := "", IPOverride := "",
            AdvertisedHost := "" }
        IdentityCert := "", IdentityServerCert := "", IdentityKey := "", IdentityCA := "" } }

/-- The process-wide state of the controller tests: the variables `controllerOptions` and
`data`, and the environment of the process. -/
structure ProcessState where
  controllerOptions : CreateConfigControllerOptions
  data : ConfigTemplateValues
  environ : Environ

/-- Modelled from the spec: the fixed, named set of environment variables of spec 6, as far
as the controller build reads them: the four names the tests spell out and the names in
`Constants`. -/
def zitiEnvNames (names : Constants) : List String :=
  [constants.CtrlIdentityCertVarName,
   constants.CtrlWebAdvertisedAddressVarName,
   constants.CtrlEdgeIdentityEnrollmentDurationVarName,
   constants.CtrlEdgeRouterEnrollmentDurationVarName,
   names.ZitiHomeVarName,
   names.CtrlIdentityServerCertVarName,
   names.CtrlIdentityKeyVarName,
   names.CtrlIdentityCAVarName,
   names.CtrlListenerAddressVarName,
   names.CtrlListenerPortVarName,
   names.CtrlMgmtAddressVarName,
   names.CtrlMgmtPortVarName,
   names.CtrlEdgeApiAddressVarName,
   names.CtrlEdgeApiPortVarName,
   names.CtrlSigningCertVarName,
   names.CtrlSigningKeyVarName,
   names.CtrlWebInterfaceAddressVarName,
   names.CtrlWebInterfacePortVarName,
   names.CtrlWebAdvertisedPortVarName,
   names.CtrlWebIdentityCertVarName,
   names.CtrlWebIdentityServerCertVarName,
   names.CtrlWebIdentityKeyVarName,
   names.CtrlWebIdentityCAVarName]

/-- Modelled from the spec: `unsetZitiEnv` of the tests (declared outside src): every
variable of the named set is removed from the environment. -/
def unsetZitiEnv (names : Constants) (env : Environ) : Environ :=
  (zitiEnvNames names).foldl Unsetenv env

/-- Modelled from the spec: `setEnvByMap(keys)` of the tests (declared outside src): every
key of the map is set to its value.  The map is given as the list of its entries. -/
def setEnvByMap (keys : List (String × String)) (env : Environ) : Environ :=
  keys.foldl (fun e kv => Setenv e kv.1 kv.2) env

/-- Go `clearControllerOptionsAndTemplateData` of the test file. -/
def clearControllerOptionsAndTemplateData (names : Constants) (s : ProcessState) :
    ProcessState :=
  { controllerOptions := emptyCreateConfigControllerOptions
    data := emptyConfigTemplateValues
    environ := unsetZitiEnv names s.environ }

/-- Go `execCreateConfigControllerCommand(args, keys)` of the test file, from the state `s`
the process is in.  `base` carries what the command finds outside the process state (working
directory, hostname, registry, names), `defaultOutput` is the constant of that name, `args` are
the flags as the CLI framework parses them.  The command itself is outside src: per spec 3 it
constructs a fresh value tree, here by `generate`; when the generation fails nothing is printed
and the empty output is parsed. -/
def execCreateConfigControllerCommand (base : BuildInput) (defaultOutput : String)
    (s : ProcessState) (args : Flags) (keys : List (String × String)) :
    ProcessState × ControllerConfig :=
  let cleared := clearControllerOptionsAndTemplateData base.names s
  let withOutput : ProcessState :=
    { cleared with
      controllerOptions := { cleared.controllerOptions with Output := defaultOutput } }
  let withEnv : ProcessState :=
    { withOutput with environ := setEnvByMap keys withOutput.environ }
  match generate { base with flags := args, environ := withEnv.environ } with
  | .ok (data, cfg) =>
    ({ withEnv with
        controllerOptions := { withEnv.controllerOptions with flags := args }
        data := data }, cfg)
  | .error _ => (withEnv, configToStruct [])

/-! ## Open files, and more worked instances -/

/-- The files that are open after the effects of a call, given the files open before: a file
is open from the `os.Create` that succeeded on it until it is closed. -/
def openFiles (w : World) : List Effect → List os.File → List os.File
  | [], opened => opened
  | Effect.Create name :: es, opened =>
    openFiles w es (if w.create name = none then os.File.named name :: opened else opened)
  | Effect.Close f :: es, opened => openFiles w es (opened.erase f)
  | _ :: es, opened => openFiles w es opened

/-- A world in which the template parses and every file can be created, but executing the
template fails after it has written its first line. -/
def failingWorld : World :=
  { parseErr := none
    stat := fun _ => none
    create := fun _ => none
    execute := fun _ options =>
      (options.OSCommentPrefix ++ " environment\n",
        some (GoError.New "template: environment-config:3:12: executing")) }

/-- A world in which the embedded template does not parse. -/
def brokenTemplateWorld : World :=
  { parseErr := some (GoError.New "template: environment-config:1: unexpected EOF")
    stat := fun _ => none
    create := fun _ => none
    execute := fun _ _ => ("", none) }

/-- Values for the constants whose spelling src does not show. -/
def exampleListing : ListingConstants :=
  { ZitiEdgeRouterNameVarName := "ZITI_EDGE_ROUTER_NAME"
    ZitiEdgeRouterPortVarName := "ZITI_EDGE_ROUTER_PORT"
    ZitiEdgeRouterListenerBindPortVarName := "ZITI_EDGE_ROUTER_LISTENER_BIND_PORT"
    ZitiRouterIdentityCertVarName := "ZITI_ROUTER_IDENTITY_CERT"
    ZitiRouterIdentityServerCertVarName := "ZITI_ROUTER_IDENTITY_SERVER_CERT"
    ZitiRouterIdentityKeyVarName := "ZITI_ROUTER_IDENTITY_KEY"
    ZitiRouterIdentityCAVarName := "ZITI_ROUTER_IDENTITY_CA"
    ZitiEdgeRouterIPOverrideVarName := "ZITI_EDGE_ROUTER_IP_OVERRIDE"
    ZitiEdgeRouterAdvertisedHostVarName := "ZITI_EDGE_ROUTER_ADVERTISED_HOST"
    ZitiHomeVarDescription := "Description of ZitiHome"
    CtrlIdentityCertVarDescription := "Description of CtrlIdentityCert"
    CtrlIdentityServerCertVarDescription := "Description of CtrlIdentityServerCert"
    CtrlIdentityKeyVarDescription := "Description of CtrlIdentityKey"
    CtrlIdentityCAVarDescription := "Description of CtrlIdentityCA"
    CtrlListenerAddressVarDescription := "Description of CtrlListenerAddress"
    CtrlListenerPortVarDescription := "Description of CtrlListenerPort"
    CtrlMgmtAddressVarDescription := "Description of CtrlMgmtAddress"
    CtrlMgmtPortVarDescription := "Description of CtrlMgmtPort"
    CtrlEdgeApiAddressVarDescription := "Description of CtrlEdgeApiAddress"
    CtrlEdgeApiPortVarDescription := "Description of CtrlEdgeApiPort"
    CtrlSigningCertVarDescription := "Description of CtrlSigningCert"
    CtrlSigningKeyVarDescription := "Description of CtrlSigningKey"
    CtrlEdgeIdentityEnrollmentDurationVarDescription := "Description of CtrlEdgeIdentityEnrollmentDuration"
    CtrlEdgeRouterEnrollmentDurationVarDescription := "Description of CtrlEdgeRouterEnrollmentDuration"
    CtrlWebInterfaceAddressVarDescription := "Description of CtrlWebInterfaceAddress"
    CtrlWebInterfacePortVarDescription := "Description of CtrlWebInterfacePort"
    CtrlWebAdvertisedAddressVarDescription := "Description of CtrlWebAdvertisedAddress"
    CtrlWebAdvertisedPortVarDescription := "Description of CtrlWebAdvertisedPort"
    CtrlEdgeIdentityCertVarDescription := "Description of CtrlEdgeIdentityCert"
    CtrlEdgeIdentityServerCertVarDescription := "Description of CtrlEdgeIdentityServerCert"
    CtrlEdgeIdentityKeyVarDescription := "Description of CtrlEdgeIdentityKey"
    CtrlEdgeIdentityCAVarDescription := "Description of CtrlEdgeIdentityCA"
    ZitiEdgeRouterNameVarDescription := "Description of ZitiEdgeRouterName"
    ZitiEdgeRouterPortVarDescription := "Description of ZitiEdgeRouterPort"
    ZitiEdgeRouterListenerBindPortVarDescription := "Description of ZitiEdgeRouterListenerBindPort"
    ZitiRouterIdentityCertVarDescription := "Description of ZitiRouterIdentityCert"
    ZitiRouterIdentityServerCertVarDescription := "Description of ZitiRouterIdentityServerCert"
    ZitiRouterIdentityKeyVarDescription := "Description of ZitiRouterIdentityKey"
    ZitiRouterIdentityCAVarDescription := "Description of ZitiRouterIdentityCA"
    ZitiEdgeRouterIPOverrideVarDescription := "Description of ZitiEdgeRouterIPOverride"
    ZitiEdgeRouterAdvertisedHostVarDescription := "Description of ZitiEdgeRouterAdvertisedHost" }

/-- A state of the `environment` command before `PreRun`, with the given `Output` and
`Verbose`. -/
def exampleState (output : String) (verbose : Bool) : NewCmdCreateConfigEnvironment.State :=
  { data := exampleDefaults
    environmentOptions := { exampleOptions output with Verbose := verbose }
    logger := { Level := logrus.Level.InfoLevel, Out := os.File.Stderr } }

/-- A world in which the template parses, the directory `/locked` cannot be examined
(permission denied), and the files `/etc/env.sh` and `/locked/env.sh` cannot be created
(permission denied), while every other directory exists and every other file can be
created. -/
def deniedWorld : World :=
  { parseErr := none
    stat := fun name => if name = "/locked" then some syscall.Errno.EACCES else none
    create := fun name =>
      if name = "/etc/env.sh" ∨ name = "/locked/env.sh" then some syscall.Errno.EACCES else none
    execute := fun _ options => (options.OSCommentPrefix ++ " environment\n", none) }

/-! ## Lemmas -/

/-- The checks of `firstUnresolved` cover every value when there is a name for each. -/
theorem firstUnresolved_none {α : Type} [DecidableEq α] (zero : α) :
    ∀ (fields : List String) (values : List α), values.length ≤ fields.length →
      firstUnresolved zero fields values = none → ∀ v ∈ values, v ≠ zero
  | _, [], _, _ => by simp
  | [], _ :: _, hlen, _ => by simp at hlen
  | f :: fs, v :: vs, hlen, h => by
    unfold firstUnresolved at h
    by_cases hv : v = zero
    · simp [hv] at h
    · simp only [hv, if_false] at h
      have ih := firstUnresolved_none zero fs vs (by simpa using hlen) h
      intro x hx
      rcases List.mem_cons.mp hx with rfl | hx
      · exact hv
      · exact ih x hx

/-- A tree passes `validate` only unchanged and with every required field filled. -/
theorem validate_ok {data out : ConfigTemplateValues} (h : validate data = .ok out) :
    out = data ∧ (∀ v ∈ expectedNonEmptyStringValues data, v ≠ "") ∧
      (∀ v ∈ expectedNonZeroTimeValues data, v ≠ 0) ∧
      (∀ v ∈ expectedNonZeroIntValues data, v ≠ 0) := by
  unfold validate at h
  split at h
  · exact absurd h (by simp)
  · rename_i hs
    split at h
    · exact absurd h (by simp)
    · rename_i ht
      split at h
      · exact absurd h (by simp)
      · rename_i hi
        refine ⟨by simpa using h.symm, ?_, ?_, ?_⟩
        · exact firstUnresolved_none "" _ _ (by simp [expectedNonEmptyStringFields, expectedNonEmptyStringValues]) hs
        · exact firstUnresolved_none 0 _ _ (by simp [expectedNonZeroTimeFields, expectedNonZeroTimeValues]) ht
        · exact firstUnresolved_none 0 _ _ (by simp [expectedNonZeroIntFields, expectedNonZeroIntValues]) hi

/-- The two enrollment durations of a build, resolved from flag, variable and default. -/
theorem build_ok {i : BuildInput} {data : ConfigTemplateValues} (h : build i = .ok data) :
    ∃ identityDuration routerDuration,
      resolveDuration i.frac ".Controller.EdgeEnrollment.EdgeIdentityDuration"
        i.defaults.Controller.EdgeEnrollment.EdgeIdentityDuration
        i.flags.identityEnrollmentDuration i.environ
        constants.CtrlEdgeIdentityEnrollmentDurationVarName = .ok identityDuration ∧
      resolveDuration i.frac ".Controller.EdgeEnrollment.EdgeRouterDuration"
        i.defaults.Controller.EdgeEnrollment.EdgeRouterDuration
        i.flags.routerEnrollmentDuration i.environ
        constants.CtrlEdgeRouterEnrollmentDurationVarName = .ok routerDuration ∧
      data = assemble i identityDuration routerDuration ∧
      validate data = .ok data := by
  unfold build at h
  split at h
  · exact absurd h (by simp)
  · rename_i dI hI
    split at h
    · exact absurd h (by simp)
    · rename_i dR hR
      have hv := (validate_ok h).1
      subst hv
      exact ⟨dI, dR, hI, hR, rfl, h⟩


/-- Modelled document of a tree: what `render` yields on the controller template. -/
theorem render_controllerTemplate (fmtMinutes : time.Duration → String)
    (data : ConfigTemplateValues) :
    render fmtMinutes data controllerTemplate = .ok
      [(["identity", "cert"], data.Controller.Identity.Cert),
       (["identity", "server_cert"], data.Controller.Identity.ServerCert),
       (["identity", "key"], data.Controller.Identity.Key),
       (["identity", "ca"], data.Controller.Identity.Ca),
       (["edge", "enrollment", "signingCert", "cert"], data.Controller.EdgeEnrollment.SigningCert),
       (["edge", "enrollment", "signingCert", "key"],
          data.Controller.EdgeEnrollment.SigningCertKey),
       (["edge", "enrollment", "edgeIdentity", "duration"],
          minutesText fmtMinutes data.Controller.EdgeEnrollment.EdgeIdentityDuration ++ "m"),
       (["edge", "enrollment", "edgeRouter", "duration"],
          minutesText fmtMinutes data.Controller.EdgeEnrollment.EdgeRouterDuration ++ "m"),
       (["web", "0", "bindPoints", "0", "address"],
          data.Controller.Web.BindPoints.AddressAddress ++ ":" ++
            data.Controller.Web.BindPoints.AddressPort),
       (["web", "0", "identity", "cert"], data.Controller.Web.Identity.Cert),
       (["web", "0", "identity", "server_cert"], data.Controller.Web.Identity.ServerCert),
       (["web", "0", "identity", "key"], data.Controller.Web.Identity.Key),
       (["web", "0", "identity", "ca"], data.Controller.Web.Identity.Ca)] := by
  simp [render, renderValue, placeholderValue, controllerTemplate, String.append_assoc]


/-- First piece of a split: the characters before the first separator. -/
theorem splitChars_head (sep : Char) :
    ∀ xs : List Char,
      ∃ rest, strings.splitChars sep xs = xs.takeWhile (fun c => c != sep) :: rest
  | [] => ⟨[], rfl⟩
  | c :: cs => by
    obtain ⟨rest, ih⟩ := splitChars_head sep cs
    by_cases hc : c = sep
    · exact ⟨strings.splitChars sep cs, by simp [strings.splitChars, hc]⟩
    · exact ⟨rest, by simp [strings.splitChars, hc, ih]⟩

/-- The first piece of a split is the text before the first separator. -/
theorem SplitFirst_eq (sep : Char) (s : String) :
    strings.SplitFirst sep s = String.mk (s.data.takeWhile (fun c => c != sep)) := by
  obtain ⟨rest, h⟩ := splitChars_head sep s.data
  simp [strings.SplitFirst, strings.Split, h]

/-- Characters before the first separator of `xs ++ sep :: ys` lie in `xs`. -/
theorem takeWhile_append_sep (sep : Char) (ys : List Char) :
    ∀ xs : List Char, (xs ++ sep :: ys).takeWhile (fun c => c != sep)
      = xs.takeWhile (fun c => c != sep)
  | [] => by simp [List.takeWhile]
  | c :: cs => by
    by_cases hc : c = sep
    · simp [List.takeWhile, hc]
    · simp [List.takeWhile, hc, takeWhile_append_sep sep ys cs]

/-- The host part of `host:port` is the host part of `host`. -/
theorem SplitFirst_host_port (host port : String) :
    strings.SplitFirst ':' (host ++ ":" ++ port) = strings.SplitFirst ':' host := by
  rw [SplitFirst_eq, SplitFirst_eq]
  have : (host ++ ":" ++ port).data = host.data ++ ':' :: port.data := by
    simp [String.data_append]
  rw [this, takeWhile_append_sep]

/-- A text without separator is its own first piece. -/
theorem SplitFirst_self (sep : Char) (s : String) (h : sep ∉ s.data) :
    strings.SplitFirst sep s = s := by
  rw [SplitFirst_eq]
  have : s.data.takeWhile (fun c => c != sep) = s.data := by
    apply List.takeWhile_eq_self_iff.mpr
    intro c hc
    have : c ≠ sep := fun hcs => h (hcs ▸ hc)
    simpa using this
  rw [this]

/-- What a successful generation hands back: the built tree and the parsed entries of the
document rendered from it. -/
theorem generate_ok {i : BuildInput} {data : ConfigTemplateValues} {cfg : ControllerConfig}
    (h : generate i = .ok (data, cfg)) :
    build i = .ok data ∧
    cfg.Identity.Cert = data.Controller.Identity.Cert ∧
    cfg.Edge.Enrollment.EdgeIdentity.Duration =
      minutesText i.fmtMinutes data.Controller.EdgeEnrollment.EdgeIdentityDuration ++ "m" ∧
    cfg.Edge.Enrollment.EdgeRouter.Duration =
      minutesText i.fmtMinutes data.Controller.EdgeEnrollment.EdgeRouterDuration ++ "m" ∧
    webAddressHost cfg = some (strings.SplitFirst ':' data.Controller.Web.BindPoints.AddressAddress) := by
  unfold generate at h
  split at h
  · exact absurd h (by simp)
  · rename_i d hb
    rw [render_controllerTemplate] at h
    simp only [Except.ok.injEq, Prod.mk.injEq] at h
    obtain ⟨rfl, rfl⟩ := h
    refine ⟨hb, ?_, ?_, ?_, ?_⟩
    · simp [configToStruct, scalarAt]
    · simp [configToStruct, scalarAt]
    · simp [configToStruct, scalarAt]
    · simp [configToStruct, scalarAt, hasEntryBelow, webAddressHost, SplitFirst_host_port]


/-- The digit characters that `Nat.repr` writes are digits with the right value. -/
theorem digitChar_spec (d : Nat) (h : d < 10) :
    time.isDigit (Nat.digitChar d) = true ∧ time.digitVal (Nat.digitChar d) = d := by
  interval_cases d <;> exact ⟨by decide, by decide⟩

/-- The digits that `Nat.toDigitsCore` puts in front of `ds` are decimal digits that denote
`n`. -/
theorem toDigitsCore_spec : ∀ (fuel n : Nat) (ds : List Char), n < fuel →
    ∃ digits, Nat.toDigitsCore 10 fuel n ds = digits ++ ds ∧ digits ≠ [] ∧
      digits.all time.isDigit = true ∧
      ∀ x, digits.foldl (fun acc c => acc * 10 + time.digitVal c) x
        = x * 10 ^ digits.length + n
  | 0, n, _, h => absurd h (Nat.not_lt_zero n)
  | fuel + 1, n, ds, h => by
    have hd := digitChar_spec (n % 10) (Nat.mod_lt n (by norm_num))
    unfold Nat.toDigitsCore
    by_cases hn : n / 10 = 0
    · refine ⟨[Nat.digitChar (n % 10)], by simp [hn], by simp, by simp [hd.1], ?_⟩
      intro x
      have hmod : n % 10 = n := Nat.mod_eq_of_lt (by omega)
      simp only [List.foldl_cons, List.foldl_nil, List.length_singleton, pow_one, hd.2]
      omega
    · have hlt : n / 10 < fuel := by omega
      obtain ⟨digits, h1, _, h3, h4⟩ :=
        toDigitsCore_spec fuel (n / 10) (Nat.digitChar (n % 10) :: ds) hlt
      refine ⟨digits ++ [Nat.digitChar (n % 10)], by simp [hn, h1], by simp,
        by simp [List.all_append, h3, hd.1], ?_⟩
      intro x
      simp only [List.foldl_append, List.foldl_cons, List.foldl_nil, h4, hd.2,
        List.length_append, List.length_singleton]
      have := Nat.div_add_mod n 10
      rw [pow_succ]
      nlinarith [this]

/-- The decimal numeral of `n` is a non-empty string of digits that denotes `n`. -/
theorem numeral_spec (n : Nat) :
    (toString n).data ≠ [] ∧ (toString n).data.all time.isDigit = true ∧
      decimalValue (toString n).data = n := by
  obtain ⟨digits, h1, h2, h3, h4⟩ := toDigitsCore_spec (n + 1) n [] (Nat.lt_succ_self n)
  have hdata : (toString n).data = digits := by
    show (Nat.repr n).data = digits
    simp [Nat.repr, Nat.toDigits, h1, List.asString]
  rw [hdata]
  refine ⟨h2, h3, ?_⟩
  simpa [decimalValue] using h4 0

/-- On a string of digits `leadingInt` fails or consumes everything. -/
theorem leadingInt_digits : ∀ (cs : List Char) (x : Nat), cs.all time.isDigit = true →
    time.leadingInt cs x = none ∨ ∃ v, time.leadingInt cs x = some (v, [])
  | [], x, _ => Or.inr ⟨x, rfl⟩
  | c :: cs, x, h => by
    simp only [List.all_cons, Bool.and_eq_true] at h
    unfold time.leadingInt
    simp only [h.1, if_true]
    split
    · exact Or.inl rfl
    · split
      · exact Or.inl rfl
      · exact leadingInt_digits cs _ h.2

/-- A digit is neither a sign nor a point. -/
theorem isDigit_not_sign {c : Char} (h : time.isDigit c = true) :
    c ≠ '-' ∧ c ≠ '+' ∧ c ≠ '.' := by
  refine ⟨?_, ?_, ?_⟩ <;> (rintro rfl; exact absurd h (by decide))

/-- A bare number other than `0` is not a standard duration string: the unit is missing. -/
theorem ParseDuration_digits (frac : time.FracNanos) (s : String) (hne : s.data ≠ [])
    (hd : s.data.all time.isDigit = true) (h0 : s.data ≠ ['0']) :
    time.ParseDuration frac s = none := by
  obtain ⟨cs⟩ := s
  cases cs with
  | nil => exact absurd rfl hne
  | cons c cs =>
    have hc : time.isDigit c = true := by
      simp only [List.all_cons, Bool.and_eq_true] at hd
      exact hd.1
    obtain ⟨h1, h2, _⟩ := isDigit_not_sign hc
    have hloop : time.parseLoop frac ((c :: cs).length + 1) (c :: cs) 0 = some none := by
      unfold time.parseLoop
      simp only [hc, Bool.or_true, Bool.not_true, Bool.false_eq_true, if_false]
      rcases leadingInt_digits (c :: cs) 0 hd with h | ⟨v, h⟩
      · simp [h]
      · simp [h, time.optFraction]
    simp only [List.length_cons] at hloop
    simp only [time.ParseDuration]
    simp [h1, h2, h0, hloop]

/-- The value of `time.Minute`: sixty thousand million nanoseconds. -/
theorem Minute_eq : time.Minute = 60000000000 := by decide

/-- Whatever parses as a standard duration string is coerced to the same duration. -/
theorem coerceDuration_of_ParseDuration (frac : time.FracNanos) (s : String)
    (d : time.Duration) (h : time.ParseDuration frac s = some d) :
    coerceDuration frac s = some d := by
  unfold coerceDuration
  by_cases hdig : s.data ≠ [] ∧ s.data.all time.isDigit = true
  · by_cases h0 : s.data = ['0']
    · have hs : s = "0" := by
        obtain ⟨cs⟩ := s
        simp only at h0
        subst h0
        rfl
      subst hs
      have : d = 0 := by
        have h' : time.ParseDuration frac "0" = some 0 := rfl
        rw [h'] at h
        exact (Option.some.inj h).symm
      subst this
      rfl
    · rw [ParseDuration_digits frac s hdig.1 hdig.2 h0] at h
      exact absurd h (by simp)
  · rw [if_neg hdig]
    exact h

/-- A number of nanoseconds that fits `int64` is not changed by the wrap. -/
theorem wrapInt64_of_fits (x : Int) (h0 : 0 ≤ x) (h1 : x < 2 ^ 63) : time.wrapInt64 x = x := by
  have h2 : x < 9223372036854775808 := by
    have : (2 : Int) ^ 63 = 9223372036854775808 := by norm_num
    omega
  unfold time.wrapInt64
  rw [Int.emod_eq_of_lt (by omega) (by omega)]
  omega

/-- A bare numeral is coerced to that many minutes, as long as they fit `int64`. -/
theorem coerceDuration_numeral (frac : time.FracNanos) (n : Nat)
    (hfit : (n : Int) * time.Minute < 2 ^ 63) :
    coerceDuration frac (toString n) = some ((n : Int) * time.Minute) := by
  obtain ⟨h1, h2, h3⟩ := numeral_spec n
  have hpow : (2 : Int) ^ 63 = 9223372036854775808 := by norm_num
  have hpowN : (2 : Nat) ^ 63 = 9223372036854775808 := by norm_num
  have hn : n < 2 ^ 63 := by
    rw [Minute_eq, hpow] at hfit
    omega
  have h0 : (0 : Int) ≤ (n : Int) * time.Minute := by
    rw [Minute_eq]
    omega
  unfold coerceDuration
  rw [if_pos ⟨h1, h2⟩, h3, if_pos hn, wrapInt64_of_fits _ h0 hfit]

/-- A whole number of minutes is printed as its numeral. -/
theorem minutesText_whole (fmtMinutes : time.Duration → String) (n : Nat) :
    minutesText fmtMinutes ((n : Int) * time.Minute) = toString n := by
  have hm : time.Minute ≠ 0 := by decide
  unfold minutesText
  rw [if_pos (Int.mul_emod_left _ _), Int.mul_ediv_cancel _ hm]
  rfl


/-- What `leadingInt` leaves is no longer than what it was given. -/
theorem leadingInt_length : ∀ (cs : List Char) (x v : Nat) (r : List Char),
    time.leadingInt cs x = some (v, r) → r.length ≤ cs.length
  | [], x, v, r, h => by
    simp only [time.leadingInt, Option.some.injEq, Prod.mk.injEq] at h
    rw [← h.2]
  | c :: cs, x, v, r, h => by
    unfold time.leadingInt at h
    split at h
    · split at h
      · exact absurd h (by simp)
      · dsimp only at h
        split at h
        · exact absurd h (by simp)
        · have := leadingInt_length cs _ v r h
          simp only [List.length_cons]
          omega
    · simp only [Option.some.injEq, Prod.mk.injEq] at h
      rw [← h.2]

/-- What `leadingFraction` leaves is no longer than what it was given. -/
theorem leadingFraction_length : ∀ (cs : List Char) (x k : Nat) (overflow : Bool),
    (time.leadingFraction cs x k overflow).2.2.length ≤ cs.length
  | [], _, _, _ => by simp [time.leadingFraction]
  | c :: cs, x, k, overflow => by
    unfold time.leadingFraction
    split
    · split
      · have := leadingFraction_length cs x k true
        simp only [List.length_cons]; omega
      · split
        · have := leadingFraction_length cs x k true
          simp only [List.length_cons]; omega
        · dsimp only
          split
          · have := leadingFraction_length cs x k true
            simp only [List.length_cons]; omega
          · have := leadingFraction_length cs (x * 10 + time.digitVal c) (k + 1) false
            simp only [List.length_cons]; omega
    · simp

/-- What the fraction step leaves is no longer than what it was given. -/
theorem optFraction_length (s1 : List Char) :
    (time.optFraction s1).2.2.1.length ≤ s1.length := by
  unfold time.optFraction
  split
  · rename_i s2
    have := leadingFraction_length s2 0 0 false
    simp only [List.length_cons]
    omega
  · simp

/-- Dropping a non-empty run of leading characters shortens the list. -/
theorem dropWhile_length_lt (p : Char → Bool) (l : List Char) (h : l.takeWhile p ≠ []) :
    (l.dropWhile p).length < l.length := by
  have h1 : (l.takeWhile p).length + (l.dropWhile p).length = l.length := by
    rw [← List.length_append, List.takeWhile_append_dropWhile]
  have h2 : 0 < (l.takeWhile p).length := List.length_pos.mpr h
  omega

/-- The loop of `time.ParseDuration` ends before fuel greater than the length of its input
is used up. -/
theorem parseLoop_fuel (frac : time.FracNanos) : ∀ (fuel : Nat) (s : List Char) (d : Nat),
    s.length < fuel → ∃ r, time.parseLoop frac fuel s d = some r
  | 0, s, _, h => absurd h (Nat.not_lt_zero _)
  | fuel + 1, [], d, _ => ⟨some d, rfl⟩
  | fuel + 1, c :: cs, d, h => by
    unfold time.parseLoop
    simp only
    split
    · exact ⟨_, rfl⟩
    · split
      · exact ⟨_, rfl⟩
      · rename_i v s1 hint
        have hs1 := leadingInt_length _ _ _ _ hint
        have hfr := optFraction_length s1
        generalize time.optFraction s1 = fr at hfr ⊢
        split
        · exact ⟨_, rfl⟩
        · split
          · exact ⟨_, rfl⟩
          · rename_i hu
            have hdrop := dropWhile_length_lt _ _ hu
            have hlen : (List.dropWhile (fun c => !(decide (c = '.') || time.isDigit c))
                fr.2.2.1).length < fuel := by
              simp only [List.length_cons] at h hs1
              omega
            split
            · exact ⟨_, rfl⟩
            · split
              · exact ⟨_, rfl⟩
              · split
                · split
                  · exact ⟨_, rfl⟩
                  · split
                    · exact ⟨_, rfl⟩
                    · exact parseLoop_fuel frac fuel _ _ hlen
                · split
                  · exact ⟨_, rfl⟩
                  · exact parseLoop_fuel frac fuel _ _ hlen


/-- A variable set to the empty string and a variable that is not set give the same
override, for every field. -/
theorem override_Setenv_blank (cliValue : Option String) (env : Environ) (key name : String) :
    override cliValue (Setenv env key "") name = override cliValue (Unsetenv env key) name := by
  unfold override Setenv Unsetenv
  cases cliValue with
  | some c => rfl
  | none => by_cases h : name = key <;> simp [h]

/-- The string field resolved from a variable that is set and not empty. -/
theorem resolveString_env (defaultValue v : String) (env : Environ) (envName : String)
    (he : env envName = some v) (hv : v ≠ "") :
    resolveString defaultValue none env envName = v := by
  simp [resolveString, override, he, hv]

/-- The string field resolved without an override is the default. -/
theorem resolveString_default (defaultValue : String) (env : Environ) (envName : String)
    (he : env envName = none ∨ env envName = some "") :
    resolveString defaultValue none env envName = defaultValue := by
  rcases he with he | he <;> simp [resolveString, override, he]

/-- The tree of a successful generation is an assembled tree that passed the check. -/
theorem generate_data {i : BuildInput} {data : ConfigTemplateValues} {cfg : ControllerConfig}
    (h : generate i = .ok (data, cfg)) :
    (∃ identityDuration routerDuration, data = assemble i identityDuration routerDuration) ∧
      validate data = .ok data := by
  obtain ⟨dI, dR, _, _, hdata, hv⟩ := build_ok (generate_ok h).1
  exact ⟨⟨dI, dR, hdata⟩, hv⟩

/-- When every value is filled, `firstUnresolved` reports nothing. -/
theorem firstUnresolved_filled {α : Type} [DecidableEq α] (zero : α) :
    ∀ (fields : List String) (values : List α), (∀ v ∈ values, v ≠ zero) →
      firstUnresolved zero fields values = none
  | [], _, _ => by simp [firstUnresolved]
  | _ :: _, [], _ => by simp [firstUnresolved]
  | f :: fs, v :: vs, h => by
    have hv : v ≠ zero := h v (List.mem_cons_self v vs)
    have ih := firstUnresolved_filled zero fs vs (fun x hx => h x (List.mem_cons_of_mem v hx))
    simp [firstUnresolved, hv, ih]

/-- A tree with every required field filled passes the build-time check. -/
theorem validate_filled (data : ConfigTemplateValues)
    (hs : ∀ v ∈ expectedNonEmptyStringValues data, v ≠ "")
    (ht : ∀ v ∈ expectedNonZeroTimeValues data, v ≠ 0)
    (hi : ∀ v ∈ expectedNonZeroIntValues data, v ≠ 0) :
    validate data = .ok data := by
  unfold validate
  rw [firstUnresolved_filled "" _ _ hs, firstUnresolved_filled 0 _ _ ht,
    firstUnresolved_filled 0 _ _ hi]

/-- Rendering the controller template never fails: every build that succeeds is a generation
that succeeds, with the same tree. -/
theorem generate_of_build {i : BuildInput} {data : ConfigTemplateValues}
    (h : build i = .ok data) : ∃ cfg, generate i = .ok (data, cfg) := by
  unfold generate
  rw [h]
  simp only
  rw [render_controllerTemplate]
  exact ⟨_, rfl⟩

/-- A generation succeeds as soon as the two enrollment durations resolve and the assembled
tree has every required field filled. -/
theorem generate_succeeds (i : BuildInput) (dI dR : time.Duration)
    (hI : resolveDuration i.frac ".Controller.EdgeEnrollment.EdgeIdentityDuration"
      i.defaults.Controller.EdgeEnrollment.EdgeIdentityDuration
      i.flags.identityEnrollmentDuration i.environ
      constants.CtrlEdgeIdentityEnrollmentDurationVarName = .ok dI)
    (hR : resolveDuration i.frac ".Controller.EdgeEnrollment.EdgeRouterDuration"
      i.defaults.Controller.EdgeEnrollment.EdgeRouterDuration
      i.flags.routerEnrollmentDuration i.environ
      constants.CtrlEdgeRouterEnrollmentDurationVarName = .ok dR)
    (hs : ∀ v ∈ expectedNonEmptyStringValues (assemble i dI dR), v ≠ "")
    (ht : ∀ v ∈ expectedNonZeroTimeValues (assemble i dI dR), v ≠ 0)
    (hi : ∀ v ∈ expectedNonZeroIntValues (assemble i dI dR), v ≠ 0) :
    ∃ cfg, generate i = .ok (assemble i dI dR, cfg) := by
  apply generate_of_build
  unfold build
  rw [hI, hR]
  exact validate_filled _ hs ht hi

/-- With a flag given, the duration resolves to the coerced flag value. -/
theorem resolveDuration_flag (frac : time.FracNanos) (field : String)
    (defaultValue d : time.Duration) (c : String) (env : Environ) (envName : String)
    (hc : coerceDuration frac c = some d) :
    resolveDuration frac field defaultValue (some c) env envName = .ok d := by
  simp [resolveDuration, override, hc]

/-- Without a flag, a variable that is set and not empty is the override. -/
theorem resolveDuration_env (frac : time.FracNanos) (field : String)
    (defaultValue d : time.Duration) (e : String) (env : Environ) (envName : String)
    (he : env envName = some e) (hne : e ≠ "") (hc : coerceDuration frac e = some d) :
    resolveDuration frac field defaultValue none env envName = .ok d := by
  simp [resolveDuration, override, he, hne, hc]

/-! ## The claims -/

/-- C1, precedence law.  For each of the two enrollment-duration fields: when the flag is
given with a value `c` that coerces to the duration `d`, and the environment variable of the
field is set as well (to any `e`), the field resolves to `d`; every generation then carries `d`
in the value tree and `d` in minutes, followed by `m`, in the parsed document, and it does not
carry the duration of `e` when that is a different one. -/
theorem cli_flag_outranks_environment (i : BuildInput) (c e : String) (d : time.Duration)
    (hc : coerceDuration i.frac c = some d) :
    (i.flags.identityEnrollmentDuration = some c →
      i.environ "ZITI_EDGE_IDENTITY_ENROLLMENT_DURATION" = some e →
      resolveDuration i.frac ".Controller.EdgeEnrollment.EdgeIdentityDuration"
        i.defaults.Controller.EdgeEnrollment.EdgeIdentityDuration
        i.flags.identityEnrollmentDuration i.environ
        "ZITI_EDGE_IDENTITY_ENROLLMENT_DURATION" = .ok d ∧
      ∀ data cfg, generate i = .ok (data, cfg) →
        data.Controller.EdgeEnrollment.EdgeIdentityDuration = d ∧
        cfg.Edge.Enrollment.EdgeIdentity.Duration = minutesText i.fmtMinutes d ++ "m" ∧
        ∀ d', coerceDuration i.frac e = some d' → d' ≠ d →
          data.Controller.EdgeEnrollment.EdgeIdentityDuration ≠ d') ∧
    (i.flags.routerEnrollmentDuration = some c →
      i.environ "ZITI_EDGE_ROUTER_ENROLLMENT_DURATION" = some e →
      resolveDuration i.frac ".Controller.EdgeEnrollment.EdgeRouterDuration"
        i.defaults.Controller.EdgeEnrollment.EdgeRouterDuration
        i.flags.routerEnrollmentDuration i.environ
        "ZITI_EDGE_ROUTER_ENROLLMENT_DURATION" = .ok d ∧
      ∀ data cfg, generate i = .ok (data, cfg) →
        data.Controller.EdgeEnrollment.EdgeRouterDuration = d ∧
        cfg.Edge.Enrollment.EdgeRouter.Duration = minutesText i.fmtMinutes d ++ "m" ∧
        ∀ d', coerceDuration i.frac e = some d' → d' ≠ d →
          data.Controller.EdgeEnrollment.EdgeRouterDuration ≠ d') := by
  constructor
  · intro hflag _
    have hres := resolveDuration_flag i.frac ".Controller.EdgeEnrollment.EdgeIdentityDuration"
      i.defaults.Controller.EdgeEnrollment.EdgeIdentityDuration d c i.environ
      "ZITI_EDGE_IDENTITY_ENROLLMENT_DURATION" hc
    rw [← hflag] at hres
    refine ⟨hres, ?_⟩
    intro data cfg h
    obtain ⟨hb, _, hI, _, _⟩ := generate_ok h
    obtain ⟨dI, dR, h1, _, hdata, _⟩ := build_ok hb
    have hd : dI = d := by
      rw [constants.CtrlEdgeIdentityEnrollmentDurationVarName, hres] at h1
      exact (Except.ok.inj h1).symm
    have hfield : data.Controller.EdgeEnrollment.EdgeIdentityDuration = d := by
      rw [hdata, ← hd]; rfl
    refine ⟨hfield, ?_, ?_⟩
    · rw [hI, hfield]
    · intro d' _ hne
      rw [hfield]
      exact fun hEq => hne hEq.symm
  · intro hflag _
    have hres := resolveDuration_flag i.frac ".Controller.EdgeEnrollment.EdgeRouterDuration"
      i.defaults.Controller.EdgeEnrollment.EdgeRouterDuration d c i.environ
      "ZITI_EDGE_ROUTER_ENROLLMENT_DURATION" hc
    rw [← hflag] at hres
    refine ⟨hres, ?_⟩
    intro data cfg h
    obtain ⟨hb, _, _, hR, _⟩ := generate_ok h
    obtain ⟨dI, dR, _, h2, hdata, _⟩ := build_ok hb
    have hd : dR = d := by
      rw [constants.CtrlEdgeRouterEnrollmentDurationVarName, hres] at h2
      exact (Except.ok.inj h2).symm
    have hfield : data.Controller.EdgeEnrollment.EdgeRouterDuration = d := by
      rw [hdata, ← hd]; rfl
    refine ⟨hfield, ?_, ?_⟩
    · rw [hR, hfield]
    · intro d' _ hne
      rw [hfield]
      exact fun hEq => hne hEq.symm

/-- C1 at `--identityEnrollmentDuration 10m` together with
`ZITI_EDGE_IDENTITY_ENROLLMENT_DURATION=5`: the tree carries ten minutes, the document `10m`,
and not the five minutes of the variable. -/
theorem cli_flag_outranks_environment_witness :
    ∃ data cfg,
      generate (exampleInput
        { routerEnrollmentDuration := none, identityEnrollmentDuration := some "10m" }
        [("ZITI_EDGE_IDENTITY_ENROLLMENT_DURATION", "5")]) = .ok (data, cfg) ∧
      data.Controller.EdgeEnrollment.EdgeIdentityDuration = 10 * time.Minute ∧
      cfg.Edge.Enrollment.EdgeIdentity.Duration = "10m" ∧
      data.Controller.EdgeEnrollment.EdgeIdentityDuration ≠ 5 * time.Minute := by
  have hok : ∃ r, generate (exampleInput
        { routerEnrollmentDuration := none, identityEnrollmentDuration := some "10m" }
        [("ZITI_EDGE_IDENTITY_ENROLLMENT_DURATION", "5")]) = .ok r := ⟨_, rfl⟩
  obtain ⟨⟨data, cfg⟩, h⟩ := hok
  have hthm := ((cli_flag_outranks_environment (exampleInput
        { routerEnrollmentDuration := none, identityEnrollmentDuration := some "10m" }
        [("ZITI_EDGE_IDENTITY_ENROLLMENT_DURATION", "5")]) "10m" "5" (10 * time.Minute)
        (by decide)).1 rfl rfl).2 data cfg h
  refine ⟨data, cfg, h, hthm.1, ?_, ?_⟩
  · rw [hthm.2.1]; rfl
  · exact hthm.2.2 (5 * time.Minute) (by decide) (by decide)

/-- C2, blank-env-var law.  A generation with `ZITI_PKI_CTRL_CERT` (respectively
`ZITI_CTRL_WEB_ADVERTISED_ADDRESS`) set to the empty string is the same, tree and document, as
the generation with that variable not set; and with the variable blank the resolved
`Controller.Identity.Cert` is the default path and `Controller.Web.BindPoints.AddressAddress`
is the hostname of the operating system, neither of them the empty string. -/
theorem blank_variable_is_unset (i : BuildInput) :
    generate { i with environ := Setenv i.environ "ZITI_PKI_CTRL_CERT" "" }
      = generate { i with environ := Unsetenv i.environ "ZITI_PKI_CTRL_CERT" } ∧
    generate { i with environ := Setenv i.environ "ZITI_CTRL_WEB_ADVERTISED_ADDRESS" "" }
      = generate { i with environ := Unsetenv i.environ "ZITI_CTRL_WEB_ADVERTISED_ADDRESS" } ∧
    (i.environ "ZITI_PKI_CTRL_CERT" = some "" →
      (∀ dI dR, (assemble i dI dR).Controller.Identity.Cert = defaultIdentityCert i) ∧
      ∀ data cfg, generate i = .ok (data, cfg) →
        data.Controller.Identity.Cert = defaultIdentityCert i ∧
        data.Controller.Identity.Cert ≠ "") ∧
    (i.environ "ZITI_CTRL_WEB_ADVERTISED_ADDRESS" = some "" →
      (∀ dI dR, (assemble i dI dR).Controller.Web.BindPoints.AddressAddress = osHostname i) ∧
      ∀ data cfg, generate i = .ok (data, cfg) →
        data.Controller.Web.BindPoints.AddressAddress = osHostname i ∧
        data.Controller.Web.BindPoints.AddressAddress ≠ "") := by
  refine ⟨?_, ?_, ?_, ?_⟩
  · simp only [generate, build, resolveDuration, assemble, resolveString, defaultIdentityCert,
      HostnameOrNetworkName, osHostname, override_Setenv_blank]
  · simp only [generate, build, resolveDuration, assemble, resolveString, defaultIdentityCert,
      HostnameOrNetworkName, osHostname, override_Setenv_blank]
  · intro he
    have hres : ∀ dI dR, (assemble i dI dR).Controller.Identity.Cert = defaultIdentityCert i :=
      fun _ _ => resolveString_default _ _ _ (Or.inr he)
    refine ⟨hres, ?_⟩
    intro data cfg h
    obtain ⟨⟨dI, dR, hdata⟩, hv⟩ := generate_data h
    have hfilled := (validate_ok hv).2.1 data.Controller.Identity.Cert
      (by simp [expectedNonEmptyStringValues])
    exact ⟨by rw [hdata]; exact hres dI dR, hfilled⟩
  · intro he
    have hres : ∀ dI dR,
        (assemble i dI dR).Controller.Web.BindPoints.AddressAddress = osHostname i :=
      fun _ _ => resolveString_default _ _ _ (Or.inr he)
    refine ⟨hres, ?_⟩
    intro data cfg h
    obtain ⟨⟨dI, dR, hdata⟩, hv⟩ := generate_data h
    have hfilled := (validate_ok hv).2.1 data.Controller.Web.BindPoints.AddressAddress
      (by simp [expectedNonEmptyStringValues])
    exact ⟨by rw [hdata]; exact hres dI dR, hfilled⟩

/-- C2 on the example installation with both variables blank, as in
`TestCtrlConfigDefaultsWhenBlank`: the certificate path is `/work/ctrl-host.cert` and the
advertised address is `ctrl-host`. -/
theorem blank_variable_is_unset_witness :
    ∃ data cfg,
      generate (exampleInput noFlags
        [("ZITI_PKI_CTRL_CERT", ""), ("ZITI_CTRL_WEB_ADVERTISED_ADDRESS", "")])
        = .ok (data, cfg) ∧
      data.Controller.Identity.Cert = "/work/ctrl-host.cert" ∧
      data.Controller.Web.BindPoints.AddressAddress = "ctrl-host" := by
  have hok : ∃ r, generate (exampleInput noFlags
        [("ZITI_PKI_CTRL_CERT", ""), ("ZITI_CTRL_WEB_ADVERTISED_ADDRESS", "")]) = .ok r :=
    ⟨_, rfl⟩
  obtain ⟨⟨data, cfg⟩, h⟩ := hok
  have hthm := blank_variable_is_unset (exampleInput noFlags
        [("ZITI_PKI_CTRL_CERT", ""), ("ZITI_CTRL_WEB_ADVERTISED_ADDRESS", "")])
  have hcert := ((hthm.2.2.1 rfl).2 data cfg h).1
  have haddr := ((hthm.2.2.2 rfl).2 data cfg h).1
  exact ⟨data, cfg, h, by rw [hcert]; rfl, by rw [haddr]; rfl⟩

/-- C3 as stated fails: with `ZITI_CTRL_WEB_ADVERTISED_ADDRESS=fe80::1` the tree holds
`fe80::1`, the document holds the address `fe80::1:1280`, and its host part, the text before
the first `:`, is `fe80`. -/
theorem environment_outranks_default_counterexample :
    ∃ data cfg,
      generate (exampleInput noFlags [("ZITI_CTRL_WEB_ADVERTISED_ADDRESS", "fe80::1")])
        = .ok (data, cfg) ∧
      data.Controller.Web.BindPoints.AddressAddress = "fe80::1" ∧
      (cfg.Web.map (fun w => w.BindPoints.map (fun b => b.Address))) = [["fe80::1:1280"]] ∧
      webAddressHost cfg = some "fe80" ∧
      webAddressHost cfg ≠ some "fe80::1" := by
  refine ⟨_, _, rfl, ?_, ?_, ?_, ?_⟩ <;> decide

/-- C3, amended.  For every non-empty `v`: with `ZITI_PKI_CTRL_CERT=v` the field
`Controller.Identity.Cert` resolves to `v`, in the tree and as `identity.cert` of the parsed
document; with `ZITI_CTRL_WEB_ADVERTISED_ADDRESS=v` the field
`Controller.Web.BindPoints.AddressAddress` resolves to `v`, and the host part of the first web
bind point's address in the document is the text of `v` before its first `:`, which is `v`
itself when `v` contains no `:`. -/
theorem environment_outranks_default (i : BuildInput) (v : String) (hv : v ≠ "") :
    (i.environ "ZITI_PKI_CTRL_CERT" = some v →
      (∀ dI dR, (assemble i dI dR).Controller.Identity.Cert = v) ∧
      ∀ data cfg, generate i = .ok (data, cfg) →
        data.Controller.Identity.Cert = v ∧ cfg.Identity.Cert = v) ∧
    (i.environ "ZITI_CTRL_WEB_ADVERTISED_ADDRESS" = some v →
      (∀ dI dR, (assemble i dI dR).Controller.Web.BindPoints.AddressAddress = v) ∧
      ∀ data cfg, generate i = .ok (data, cfg) →
        data.Controller.Web.BindPoints.AddressAddress = v ∧
        webAddressHost cfg = some (strings.SplitFirst ':' v) ∧
        (':' ∉ v.data → webAddressHost cfg = some v)) := by
  constructor
  · intro he
    have hres : ∀ dI dR, (assemble i dI dR).Controller.Identity.Cert = v :=
      fun _ _ => resolveString_env _ _ _ _ he hv
    refine ⟨hres, ?_⟩
    intro data cfg h
    obtain ⟨⟨dI, dR, hdata⟩, _⟩ := generate_data h
    have hfield : data.Controller.Identity.Cert = v := by rw [hdata]; exact hres dI dR
    exact ⟨hfield, by rw [(generate_ok h).2.1, hfield]⟩
  · intro he
    have hres : ∀ dI dR, (assemble i dI dR).Controller.Web.BindPoints.AddressAddress = v :=
      fun _ _ => resolveString_env _ _ _ _ he hv
    refine ⟨hres, ?_⟩
    intro data cfg h
    obtain ⟨⟨dI, dR, hdata⟩, _⟩ := generate_data h
    have hfield : data.Controller.Web.BindPoints.AddressAddress = v := by
      rw [hdata]; exact hres dI dR
    have hhost := (generate_ok h).2.2.2.2
    rw [hfield] at hhost
    exact ⟨hfield, hhost, fun hcolon => by rw [hhost, SplitFirst_self ':' v hcolon]⟩

/-- C3, amended, at the values of `TestZitiCtrlIdentityCert` and
`TestAdvertisedBindAddress`. -/
theorem environment_outranks_default_witness :
    ∃ data cfg,
      generate (exampleInput noFlags [("ZITI_PKI_CTRL_CERT", "/var/test/custom/path"),
        ("ZITI_CTRL_WEB_ADVERTISED_ADDRESS", "123.456.7.8")]) = .ok (data, cfg) ∧
      data.Controller.Identity.Cert = "/var/test/custom/path" ∧
      cfg.Identity.Cert = "/var/test/custom/path" ∧
      data.Controller.Web.BindPoints.AddressAddress = "123.456.7.8" ∧
      webAddressHost cfg = some "123.456.7.8" := by
  have hok : ∃ r, generate (exampleInput noFlags [("ZITI_PKI_CTRL_CERT", "/var/test/custom/path"),
        ("ZITI_CTRL_WEB_ADVERTISED_ADDRESS", "123.456.7.8")]) = .ok r := ⟨_, rfl⟩
  obtain ⟨⟨data, cfg⟩, h⟩ := hok
  have hcert := ((environment_outranks_default (exampleInput noFlags
        [("ZITI_PKI_CTRL_CERT", "/var/test/custom/path"),
         ("ZITI_CTRL_WEB_ADVERTISED_ADDRESS", "123.456.7.8")]) "/var/test/custom/path"
        (by decide)).1 rfl).2 data cfg h
  have haddr := ((environment_outranks_default (exampleInput noFlags
        [("ZITI_PKI_CTRL_CERT", "/var/test/custom/path"),
         ("ZITI_CTRL_WEB_ADVERTISED_ADDRESS", "123.456.7.8")]) "123.456.7.8"
        (by decide)).2 rfl).2 data cfg h
  exact ⟨data, cfg, h, hcert.1, hcert.2, haddr.1, haddr.2.2 (by decide)⟩

/-- C4, default derivation.  When `ZITI_PKI_CTRL_CERT` is not set, `Controller.Identity.Cert`
resolves to `workingDir + "/" + HostnameOrNetworkName() + ".cert"`; when
`ZITI_CTRL_WEB_ADVERTISED_ADDRESS` is not set, `Controller.Web.BindPoints.AddressAddress`
resolves to the hostname the operating system reports; both for every working directory and
hostname, in the assembled tree and in the tree (and document) of every generation. -/
theorem default_derivation (i : BuildInput) :
    (i.environ "ZITI_PKI_CTRL_CERT" = none →
      (∀ dI dR, (assemble i dI dR).Controller.Identity.Cert
        = i.workingDir ++ "/" ++ HostnameOrNetworkName i ++ ".cert") ∧
      ∀ data cfg, generate i = .ok (data, cfg) →
        data.Controller.Identity.Cert
          = i.workingDir ++ "/" ++ HostnameOrNetworkName i ++ ".cert" ∧
        cfg.Identity.Cert = i.workingDir ++ "/" ++ HostnameOrNetworkName i ++ ".cert") ∧
    (i.environ "ZITI_CTRL_WEB_ADVERTISED_ADDRESS" = none →
      (∀ dI dR, (assemble i dI dR).Controller.Web.BindPoints.AddressAddress = osHostname i) ∧
      ∀ data cfg, generate i = .ok (data, cfg) →
        data.Controller.Web.BindPoints.AddressAddress = osHostname i) := by
  constructor
  · intro he
    have hres : ∀ dI dR, (assemble i dI dR).Controller.Identity.Cert
        = i.workingDir ++ "/" ++ HostnameOrNetworkName i ++ ".cert" :=
      fun _ _ => resolveString_default _ _ _ (Or.inl he)
    refine ⟨hres, ?_⟩
    intro data cfg h
    obtain ⟨⟨dI, dR, hdata⟩, _⟩ := generate_data h
    have hfield : data.Controller.Identity.Cert
        = i.workingDir ++ "/" ++ HostnameOrNetworkName i ++ ".cert" := by
      rw [hdata]; exact hres dI dR
    exact ⟨hfield, by rw [(generate_ok h).2.1, hfield]⟩
  · intro he
    have hres : ∀ dI dR,
        (assemble i dI dR).Controller.Web.BindPoints.AddressAddress = osHostname i :=
      fun _ _ => resolveString_default _ _ _ (Or.inl he)
    refine ⟨hres, ?_⟩
    intro data cfg h
    obtain ⟨⟨dI, dR, hdata⟩, _⟩ := generate_data h
    rw [hdata]; exact hres dI dR

/-- C4 on the example installation without any variable, as in
`TestCtrlConfigDefaultsWhenUnset`. -/
theorem default_derivation_witness :
    ∃ data cfg,
      generate (exampleInput noFlags []) = .ok (data, cfg) ∧
      data.Controller.Identity.Cert = "/work/ctrl-host.cert" ∧
      cfg.Identity.Cert = "/work/ctrl-host.cert" ∧
      data.Controller.Web.BindPoints.AddressAddress = "ctrl-host" := by
  have hok : ∃ r, generate (exampleInput noFlags []) = .ok r := ⟨_, rfl⟩
  obtain ⟨⟨data, cfg⟩, h⟩ := hok
  have hthm := default_derivation (exampleInput noFlags [])
  have hcert := (hthm.1 rfl).2 data cfg h
  have haddr := (hthm.2 rfl).2 data cfg h
  exact ⟨data, cfg, h, by rw [hcert.1]; rfl, by rw [hcert.2]; rfl, by rw [haddr]; rfl⟩

/-- C5, CLI duration normalization.  For every standard duration string `s` that
`time.ParseDuration` reads as `n > 0` whole minutes: given as `--routerEnrollmentDuration` it
resolves to `n` minutes and every generation renders `edge.enrollment.edgeRouter.duration` as
the numeral of `n` followed by `m`; given as `--identityEnrollmentDuration`, the same for
`edge.enrollment.edgeIdentity.duration`; each whatever the other flag is. -/
theorem cli_duration_rendered_in_minutes (i : BuildInput) (s : String) (n : Nat) (hn : 0 < n)
    (hs : time.ParseDuration i.frac s = some ((n : Int) * time.Minute)) :
    (i.flags.routerEnrollmentDuration = some s →
      resolveDuration i.frac ".Controller.EdgeEnrollment.EdgeRouterDuration"
        i.defaults.Controller.EdgeEnrollment.EdgeRouterDuration
        i.flags.routerEnrollmentDuration i.environ
        "ZITI_EDGE_ROUTER_ENROLLMENT_DURATION" = .ok ((n : Int) * time.Minute) ∧
      ∀ data cfg, generate i = .ok (data, cfg) →
        data.Controller.EdgeEnrollment.EdgeRouterDuration = (n : Int) * time.Minute ∧
        cfg.Edge.Enrollment.EdgeRouter.Duration = toString n ++ "m") ∧
    (i.flags.identityEnrollmentDuration = some s →
      resolveDuration i.frac ".Controller.EdgeEnrollment.EdgeIdentityDuration"
        i.defaults.Controller.EdgeEnrollment.EdgeIdentityDuration
        i.flags.identityEnrollmentDuration i.environ
        "ZITI_EDGE_IDENTITY_ENROLLMENT_DURATION" = .ok ((n : Int) * time.Minute) ∧
      ∀ data cfg, generate i = .ok (data, cfg) →
        data.Controller.EdgeEnrollment.EdgeIdentityDuration = (n : Int) * time.Minute ∧
        cfg.Edge.Enrollment.EdgeIdentity.Duration = toString n ++ "m") := by
  have _ := hn
  have hc := coerceDuration_of_ParseDuration i.frac s _ hs
  constructor
  · intro hflag
    have hres := resolveDuration_flag i.frac ".Controller.EdgeEnrollment.EdgeRouterDuration"
      i.defaults.Controller.EdgeEnrollment.EdgeRouterDuration _ s i.environ
      "ZITI_EDGE_ROUTER_ENROLLMENT_DURATION" hc
    rw [← hflag] at hres
    refine ⟨hres, ?_⟩
    intro data cfg h
    obtain ⟨hb, _, _, hR, _⟩ := generate_ok h
    obtain ⟨dI, dR, _, h2, hdata, _⟩ := build_ok hb
    have hd : dR = (n : Int) * time.Minute := by
      rw [constants.CtrlEdgeRouterEnrollmentDurationVarName, hres] at h2
      exact (Except.ok.inj h2).symm
    have hfield : data.Controller.EdgeEnrollment.EdgeRouterDuration = (n : Int) * time.Minute := by
      rw [hdata, ← hd]; rfl
    exact ⟨hfield, by rw [hR, hfield, minutesText_whole]⟩
  · intro hflag
    have hres := resolveDuration_flag i.frac ".Controller.EdgeEnrollment.EdgeIdentityDuration"
      i.defaults.Controller.EdgeEnrollment.EdgeIdentityDuration _ s i.environ
      "ZITI_EDGE_IDENTITY_ENROLLMENT_DURATION" hc
    rw [← hflag] at hres
    refine ⟨hres, ?_⟩
    intro data cfg h
    obtain ⟨hb, _, hI, _, _⟩ := generate_ok h
    obtain ⟨dI, dR, h1, _, hdata, _⟩ := build_ok hb
    have hd : dI = (n : Int) * time.Minute := by
      rw [constants.CtrlEdgeIdentityEnrollmentDurationVarName, hres] at h1
      exact (Except.ok.inj h1).symm
    have hfield :
        data.Controller.EdgeEnrollment.EdgeIdentityDuration = (n : Int) * time.Minute := by
      rw [hdata, ← hd]; rfl
    exact ⟨hfield, by rw [hI, hfield, minutesText_whole]⟩

/-- C5 at `--routerEnrollmentDuration 30m --identityEnrollmentDuration 1h`, as in
`TestEdgeRouterAndIdentityEnrollmentDurationTogetherCLI`: the document has `30m` for the
router and `60m` for the identity. -/
theorem cli_duration_rendered_in_minutes_witness :
    ∃ data cfg,
      generate (exampleInput
        { routerEnrollmentDuration := some "30m", identityEnrollmentDuration := some "1h" } [])
        = .ok (data, cfg) ∧
      cfg.Edge.Enrollment.EdgeRouter.Duration = "30m" ∧
      cfg.Edge.Enrollment.EdgeIdentity.Duration = "60m" := by
  have hok : ∃ r, generate (exampleInput
        { routerEnrollmentDuration := some "30m", identityEnrollmentDuration := some "1h" } [])
        = .ok r := ⟨_, rfl⟩
  obtain ⟨⟨data, cfg⟩, h⟩ := hok
  have hr := ((cli_duration_rendered_in_minutes (exampleInput
        { routerEnrollmentDuration := some "30m", identityEnrollmentDuration := some "1h" } [])
        "30m" 30 (by decide) (by decide)).1 rfl).2 data cfg h
  have hi := ((cli_duration_rendered_in_minutes (exampleInput
        { routerEnrollmentDuration := some "30m", identityEnrollmentDuration := some "1h" } [])
        "1h" 60 (by decide) (by decide)).2 rfl).2 data cfg h
  exact ⟨data, cfg, h, by rw [hr.2]; rfl, by rw [hi.2]; rfl⟩

/-- C6 as stated fails: the numeral `153722868` in `ZITI_EDGE_IDENTITY_ENROLLMENT_DURATION`
is a number of minutes that the `int64` of a `time.Duration` cannot hold.  The product with
`time.Minute` wraps, the duration resolves to `-9223371993709551616` nanoseconds and not to
153722868 minutes, the generation goes through, and the value tree carries the wrapped
duration. -/
theorem bare_number_is_minutes_counterexample :
    (153722868 : Int) * time.Minute = 9223372080000000000 ∧
    ¬ ((153722868 : Int) * time.Minute < 2 ^ 63) ∧
    resolveDuration (fun _ _ _ => 0) ".Controller.EdgeEnrollment.EdgeIdentityDuration"
        exampleDefaults.Controller.EdgeEnrollment.EdgeIdentityDuration none
        (environOf [("ZITI_EDGE_IDENTITY_ENROLLMENT_DURATION", "153722868")])
        "ZITI_EDGE_IDENTITY_ENROLLMENT_DURATION" = .ok (-9223371993709551616) ∧
    (∃ data cfg,
      generate (exampleInput noFlags
        [("ZITI_EDGE_IDENTITY_ENROLLMENT_DURATION", "153722868")]) = .ok (data, cfg) ∧
      data.Controller.EdgeEnrollment.EdgeIdentityDuration = -9223371993709551616 ∧
      data.Controller.EdgeEnrollment.EdgeIdentityDuration ≠ 153722868 * time.Minute) := by
  refine ⟨by decide, by decide, rfl, _, _, rfl, ?_, ?_⟩ <;> decide

/-- C6, amended: bare numeric environment durations are minutes, as far as the minutes fit.
For every positive `n` whose `n` minutes fit the `int64` of a `time.Duration`
(`n * time.Minute < 2^63`, that is `n ≤ 153722867`), with the decimal numeral of `n` in
`ZITI_EDGE_IDENTITY_ENROLLMENT_DURATION` and no `--identityEnrollmentDuration` flag, the
duration resolves to `n` minutes and every generation renders
`edge.enrollment.edgeIdentity.duration` as that numeral followed by `m`; the same for
`ZITI_EDGE_ROUTER_ENROLLMENT_DURATION`, `--routerEnrollmentDuration` and
`edge.enrollment.edgeRouter.duration`. -/
theorem bare_number_is_minutes (i : BuildInput) (n : Nat) (hn : 0 < n)
    (hfit : (n : Int) * time.Minute < 2 ^ 63) :
    (i.flags.identityEnrollmentDuration = none →
      i.environ "ZITI_EDGE_IDENTITY_ENROLLMENT_DURATION" = some (toString n) →
      resolveDuration i.frac ".Controller.EdgeEnrollment.EdgeIdentityDuration"
        i.defaults.Controller.EdgeEnrollment.EdgeIdentityDuration
        i.flags.identityEnrollmentDuration i.environ
        "ZITI_EDGE_IDENTITY_ENROLLMENT_DURATION" = .ok ((n : Int) * time.Minute) ∧
      ∀ data cfg, generate i = .ok (data, cfg) →
        data.Controller.EdgeEnrollment.EdgeIdentityDuration = (n : Int) * time.Minute ∧
        cfg.Edge.Enrollment.EdgeIdentity.Duration = toString n ++ "m") ∧
    (i.flags.routerEnrollmentDuration = none →
      i.environ "ZITI_EDGE_ROUTER_ENROLLMENT_DURATION" = some (toString n) →
      resolveDuration i.frac ".Controller.EdgeEnrollment.EdgeRouterDuration"
        i.defaults.Controller.EdgeEnrollment.EdgeRouterDuration
        i.flags.routerEnrollmentDuration i.environ
        "ZITI_EDGE_ROUTER_ENROLLMENT_DURATION" = .ok ((n : Int) * time.Minute) ∧
      ∀ data cfg, generate i = .ok (data, cfg) →
        data.Controller.EdgeEnrollment.EdgeRouterDuration = (n : Int) * time.Minute ∧
        cfg.Edge.Enrollment.EdgeRouter.Duration = toString n ++ "m") := by
  have _ := hn
  have hne : toString n ≠ "" := by
    intro h0
    have := (numeral_spec n).1
    rw [h0] at this
    exact this rfl
  have hc := coerceDuration_numeral i.frac n hfit
  constructor
  · intro hflag he
    have hres := resolveDuration_env i.frac ".Controller.EdgeEnrollment.EdgeIdentityDuration"
      i.defaults.Controller.EdgeEnrollment.EdgeIdentityDuration _ _ i.environ
      "ZITI_EDGE_IDENTITY_ENROLLMENT_DURATION" he hne hc
    rw [← hflag] at hres
    refine ⟨hres, ?_⟩
    intro data cfg h
    obtain ⟨hb, _, hI, _, _⟩ := generate_ok h
    obtain ⟨dI, dR, h1, _, hdata, _⟩ := build_ok hb
    have hd : dI = (n : Int) * time.Minute := by
      rw [constants.CtrlEdgeIdentityEnrollmentDurationVarName, hres] at h1
      exact (Except.ok.inj h1).symm
    have hfield :
        data.Controller.EdgeEnrollment.EdgeIdentityDuration = (n : Int) * time.Minute := by
      rw [hdata, ← hd]; rfl
    exact ⟨hfield, by rw [hI, hfield, minutesText_whole]⟩
  · intro hflag he
    have hres := resolveDuration_env i.frac ".Controller.EdgeEnrollment.EdgeRouterDuration"
      i.defaults.Controller.EdgeEnrollment.EdgeRouterDuration _ _ i.environ
      "ZITI_EDGE_ROUTER_ENROLLMENT_DURATION" he hne hc
    rw [← hflag] at hres
    refine ⟨hres, ?_⟩
    intro data cfg h
    obtain ⟨hb, _, _, hR, _⟩ := generate_ok h
    obtain ⟨dI, dR, _, h2, hdata, _⟩ := build_ok hb
    have hd : dR = (n : Int) * time.Minute := by
      rw [constants.CtrlEdgeRouterEnrollmentDurationVarName, hres] at h2
      exact (Except.ok.inj h2).symm
    have hfield : data.Controller.EdgeEnrollment.EdgeRouterDuration = (n : Int) * time.Minute := by
      rw [hdata, ← hd]; rfl
    exact ⟨hfield, by rw [hR, hfield, minutesText_whole]⟩

/-- C6 at `ZITI_EDGE_IDENTITY_ENROLLMENT_DURATION=120` and
`ZITI_EDGE_ROUTER_ENROLLMENT_DURATION=60`, as in
`TestEdgeRouterAndIdentityEnrollmentDurationTogetherEnvVar`: the document has `120m` and
`60m`. -/
theorem bare_number_is_minutes_witness :
    ∃ data cfg,
      generate (exampleInput noFlags [("ZITI_EDGE_IDENTITY_ENROLLMENT_DURATION", "120"),
        ("ZITI_EDGE_ROUTER_ENROLLMENT_DURATION", "60")]) = .ok (data, cfg) ∧
      data.Controller.EdgeEnrollment.EdgeIdentityDuration = 120 * time.Minute ∧
      cfg.Edge.Enrollment.EdgeIdentity.Duration = "120m" ∧
      cfg.Edge.Enrollment.EdgeRouter.Duration = "60m" := by
  have hok : ∃ r, generate (exampleInput noFlags
        [("ZITI_EDGE_IDENTITY_ENROLLMENT_DURATION", "120"),
         ("ZITI_EDGE_ROUTER_ENROLLMENT_DURATION", "60")]) = .ok r := ⟨_, rfl⟩
  obtain ⟨⟨data, cfg⟩, h⟩ := hok
  have hi := ((bare_number_is_minutes (exampleInput noFlags
        [("ZITI_EDGE_IDENTITY_ENROLLMENT_DURATION", "120"),
         ("ZITI_EDGE_ROUTER_ENROLLMENT_DURATION", "60")]) 120 (by decide) (by decide)).1 rfl rfl).2
        data cfg h
  have hr := ((bare_number_is_minutes (exampleInput noFlags
        [("ZITI_EDGE_IDENTITY_ENROLLMENT_DURATION", "120"),
         ("ZITI_EDGE_ROUTER_ENROLLMENT_DURATION", "60")]) 60 (by decide) (by decide)).2 rfl rfl).2
        data cfg h
  exact ⟨data, cfg, h, hi.1, by rw [hi.2]; rfl, by rw [hr.2]; rfl⟩

/-- C7, completeness invariant.  After every controller config generation, whatever flags,
environment and defaults it ran with, each of the 23 string fields that
`TestCreateConfigControllerTemplateValues` lists is non-empty, each of its 18 duration fields
is non-zero and each of its 11 integer fields is non-zero. -/
theorem required_fields_filled (i : BuildInput) (data : ConfigTemplateValues)
    (cfg : ControllerConfig) (h : generate i = .ok (data, cfg)) :
    ((expectedNonEmptyStringValues data).length = 23 ∧
      ∀ v ∈ expectedNonEmptyStringValues data, v ≠ "") ∧
    ((expectedNonZeroTimeValues data).length = 18 ∧
      ∀ v ∈ expectedNonZeroTimeValues data, v ≠ 0) ∧
    ((expectedNonZeroIntValues data).length = 11 ∧
      ∀ v ∈ expectedNonZeroIntValues data, v ≠ 0) := by
  obtain ⟨_, hs, ht, hi⟩ := validate_ok (generate_data h).2
  exact ⟨⟨rfl, hs⟩, ⟨rfl, ht⟩, ⟨rfl, hi⟩⟩

/-- C7 on a generation that takes one duration from a flag, one path from the environment
and everything else from the defaults. -/
theorem required_fields_filled_witness :
    ∃ data cfg,
      generate (exampleInput
        { routerEnrollmentDuration := some "30m", identityEnrollmentDuration := none }
        [("ZITI_PKI_CTRL_CERT", "/var/test/custom/path")]) = .ok (data, cfg) ∧
      (∀ v ∈ expectedNonEmptyStringValues data, v ≠ "") ∧
      (∀ v ∈ expectedNonZeroTimeValues data, v ≠ 0) ∧
      (∀ v ∈ expectedNonZeroIntValues data, v ≠ 0) := by
  have hok : ∃ r, generate (exampleInput
        { routerEnrollmentDuration := some "30m", identityEnrollmentDuration := none }
        [("ZITI_PKI_CTRL_CERT", "/var/test/custom/path")]) = .ok r := ⟨_, rfl⟩
  obtain ⟨⟨data, cfg⟩, h⟩ := hok
  have hthm := required_fields_filled _ data cfg h
  exact ⟨data, cfg, h, hthm.1.2, hthm.2.1.2, hthm.2.2.2⟩

/-- C8 as stated fails: with `ZITI_CTRL_WEB_ADVERTISED_ADDRESS=localhost:8441` the tree holds
`localhost:8441` as `Controller.Web.BindPoints.AddressAddress`, and the host part of
`Web[0].BindPoints[0].Address` in the parsed document is `localhost`. -/
theorem render_parse_round_trip_counterexample :
    ∃ data cfg,
      generate (exampleInput noFlags [("ZITI_CTRL_WEB_ADVERTISED_ADDRESS", "localhost:8441")])
        = .ok (data, cfg) ∧
      data.Controller.Web.BindPoints.AddressAddress = "localhost:8441" ∧
      webAddressHost cfg = some "localhost" ∧
      webAddressHost cfg ≠ some data.Controller.Web.BindPoints.AddressAddress := by
  refine ⟨_, _, rfl, ?_, ?_, ?_⟩ <;> decide

/-- C8, amended.  For every controller config generation the parsed document reproduces the
values of the tree it was rendered from: the four identity paths, the signing certificate and
key and the web identity paths are the fields of the tree, the two enrollment durations are
the fields in minutes followed by `m`, and the address of the first web bind point is
`AddressAddress`, a `:` and `AddressPort`; its host part is the text of `AddressAddress` before
its first `:`, which is `AddressAddress` itself when that contains no `:`. -/
theorem render_parse_round_trip (i : BuildInput) (data : ConfigTemplateValues)
    (cfg : ControllerConfig) (h : generate i = .ok (data, cfg)) :
    cfg.Identity.Cert = data.Controller.Identity.Cert ∧
    cfg.Identity.Server_cert = data.Controller.Identity.ServerCert ∧
    cfg.Identity.Key = data.Controller.Identity.Key ∧
    cfg.Identity.Ca = data.Controller.Identity.Ca ∧
    cfg.Edge.Enrollment.SigningCert.Cert = data.Controller.EdgeEnrollment.SigningCert ∧
    cfg.Edge.Enrollment.SigningCert.Key = data.Controller.EdgeEnrollment.SigningCertKey ∧
    cfg.Edge.Enrollment.EdgeIdentity.Duration =
      minutesText i.fmtMinutes data.Controller.EdgeEnrollment.EdgeIdentityDuration ++ "m" ∧
    cfg.Edge.Enrollment.EdgeRouter.Duration =
      minutesText i.fmtMinutes data.Controller.EdgeEnrollment.EdgeRouterDuration ++ "m" ∧
    (∃ w b, cfg.Web = [w] ∧ w.BindPoints = [b] ∧
      b.Address = data.Controller.Web.BindPoints.AddressAddress ++ ":" ++
        data.Controller.Web.BindPoints.AddressPort ∧
      w.Identity.Cert = data.Controller.Web.Identity.Cert ∧
      w.Identity.Server_cert = data.Controller.Web.Identity.ServerCert ∧
      w.Identity.Key = data.Controller.Web.Identity.Key ∧
      w.Identity.Ca = data.Controller.Web.Identity.Ca) ∧
    webAddressHost cfg
      = some (strings.SplitFirst ':' data.Controller.Web.BindPoints.AddressAddress) ∧
    (':' ∉ data.Controller.Web.BindPoints.AddressAddress.data →
      webAddressHost cfg = some data.Controller.Web.BindPoints.AddressAddress) := by
  have hhost := (generate_ok h).2.2.2.2
  unfold generate at h
  split at h
  · exact absurd h (by simp)
  · rw [render_controllerTemplate] at h
    simp only [Except.ok.injEq, Prod.mk.injEq] at h
    obtain ⟨rfl, rfl⟩ := h
    refine ⟨?_, ?_, ?_, ?_, ?_, ?_, ?_, ?_, ?_, hhost, ?_⟩
    · dsimp only [configToStruct]
      simp [scalarAt]
    · dsimp only [configToStruct]
      simp [scalarAt]
    · dsimp only [configToStruct]
      simp [scalarAt]
    · dsimp only [configToStruct]
      simp [scalarAt]
    · dsimp only [configToStruct]
      simp [scalarAt]
    · dsimp only [configToStruct]
      simp [scalarAt]
    · dsimp only [configToStruct]
      simp [scalarAt]
    · dsimp only [configToStruct]
      simp [scalarAt]
    · refine ⟨_, _, rfl, rfl, ?_, ?_, ?_, ?_, ?_⟩
      · dsimp only [configToStruct]
        simp [scalarAt]
      · dsimp only [configToStruct]
        simp [scalarAt]
      · dsimp only [configToStruct]
        simp [scalarAt]
      · dsimp only [configToStruct]
        simp [scalarAt]
      · dsimp only [configToStruct]
        simp [scalarAt]
    · intro hcolon
      rw [hhost, SplitFirst_self ':' _ hcolon]

/-- C8, amended, on the example installation without any variable: the parsed document has
the certificate path and the hostname of the tree. -/
theorem render_parse_round_trip_witness :
    ∃ data cfg,
      generate (exampleInput noFlags []) = .ok (data, cfg) ∧
      cfg.Identity.Cert = data.Controller.Identity.Cert ∧
      webAddressHost cfg = some data.Controller.Web.BindPoints.AddressAddress := by
  have hok : ∃ r, generate (exampleInput noFlags []) = .ok r := ⟨_, rfl⟩
  obtain ⟨⟨data, cfg⟩, h⟩ := hok
  have hthm := render_parse_round_trip _ data cfg h
  obtain ⟨⟨dI, dR, hdata⟩, _⟩ := generate_data h
  have haddr : data.Controller.Web.BindPoints.AddressAddress = "ctrl-host" := by
    rw [hdata]; rfl
  refine ⟨data, cfg, h, hthm.1, hthm.2.2.2.2.2.2.2.2.2.2 ?_⟩
  rw [haddr]
  decide

/-- Effects of the tail of `run`: what came before, the execution against `f`, possibly a
log line, and the closing of `f`. -/
theorem runExecute_effects (w : World) (options : CreateConfigEnvironmentOptions)
    (f : os.File) (before : List Effect) :
    ∃ log, (CreateConfigEnvironmentOptions.runExecute w options f before).effects
      = before ++ (Effect.Execute f (w.execute f options).1 :: log ++ [Effect.Close f]) ∧
      ∀ e ∈ log, ∃ msg, e = Effect.Debugf msg := by
  unfold CreateConfigEnvironmentOptions.runExecute
  rcases hx : w.execute f options with ⟨text, _ | err⟩
  · exact ⟨[Effect.Debugf
      ("Environment configuration file generated successfully and written to: "
        ++ options.Output)], by simp, by simp⟩
  · exact ⟨[], by simp, by simp⟩

/-- C9, stdout destination.  For every `Output` whose lower-casing is `stdout`, `run` makes
no existence check and creates no file, and, the embedded template being parsed, it executes
the template against standard output.  For every other `Output` it takes the file branch: its
first effect is the existence check on the parent directory, and it never executes the
template against standard output. -/
theorem stdout_destination (w : World) (options : CreateConfigEnvironmentOptions) :
    (strings.ToLower options.Output = "stdout" →
      (∀ e ∈ (CreateConfigEnvironmentOptions.run w options).effects,
        (∀ name, e ≠ Effect.Stat name) ∧ (∀ name, e ≠ Effect.Create name)) ∧
      (w.parseErr = none →
        Effect.Execute os.File.Stdout (w.execute os.File.Stdout options).1
          ∈ (CreateConfigEnvironmentOptions.run w options).effects)) ∧
    (strings.ToLower options.Output ≠ "stdout" → w.parseErr = none →
      (CreateConfigEnvironmentOptions.run w options).effects.head?
        = some (Effect.Stat (filepath.Dir (filepath.Dir options.Output ++ "/"))) ∧
      ∀ text, Effect.Execute os.File.Stdout text
        ∉ (CreateConfigEnvironmentOptions.run w options).effects) := by
  constructor
  · intro hout
    obtain ⟨log, heff, hlog⟩ := runExecute_effects w options os.File.Stdout []
    constructor
    · intro e he
      unfold CreateConfigEnvironmentOptions.run at he
      cases hp : w.parseErr with
      | some err => simp [hp] at he
      | none =>
        simp only [hp, hout, bne_self_eq_false, Bool.false_eq_true, if_false] at he
        rw [heff, List.nil_append, List.mem_append, List.mem_cons, List.mem_singleton] at he
        rcases he with (rfl | he) | rfl
        · exact ⟨fun _ => by simp, fun _ => by simp⟩
        · obtain ⟨msg, rfl⟩ := hlog e he
          exact ⟨fun _ => by simp, fun _ => by simp⟩
        · exact ⟨fun _ => by simp, fun _ => by simp⟩
    · intro hp
      unfold CreateConfigEnvironmentOptions.run
      simp only [hp, hout, bne_self_eq_false, Bool.false_eq_true, if_false]
      rw [heff]
      simp
  · intro hout hp
    have hb : (strings.ToLower options.Output != "stdout") = true := by
      simpa [bne_iff_ne] using hout
    unfold CreateConfigEnvironmentOptions.run
    simp only [hp, hb, if_true]
    split
    · exact ⟨rfl, fun text => by simp⟩
    · split
      · exact ⟨rfl, fun text => by simp⟩
      · obtain ⟨log, heff, hlog⟩ := runExecute_effects w options
          (os.File.named options.Output)
          [Effect.Stat (filepath.Dir (filepath.Dir options.Output ++ "/")),
            Effect.Create options.Output,
            Effect.Debugf ("Created output file: " ++ options.Output)]
        rw [heff]
        refine ⟨rfl, fun text hmem => ?_⟩
        have hnot : Effect.Execute os.File.Stdout text ∉ log := fun he => by
          obtain ⟨msg, hm⟩ := hlog _ he
          simp at hm
        simp [hnot] at hmem

/-- C9 at `Output = "StdOut"` (standard output, nothing else touched) and at
`Output = "/tmp/env.sh"` (existence check on `/tmp` first). -/
theorem stdout_destination_witness :
    (CreateConfigEnvironmentOptions.run exampleWorld (exampleOptions "StdOut")).effects
      = [Effect.Execute os.File.Stdout "# environment\n",
         Effect.Debugf
           "Environment configuration file generated successfully and written to: StdOut",
         Effect.Close os.File.Stdout] ∧
    Effect.Execute os.File.Stdout "# environment\n"
      ∈ (CreateConfigEnvironmentOptions.run exampleWorld (exampleOptions "StdOut")).effects ∧
    (CreateConfigEnvironmentOptions.run exampleWorld (exampleOptions "/tmp/env.sh")).effects.head?
      = some (Effect.Stat "/tmp") :=
  ⟨by decide,
   ((stdout_destination exampleWorld (exampleOptions "StdOut")).1 (by decide)).2 rfl,
   ((stdout_destination exampleWorld (exampleOptions "/tmp/env.sh")).2 (by decide) rfl).1⟩

/-- A missing parent directory ends the process: for every `Output` that is not `stdout` and
whose parent directory does not exist, `logrus.Fatalf` terminates the process with status 1
after the existence check, and `run` does not return. -/
theorem run_missing_parent (w : World) (options : CreateConfigEnvironmentOptions)
    (hp : w.parseErr = none) (hout : strings.ToLower options.Output ≠ "stdout")
    (hstat : w.stat (filepath.Dir (filepath.Dir options.Output ++ "/"))
      = some syscall.Errno.ENOENT) :
    CreateConfigEnvironmentOptions.run w options =
      { outcome := .exited 1,
        effects := [Effect.Stat (filepath.Dir (filepath.Dir options.Output ++ "/")),
          Effect.Fatalf ("Provided path: [" ++ (filepath.Dir options.Output ++ "/")
            ++ "] does not exist\n")] } := by
  have hb : (strings.ToLower options.Output != "stdout") = true := by
    simpa [bne_iff_ne] using hout
  unfold CreateConfigEnvironmentOptions.run
  simp [hp, hb, os.Stat, hstat, os.IsNotExist]

/-- C10 at `Output = "/IDoNotExist/MyController.yaml"` with `/IDoNotExist` missing: the
existence check fails with `stat /IDoNotExist: no such file or directory`, but `run` does not
return that error: the process is terminated with status 1 inside `logrus.Fatalf`.  No file is
created and the template is not executed. -/
theorem missing_parent_does_not_return :
    CreateConfigEnvironmentOptions.run exampleWorld
        (exampleOptions "/IDoNotExist/MyController.yaml") =
      { outcome := .exited 1,
        effects := [Effect.Stat "/IDoNotExist",
          Effect.Fatalf "Provided path: [/IDoNotExist/] does not exist\n"] } ∧
    os.Stat exampleWorld "/IDoNotExist"
      = some (GoError.PathError "stat" "/IDoNotExist" syscall.Errno.ENOENT) ∧
    (GoError.PathError "stat" "/IDoNotExist" syscall.Errno.ENOENT).Error
      = "stat /IDoNotExist: no such file or directory" ∧
    (CreateConfigEnvironmentOptions.run exampleWorld
        (exampleOptions "/IDoNotExist/MyController.yaml")).outcome
      ≠ .returned (some (GoError.PathError "stat" "/IDoNotExist" syscall.Errno.ENOENT)) := by
  refine ⟨?_, ?_, ?_, ?_⟩ <;> decide

/-! ## The run of the environment command: handles and errors -/

/-- C11, scoped destination handle.  Whatever path `run` takes, no file that it created is
open when it is over.  On the path on which the destination file was created, the template is
executed against that file and the closing of the file is the last effect of `run`, which
returns, whether the execution succeeded or failed after a partial write.  On the paths that
end before the handle exists (template parse error, missing parent directory, creation error)
nothing is closed, because nothing was opened. -/
theorem scoped_destination_handle (w : World) (options : CreateConfigEnvironmentOptions) :
    openFiles w (CreateConfigEnvironmentOptions.run w options).effects [] = [] ∧
    (w.parseErr = none → strings.ToLower options.Output ≠ "stdout" →
      os.IsNotExist (os.Stat w (filepath.Dir (filepath.Dir options.Output ++ "/"))) = false →
      w.create options.Output = none →
      (CreateConfigEnvironmentOptions.run w options).effects.getLast?
        = some (Effect.Close (os.File.named options.Output)) ∧
      Effect.Execute (os.File.named options.Output)
          (w.execute (os.File.named options.Output) options).1
        ∈ (CreateConfigEnvironmentOptions.run w options).effects ∧
      ∃ err, (CreateConfigEnvironmentOptions.run w options).outcome = Outcome.returned err) ∧
    ((w.parseErr ≠ none ∨
        (strings.ToLower options.Output ≠ "stdout" ∧
          (os.IsNotExist (os.Stat w (filepath.Dir (filepath.Dir options.Output ++ "/"))) = true ∨
            w.create options.Output ≠ none))) →
      ∀ f, Effect.Close f ∉ (CreateConfigEnvironmentOptions.run w options).effects) := by
  refine ⟨?_, ?_, ?_⟩
  · unfold CreateConfigEnvironmentOptions.run
    cases hp : w.parseErr with
    | some err => simp [openFiles]
    | none =>
      simp only
      split
      · split
        · simp [openFiles]
        · cases hc : w.create options.Output with
          | some e => simp [os.Create, hc, openFiles]
          | none =>
            simp only [os.Create, hc, Option.map_none']
            unfold CreateConfigEnvironmentOptions.runExecute
            rcases hx : w.execute (os.File.named options.Output) options with ⟨text, _ | err⟩
            · simp [openFiles, hc]
            · simp [openFiles, hc]
      · unfold CreateConfigEnvironmentOptions.runExecute
        rcases hx : w.execute os.File.Stdout options with ⟨text, _ | err⟩
        · simp [openFiles]
        · simp [openFiles]
  · intro hp hout hstat hc
    have hb : (strings.ToLower options.Output != "stdout") = true := by
      simpa [bne_iff_ne] using hout
    unfold CreateConfigEnvironmentOptions.run
    simp only [hp, hb, if_true, hstat, Bool.false_eq_true, if_false, os.Create, hc,
      Option.map_none']
    unfold CreateConfigEnvironmentOptions.runExecute
    rcases hx : w.execute (os.File.named options.Output) options with ⟨text, _ | err⟩
    · simp
    · simp
  · intro h f
    unfold CreateConfigEnvironmentOptions.run
    cases hp : w.parseErr with
    | some err => simp
    | none =>
      rcases h with h | ⟨hout, h⟩
      · exact absurd hp h
      · have hb : (strings.ToLower options.Output != "stdout") = true := by
          simpa [bne_iff_ne] using hout
        simp only [hb, if_true]
        split
        · simp
        · rename_i hstat
          rcases h with h | h
          · exact absurd h hstat
          · cases hc : w.create options.Output with
            | none => exact absurd hc h
            | some e => simp [os.Create, hc]

/-- C11 on a file destination, with an execution that succeeds and with one that fails after
it has written a line: both times the last effect closes the destination file. -/
theorem scoped_destination_handle_witness :
    (CreateConfigEnvironmentOptions.run exampleWorld (exampleOptions "/tmp/env.sh")).effects.getLast?
      = some (Effect.Close (os.File.named "/tmp/env.sh")) ∧
    (CreateConfigEnvironmentOptions.run failingWorld (exampleOptions "/tmp/env.sh")).effects
      = [Effect.Stat "/tmp", Effect.Create "/tmp/env.sh",
         Effect.Debugf "Created output file: /tmp/env.sh",
         Effect.Execute (os.File.named "/tmp/env.sh") "# environment\n",
         Effect.Close (os.File.named "/tmp/env.sh")] ∧
    (CreateConfigEnvironmentOptions.run failingWorld (exampleOptions "/tmp/env.sh")).effects.getLast?
      = some (Effect.Close (os.File.named "/tmp/env.sh")) :=
  ⟨((scoped_destination_handle exampleWorld (exampleOptions "/tmp/env.sh")).2.1
      rfl (by decide) (by decide) rfl).1,
   by decide,
   ((scoped_destination_handle failingWorld (exampleOptions "/tmp/env.sh")).2.1
      rfl (by decide) (by decide) rfl).1⟩

/-- C12 as stated fails: when the embedded template does not parse, `run` returns the error
of `Parse` itself; it is not a wrapper and its message carries no context in front. -/
theorem template_errors_wrapped_counterexample :
    CreateConfigEnvironmentOptions.run brokenTemplateWorld (exampleOptions "stdout")
      = { outcome := Outcome.returned
            (some (GoError.New "template: environment-config:1: unexpected EOF")),
          effects := [] } ∧
    (∀ cause msg, GoError.New "template: environment-config:1: unexpected EOF"
      ≠ GoError.Wrap cause msg) ∧
    (GoError.New "template: environment-config:1: unexpected EOF").Error
      = "template: environment-config:1: unexpected EOF" := by
  refine ⟨by decide, fun cause msg h => (by cases h), by decide⟩

/-- C12, amended.  Every template failure makes `run` return a non-nil error: when the
embedded template fails to parse, the error of `Parse` itself, as it is; when the execution
against the options fails, on standard output or on the created file, a wrapper whose cause is
the cause of the execution error and whose message is that of the execution error behind
`unable to execute template: `. -/
theorem template_errors_returned (w : World) (options : CreateConfigEnvironmentOptions)
    (err : GoError) :
    (w.parseErr = some err →
      CreateConfigEnvironmentOptions.run w options
        = { outcome := Outcome.returned (some err), effects := [] }) ∧
    (w.parseErr = none → strings.ToLower options.Output = "stdout" →
      (w.execute os.File.Stdout options).2 = some err →
      (CreateConfigEnvironmentOptions.run w options).outcome
        = Outcome.returned (some (GoError.Wrap err "unable to execute template"))) ∧
    (w.parseErr = none → strings.ToLower options.Output ≠ "stdout" →
      os.IsNotExist (os.Stat w (filepath.Dir (filepath.Dir options.Output ++ "/"))) = false →
      w.create options.Output = none →
      (w.execute (os.File.named options.Output) options).2 = some err →
      (CreateConfigEnvironmentOptions.run w options).outcome
        = Outcome.returned (some (GoError.Wrap err "unable to execute template"))) ∧
    (GoError.Wrap err "unable to execute template").Error
      = "unable to execute template: " ++ err.Error ∧
    (GoError.Wrap err "unable to execute template").Cause = err.Cause := by
  refine ⟨?_, ?_, ?_, rfl, rfl⟩
  · intro hp
    simp [CreateConfigEnvironmentOptions.run, hp]
  · intro hp hout hx
    unfold CreateConfigEnvironmentOptions.run
    simp only [hp, hout, bne_self_eq_false, Bool.false_eq_true, if_false]
    unfold CreateConfigEnvironmentOptions.runExecute
    rcases hxe : w.execute os.File.Stdout options with ⟨text, e⟩
    rw [hxe] at hx
    simp only at hx
    subst hx
    rfl
  · intro hp hout hstat hc hx
    have hb : (strings.ToLower options.Output != "stdout") = true := by
      simpa [bne_iff_ne] using hout
    unfold CreateConfigEnvironmentOptions.run
    simp only [hp, hb, if_true, hstat, Bool.false_eq_true, if_false, os.Create, hc,
      Option.map_none']
    unfold CreateConfigEnvironmentOptions.runExecute
    rcases hxe : w.execute (os.File.named options.Output) options with ⟨text, e⟩
    rw [hxe] at hx
    simp only at hx
    subst hx
    rfl

/-- C12, amended, at a template that does not parse and at an execution that fails. -/
theorem template_errors_returned_witness :
    (CreateConfigEnvironmentOptions.run brokenTemplateWorld (exampleOptions "stdout")).outcome
      = Outcome.returned (some (GoError.New "template: environment-config:1: unexpected EOF")) ∧
    (CreateConfigEnvironmentOptions.run failingWorld (exampleOptions "stdout")).outcome
      = Outcome.returned (some (GoError.Wrap
          (GoError.New "template: environment-config:3:12: executing")
          "unable to execute template")) ∧
    (GoError.Wrap (GoError.New "template: environment-config:3:12: executing")
        "unable to execute template").Error
      = "unable to execute template: template: environment-config:3:12: executing" := by
  have h1 := (template_errors_returned brokenTemplateWorld (exampleOptions "stdout")
    (GoError.New "template: environment-config:1: unexpected EOF")).1 rfl
  have h2 := (template_errors_returned failingWorld (exampleOptions "stdout")
    (GoError.New "template: environment-config:3:12: executing")).2.1 rfl (by decide) rfl
  exact ⟨by rw [h1], h2, by decide⟩

/-! ## PreRun of the environment command -/

/-- C13, tokens of the operating system.  After `PreRun` the pair of `OSCommentPrefix` and
`OSVarDeclare` is `rem` and `SET` exactly when `runtime.GOOS` is `windows`, and it is `#` and
`export` exactly when it is anything else; there is no third pair. -/
theorem os_appropriate_tokens (GOOS : String)
    (populate : ConfigTemplateValues → ConfigTemplateValues) (c : Constants)
    (l : ListingConstants) (s : NewCmdCreateConfigEnvironment.State) :
    (((NewCmdCreateConfigEnvironment.PreRun GOOS populate c l s).environmentOptions.OSCommentPrefix,
      (NewCmdCreateConfigEnvironment.PreRun GOOS populate c l s).environmentOptions.OSVarDeclare)
        = ("rem", "SET") ↔ GOOS = "windows") ∧
    (((NewCmdCreateConfigEnvironment.PreRun GOOS populate c l s).environmentOptions.OSCommentPrefix,
      (NewCmdCreateConfigEnvironment.PreRun GOOS populate c l s).environmentOptions.OSVarDeclare)
        = ("#", "export") ↔ GOOS ≠ "windows") := by
  by_cases h : GOOS = "windows"
  · simp [NewCmdCreateConfigEnvironment.PreRun, h]
  · simp [NewCmdCreateConfigEnvironment.PreRun, h]

/-- C14, the descriptors are a projection of the value tree.  After `PreRun` the field
`EnvVars` is the list that `EnvVars` builds from the constants and from the value tree as it
is at that moment, whatever the operating system and the earlier options; that list has 32
entries, and its values are, in this order, `ZitiHome`, the certificate of the controller
identity, and so on down to the advertised host of the edge router, the two enrollment
durations standing at the places 13 and 14 as formatted integers. -/
theorem env_vars_projection (GOOS : String)
    (populate : ConfigTemplateValues → ConfigTemplateValues) (c : Constants)
    (l : ListingConstants) (s : NewCmdCreateConfigEnvironment.State) :
    (NewCmdCreateConfigEnvironment.PreRun GOOS populate c l s).data = populate s.data ∧
    (NewCmdCreateConfigEnvironment.PreRun GOOS populate c l s).environmentOptions.EnvVars
      = NewCmdCreateConfigEnvironment.EnvVars c l
          (NewCmdCreateConfigEnvironment.PreRun GOOS populate c l s).data ∧
    ∀ data : ConfigTemplateValues,
      (NewCmdCreateConfigEnvironment.EnvVars c l data).length = 32 ∧
      (NewCmdCreateConfigEnvironment.EnvVars c l data).map (fun e => e.Value)
        = [data.ZitiHome,
           data.Controller.Identity.Cert,
           data.Controller.Identity.ServerCert,
           data.Controller.Identity.Key,
           data.Controller.Identity.Ca,
           data.Controller.Ctrl.ListenerAddress,
           data.Controller.Ctrl.ListenerPort,
           data.Controller.Mgmt.ListenerAddress,
           data.Controller.Mgmt.ListenerPort,
           data.Controller.EdgeApi.Address,
           data.Controller.EdgeApi.Port,
           data.Controller.EdgeEnrollment.SigningCert,
           data.Controller.EdgeEnrollment.SigningCertKey,
           strconv.FormatInt data.Controller.EdgeEnrollment.EdgeIdentityDuration,
           strconv.FormatInt data.Controller.EdgeEnrollment.EdgeRouterDuration,
           data.Controller.Web.BindPoints.InterfaceAddress,
           data.Controller.Web.BindPoints.InterfacePort,
           data.Controller.Web.BindPoints.AddressAddress,
           data.Controller.Web.BindPoints.AddressPort,
           data.Controller.Web.Identity.Cert,
           data.Controller.Web.Identity.ServerCert,
           data.Controller.Web.Identity.Key,
           data.Controller.Web.Identity.Ca,
           data.Router.Edge.Hostname,
           data.Router.Edge.Port,
           data.Router.Edge.ListenerBindPort,
           data.Router.IdentityCert,
           data.Router.IdentityServerCert,
           data.Router.IdentityKey,
           data.Router.IdentityCA,
           data.Router.Edge.IPOverride,
           data.Router.Edge.AdvertisedHost] ∧
      (NewCmdCreateConfigEnvironment.EnvVars c l data).head?
        = some ⟨c.ZitiHomeVarName, l.ZitiHomeVarDescription, data.ZitiHome⟩ ∧
      (NewCmdCreateConfigEnvironment.EnvVars c l data).getLast?
        = some ⟨l.ZitiEdgeRouterAdvertisedHostVarName,
            l.ZitiEdgeRouterAdvertisedHostVarDescription, data.Router.Edge.AdvertisedHost⟩ := by
  refine ⟨rfl, ?_, fun data => ⟨rfl, rfl, rfl, rfl⟩⟩
  by_cases h : GOOS = "windows"
  · simp only [NewCmdCreateConfigEnvironment.PreRun, h, if_true]
  · simp only [NewCmdCreateConfigEnvironment.PreRun, h, if_false]

/-- C15 fails in the code: with both enrollment durations at 180 minutes, `PreRun` lists the
two variables with the value `10800000000000`, the number of nanoseconds, where the last two
rows of the help text print `180` for the same durations; the listed value, read as a bare
number of minutes, is a duration of 10800000000000 minutes and not of 180. -/
theorem enrollment_duration_listed_in_nanoseconds :
    exampleDefaults.Controller.EdgeEnrollment.EdgeIdentityDuration = 180 * time.Minute ∧
    exampleDefaults.Controller.EdgeEnrollment.EdgeRouterDuration = 180 * time.Minute ∧
    ((NewCmdCreateConfigEnvironment.PreRun "linux" id exampleNames exampleListing
        (exampleState "stdout" false)).environmentOptions.EnvVars.get? 13)
      = some ⟨"ZITI_EDGE_IDENTITY_ENROLLMENT_DURATION",
          "Description of CtrlEdgeIdentityEnrollmentDuration", "10800000000000"⟩ ∧
    ((NewCmdCreateConfigEnvironment.PreRun "linux" id exampleNames exampleListing
        (exampleState "stdout" false)).environmentOptions.EnvVars.get? 14)
      = some ⟨"ZITI_EDGE_ROUTER_ENROLLMENT_DURATION",
          "Description of CtrlEdgeRouterEnrollmentDuration", "10800000000000"⟩ ∧
    (∀ round, fmt.SprintfMinutes round
        exampleDefaults.Controller.EdgeEnrollment.EdgeIdentityDuration = "180") ∧
    decimalValue "10800000000000".data = 10800000000000 ∧
    (decimalValue "10800000000000".data : Int) * time.Minute
      ≠ exampleDefaults.Controller.EdgeEnrollment.EdgeIdentityDuration := by
  refine ⟨by decide, by decide, by decide, by decide, fun round => rfl, by decide, by decide⟩

/-! ## The parent directory of the output path -/

/-- The pieces of a split contain no separator. -/
theorem splitChars_sep_free (sep : Char) :
    ∀ xs : List Char, ∀ e ∈ strings.splitChars sep xs, sep ∉ e
  | [] => by simp [strings.splitChars]
  | c :: cs => by
    have ih := splitChars_sep_free sep cs
    unfold strings.splitChars
    by_cases hc : c = sep
    · simp only [hc, if_true]
      intro e he
      rcases List.mem_cons.mp he with rfl | he
      · simp
      · exact ih e he
    · simp only [hc, if_false]
      cases hsp : strings.splitChars sep cs with
      | nil =>
        intro e he
        simp only [List.mem_singleton] at he
        subst he
        simpa using fun h => hc h.symm
      | cons e0 es =>
        rw [hsp] at ih
        intro e he
        rcases List.mem_cons.mp he with rfl | he
        · have := ih e0 (List.mem_cons_self _ _)
          simp only [List.mem_cons, not_or]
          exact ⟨fun h => hc h.symm, this⟩
        · exact ih e (List.mem_cons_of_mem _ he)

/-- Splitting after a separator-free piece gives that piece first. -/
theorem splitChars_piece (sep : Char) (rest : List Char) :
    ∀ e : List Char, sep ∉ e →
      strings.splitChars sep (e ++ sep :: rest) = e :: strings.splitChars sep rest
  | [], _ => by simp [strings.splitChars]
  | c :: cs, h => by
    have hc : c ≠ sep := fun hcs => h (hcs ▸ List.mem_cons_self _ _)
    have hcs : sep ∉ cs := fun hm => h (List.mem_cons_of_mem _ hm)
    have ih := splitChars_piece sep rest cs hcs
    simp [strings.splitChars, hc, ih]

/-- Joining separator-free pieces and splitting again gives the pieces back, followed by the
empty piece after the final separator. -/
theorem splitChars_joinSep :
    ∀ es : List (List Char), es ≠ [] → (∀ e ∈ es, '/' ∉ e) →
      strings.splitChars '/' (filepath.joinSep es ++ ['/']) = es ++ [[]]
  | [], h, _ => absurd rfl h
  | [e], _, hfree => by
    have := splitChars_piece '/' [] e (hfree e (List.mem_singleton_self e))
    simpa [filepath.joinSep, strings.splitChars] using this
  | e :: e' :: es, _, hfree => by
    have ih := splitChars_joinSep (e' :: es) (by simp)
      (fun x hx => hfree x (List.mem_cons_of_mem _ hx))
    have h1 := splitChars_piece '/' (filepath.joinSep (e' :: es) ++ ['/']) e
      (hfree e (List.mem_cons_self _ _))
    simp only [filepath.joinSep, List.append_assoc, List.cons_append] at h1 ⊢
    rw [h1, ih]
    simp


/-- One round of the loop of `Clean` keeps its output settled. -/
theorem cleanStep_settled (rooted : Bool) (st : filepath.CleanState) (e : List Char)
    (he : '/' ∉ e) (h : filepath.Settled rooted st) :
    filepath.Settled rooted (filepath.cleanStep rooted st e) := by
  obtain ⟨top, hout, hnames, hroot⟩ := h
  unfold filepath.cleanStep
  by_cases h1 : e = []
  · simp only [h1, if_true]; exact ⟨top, hout, hnames, hroot⟩
  by_cases h2 : e = ['.']
  · simp only [h1, h2, if_true, if_false]; exact ⟨top, hout, hnames, hroot⟩
  by_cases h3 : e = ['.', '.']
  · subst h3
    simp only [List.cons_ne_nil, if_false, List.cons.injEq, and_false, and_true]
    by_cases hlen : st.out.length > st.dotdot
    · simp only [hlen, if_true]
      cases top with
      | nil => simp [hout] at hlen
      | cons t ts =>
        refine ⟨ts, by simp [hout], fun x hx => hnames x (List.mem_cons_of_mem _ hx), hroot⟩
    · simp only [hlen, if_false]
      have htop : top = [] := by
        cases top with
        | nil => rfl
        | cons t ts =>
          exfalso
          apply hlen
          simp only [hout, List.cons_append, List.length_cons, List.length_append,
            List.length_replicate]
          omega
      subst htop
      cases rooted with
      | true => exact ⟨[], hout, hnames, hroot⟩
      | false =>
        have hl : st.out.length = st.dotdot := by simp [hout]
        refine ⟨[], ?_, by simp, by simp⟩
        simp only [Bool.not_false, if_true, List.nil_append, hl]
        rw [List.replicate_succ, hout, List.nil_append]
  · simp only [h1, h2, h3, if_false]
    refine ⟨e :: top, by simp [hout], ?_, hroot⟩
    intro x hx
    rcases List.mem_cons.mp hx with rfl | hx
    · exact ⟨h1, h2, h3, he⟩
    · exact hnames x hx

/-- The loop of `Clean` over separator-free elements keeps its output settled. -/
theorem foldl_cleanStep_settled (rooted : Bool) :
    ∀ (es : List (List Char)) (st : filepath.CleanState), (∀ e ∈ es, '/' ∉ e) →
      filepath.Settled rooted st → filepath.Settled rooted (es.foldl (filepath.cleanStep rooted) st)
  | [], _, _, h => h
  | e :: es, st, hfree, h => by
    simp only [List.foldl_cons]
    exact foldl_cleanStep_settled rooted es _ (fun x hx => hfree x (List.mem_cons_of_mem _ hx))
      (cleanStep_settled rooted st e (hfree e (List.mem_cons_self _ _)) h)

/-- Names pushed in order end up on top of the output, last one first. -/
theorem foldl_cleanStep_names (rooted : Bool) :
    ∀ (names : List (List Char)) (st : filepath.CleanState), (∀ e ∈ names, filepath.IsName e) →
      names.foldl (filepath.cleanStep rooted) st
        = { out := names.reverse ++ st.out, dotdot := st.dotdot }
  | [], st, _ => by simp
  | e :: es, st, h => by
    obtain ⟨h1, h2, h3, _⟩ := h e (List.mem_cons_self _ _)
    have hstep : filepath.cleanStep rooted st e = { st with out := e :: st.out } := by
      simp [filepath.cleanStep, h1, h2, h3]
    simp only [List.foldl_cons, hstep]
    rw [foldl_cleanStep_names rooted es _ (fun x hx => h x (List.mem_cons_of_mem _ hx))]
    simp

/-- On a path that is not rooted, `k` leading `..` elements are kept. -/
theorem foldl_cleanStep_dotdot :
    ∀ (k j : Nat),
      (List.replicate k ['.', '.']).foldl (filepath.cleanStep false)
          { out := List.replicate j ['.', '.'], dotdot := j }
        = { out := List.replicate (j + k) ['.', '.'], dotdot := j + k }
  | 0, j => by simp
  | k + 1, j => by
    have hstep : filepath.cleanStep false { out := List.replicate j ['.', '.'], dotdot := j }
        ['.', '.'] = { out := List.replicate (j + 1) ['.', '.'], dotdot := j + 1 } := by
      simp [filepath.cleanStep, List.replicate_succ]
    have hjk : j + 1 + k = j + (k + 1) := by omega
    rw [List.replicate_succ, List.foldl_cons, hstep, foldl_cleanStep_dotdot k (j + 1), hjk]

/-- Cleaning the elements of a settled output again gives the same output. -/
theorem foldl_cleanStep_again (rooted : Bool) (st : filepath.CleanState)
    (h : filepath.Settled rooted st) :
    st.out.reverse.foldl (filepath.cleanStep rooted) { out := [], dotdot := 0 } = st := by
  obtain ⟨top, hout, hnames, hroot⟩ := h
  obtain ⟨out, dotdot⟩ := st
  simp only at hout hroot
  subst hout
  rw [List.reverse_append, List.reverse_replicate, List.foldl_append]
  have hdd : (List.replicate dotdot ['.', '.']).foldl (filepath.cleanStep rooted)
      { out := [], dotdot := 0 }
      = { out := List.replicate dotdot ['.', '.'], dotdot := dotdot } := by
    cases rooted with
    | true => simp [hroot rfl]
    | false =>
      have := foldl_cleanStep_dotdot dotdot 0
      simpa using this
  rw [hdd, foldl_cleanStep_names rooted top.reverse _
    (fun x hx => hnames x (List.mem_reverse.mp hx))]
  simp


/-- The elements of a settled output are not empty and contain no separator. -/
theorem settled_elements (rooted : Bool) (st : filepath.CleanState)
    (h : filepath.Settled rooted st) : ∀ e ∈ st.out, e ≠ [] ∧ '/' ∉ e := by
  obtain ⟨top, hout, hnames, _⟩ := h
  intro e he
  rw [hout, List.mem_append] at he
  rcases he with he | he
  · exact ⟨(hnames e he).1, (hnames e he).2.2.2⟩
  · rw [List.eq_of_mem_replicate he]
    exact ⟨by simp, by decide⟩

/-- `Clean` unfolded on a path that is not empty. -/
theorem cleanChars_cons (c : Char) (cs : List Char) :
    filepath.cleanChars (c :: cs) =
      if decide (c = '/') = true then
        '/' :: filepath.joinSep ((strings.splitChars '/' (c :: cs)).foldl
          (filepath.cleanStep (decide (c = '/'))) { out := [], dotdot := 0 }).out.reverse
      else if filepath.joinSep ((strings.splitChars '/' (c :: cs)).foldl
          (filepath.cleanStep (decide (c = '/'))) { out := [], dotdot := 0 }).out.reverse = []
        then ['.']
      else filepath.joinSep ((strings.splitChars '/' (c :: cs)).foldl
          (filepath.cleanStep (decide (c = '/'))) { out := [], dotdot := 0 }).out.reverse := rfl

/-- Elements joined start with the first character of the first element. -/
theorem joinSep_cons_cons (a : Char) (e : List Char) (es : List (List Char)) :
    ∃ rest, filepath.joinSep ((a :: e) :: es) = a :: rest := by
  cases es with
  | nil => exact ⟨e, rfl⟩
  | cons e' es' => exact ⟨e ++ '/' :: filepath.joinSep (e' :: es'), rfl⟩

/-- Cleaning the joined elements of a settled output, with a separator appended (and one in
front on a rooted path), runs the loop to the same output. -/
theorem foldl_cleanStep_join (rooted : Bool) (st : filepath.CleanState)
    (h : filepath.Settled rooted st) (hne : st.out ≠ []) (front : List (List Char))
    (hfront : front = [] ∨ front = [[]]) :
    (front ++ strings.splitChars '/' (filepath.joinSep st.out.reverse ++ ['/'])).foldl
      (filepath.cleanStep rooted) { out := [], dotdot := 0 } = st := by
  have hel := settled_elements rooted st h
  have hsplit := splitChars_joinSep st.out.reverse (by simpa using hne)
    (fun e he => (hel e (List.mem_reverse.mp he)).2)
  rw [hsplit, List.foldl_append, List.foldl_append]
  have hfr : front.foldl (filepath.cleanStep rooted) { out := [], dotdot := 0 }
      = { out := [], dotdot := 0 } := by
    rcases hfront with rfl | rfl <;> simp [filepath.cleanStep]
  rw [hfr, foldl_cleanStep_again rooted st h]
  simp [filepath.cleanStep]

/-- A cleaned path followed by a separator cleans to itself. -/
theorem cleanChars_slash (q : List Char) :
    filepath.cleanChars (filepath.cleanChars q ++ ['/']) = filepath.cleanChars q := by
  cases q with
  | nil => decide
  | cons c cs =>
    rw [cleanChars_cons c cs]
    have hset : filepath.Settled (decide (c = '/'))
        ((strings.splitChars '/' (c :: cs)).foldl (filepath.cleanStep (decide (c = '/')))
          { out := [], dotdot := 0 }) :=
      foldl_cleanStep_settled _ _ _ (splitChars_sep_free '/' (c :: cs))
        ⟨[], by simp, by simp, by simp⟩
    generalize (strings.splitChars '/' (c :: cs)).foldl (filepath.cleanStep (decide (c = '/')))
      { out := [], dotdot := 0 } = st at hset
    generalize decide (c = '/') = rooted at hset
    cases rooted with
    | true =>
      simp only [if_true]
      by_cases hne : st.out = []
      · obtain ⟨top, hout, _, hroot⟩ := hset
        simp only [hne, List.reverse_nil, filepath.joinSep]
        decide
      · have hfold := foldl_cleanStep_join true st hset hne [[]] (Or.inr rfl)
        have hsp : strings.splitChars '/' ('/' :: (filepath.joinSep st.out.reverse ++ ['/']))
            = [[]] ++ strings.splitChars '/' (filepath.joinSep st.out.reverse ++ ['/']) := by
          simp [strings.splitChars]
        rw [List.cons_append, cleanChars_cons, hsp]
        simp only [decide_True, if_true, hfold]
    | false =>
      simp only [Bool.false_eq_true, if_false]
      by_cases hbody : filepath.joinSep st.out.reverse = []
      · simp only [hbody, if_true]
        decide
      · simp only [hbody, if_false]
        have hne : st.out ≠ [] := by
          intro h0
          apply hbody
          simp [h0, filepath.joinSep]
        have hfold := foldl_cleanStep_join false st hset hne [] (Or.inl rfl)
        have hel := settled_elements false st hset
        obtain ⟨a, rest, hbodyeq, ha⟩ : ∃ a rest,
            filepath.joinSep st.out.reverse = a :: rest ∧ a ≠ '/' := by
          cases hrev : st.out.reverse with
          | nil => exact absurd (by simpa using hrev) hne
          | cons e0 es =>
            have he0 := hel e0 (List.mem_reverse.mp (hrev ▸ List.mem_cons_self _ _))
            cases e0 with
            | nil => exact absurd rfl he0.1
            | cons a e =>
              obtain ⟨rest, hr⟩ := joinSep_cons_cons a e es
              exact ⟨a, rest, hr, fun hA => he0.2 (hA ▸ List.mem_cons_self _ _)⟩
        have hdec : decide (a = '/') = false := by simpa using ha
        rw [List.nil_append] at hfold
        rw [hbodyeq] at hfold hbody ⊢
        rw [List.cons_append, cleanChars_cons, hdec]
        rw [← List.cons_append, hfold]
        simp only [Bool.false_eq_true, if_false]
        rw [hbodyeq]
        simp


/-- A path that ends in a separator is its own directory part. -/
theorem dirPart_slash (l : List Char) : filepath.dirPart (l ++ ['/']) = l ++ ['/'] := by
  simp [filepath.dirPart, List.dropWhile]

/-- C16.  The existence check of `run` targets exactly the parent directory of the output
path: for every `Output` string `p`, `filepath.Dir(filepath.Dir(p) + "/")` is
`filepath.Dir(p)`, and it is the path of the first thing `run` does, the existence check,
whenever the template parses and `p` is not `stdout` in any casing. -/
theorem existence_check_targets_parent (p : String) :
    filepath.Dir (filepath.Dir p ++ "/") = filepath.Dir p ∧
    ∀ (w : World) (options : CreateConfigEnvironmentOptions), options.Output = p →
      w.parseErr = none → strings.ToLower p ≠ "stdout" →
      (CreateConfigEnvironmentOptions.run w options).effects.head?
        = some (Effect.Stat (filepath.Dir p)) := by
  have hdir : filepath.Dir (filepath.Dir p ++ "/") = filepath.Dir p := by
    have hdata : (filepath.Dir p ++ "/").data
        = filepath.cleanChars (filepath.dirPart p.data) ++ ['/'] := by
      simp [filepath.Dir, String.data_append]
    unfold filepath.Dir at hdata ⊢
    rw [hdata, dirPart_slash, cleanChars_slash]
  refine ⟨hdir, ?_⟩
  intro w options ho hp hout
  subst ho
  have hb : (strings.ToLower options.Output != "stdout") = true := by
    simpa [bne_iff_ne] using hout
  unfold CreateConfigEnvironmentOptions.run
  simp only [hp, hb, if_true, hdir]
  split
  · rfl
  · cases hc : os.Create w options.Output with
    | some e => rfl
    | none =>
      simp only
      unfold CreateConfigEnvironmentOptions.runExecute
      rcases w.execute (os.File.named options.Output) options with ⟨text, _ | err⟩
      · rfl
      · rfl

/-- C16 at the path of `TestControllerOutputPathDoesNotExist`, at a bare file name and at a
file directly under the root. -/
theorem existence_check_targets_parent_witness :
    filepath.Dir (filepath.Dir "/IDoNotExist/MyController.yaml" ++ "/") = "/IDoNotExist" ∧
    filepath.Dir (filepath.Dir "MyController.yaml" ++ "/") = "." ∧
    filepath.Dir (filepath.Dir "/MyController.yaml" ++ "/") = "/" ∧
    (CreateConfigEnvironmentOptions.run exampleWorld
        (exampleOptions "/IDoNotExist/MyController.yaml")).effects.head?
      = some (Effect.Stat "/IDoNotExist") :=
  ⟨(existence_check_targets_parent "/IDoNotExist/MyController.yaml").1.trans (by decide),
   (existence_check_targets_parent "MyController.yaml").1.trans (by decide),
   (existence_check_targets_parent "/MyController.yaml").1.trans (by decide),
   ((existence_check_targets_parent "/IDoNotExist/MyController.yaml").2 exampleWorld
      (exampleOptions "/IDoNotExist/MyController.yaml") rfl rfl (by decide)).trans
     (by decide)⟩

/-- C17, the verbose log never shares the stream of the listing.  With `Verbose` set,
`PreRun` sets the level to debug and the log output to standard error exactly when the
lower-cased `Output` is `stdout`, and to standard output exactly when it is not; with
`Verbose` unset, the logger after `PreRun` is the logger before it. -/
theorem verbose_log_stream (GOOS : String)
    (populate : ConfigTemplateValues → ConfigTemplateValues) (c : Constants)
    (l : ListingConstants) (s : NewCmdCreateConfigEnvironment.State) :
    (s.environmentOptions.Verbose = true →
      (NewCmdCreateConfigEnvironment.PreRun GOOS populate c l s).logger.Level
        = logrus.Level.DebugLevel ∧
      ((NewCmdCreateConfigEnvironment.PreRun GOOS populate c l s).logger.Out = os.File.Stderr
        ↔ strings.ToLower s.environmentOptions.Output = "stdout") ∧
      ((NewCmdCreateConfigEnvironment.PreRun GOOS populate c l s).logger.Out = os.File.Stdout
        ↔ strings.ToLower s.environmentOptions.Output ≠ "stdout")) ∧
    (s.environmentOptions.Verbose = false →
      (NewCmdCreateConfigEnvironment.PreRun GOOS populate c l s).logger = s.logger) := by
  constructor
  · intro hv
    by_cases h : GOOS = "windows"
    · by_cases ho : strings.ToLower s.environmentOptions.Output = "stdout"
      · simp [NewCmdCreateConfigEnvironment.PreRun, h, hv, ho]
      · simp [NewCmdCreateConfigEnvironment.PreRun, h, hv, ho]
    · by_cases ho : strings.ToLower s.environmentOptions.Output = "stdout"
      · simp [NewCmdCreateConfigEnvironment.PreRun, h, hv, ho]
      · simp [NewCmdCreateConfigEnvironment.PreRun, h, hv, ho]
  · intro hv
    by_cases h : GOOS = "windows"
    · simp [NewCmdCreateConfigEnvironment.PreRun, h, hv]
    · simp [NewCmdCreateConfigEnvironment.PreRun, h, hv]

/-- C17 with `Verbose` set, the listing on standard output and in a file, and with `Verbose`
unset. -/
theorem verbose_log_stream_witness :
    (NewCmdCreateConfigEnvironment.PreRun "linux" id exampleNames exampleListing
        (exampleState "StdOut" true)).logger
      = { Level := logrus.Level.DebugLevel, Out := os.File.Stderr } ∧
    (NewCmdCreateConfigEnvironment.PreRun "linux" id exampleNames exampleListing
        (exampleState "/tmp/env.sh" true)).logger.Out = os.File.Stdout ∧
    (NewCmdCreateConfigEnvironment.PreRun "linux" id exampleNames exampleListing
        (exampleState "/tmp/env.sh" false)).logger
      = { Level := logrus.Level.InfoLevel, Out := os.File.Stderr } := by
  have h1 := (verbose_log_stream "linux" id exampleNames exampleListing
    (exampleState "StdOut" true)).1 rfl
  have h2 := (verbose_log_stream "linux" id exampleNames exampleListing
    (exampleState "/tmp/env.sh" true)).1 rfl
  have h3 := (verbose_log_stream "linux" id exampleNames exampleListing
    (exampleState "/tmp/env.sh" false)).2 rfl
  refine ⟨?_, h2.2.2.2 (by decide), ?_⟩
  · have hl := h1.1
    have ho := h1.2.1.2 (by decide)
    cases hlog : (NewCmdCreateConfigEnvironment.PreRun "linux" id exampleNames exampleListing
        (exampleState "StdOut" true)).logger with
    | mk lv out =>
      rw [hlog] at hl ho
      simp only at hl ho
      rw [hl, ho]
  · rw [h3]
    rfl

/-! ## The harness of the controller tests: what a generation reads of the environment -/

theorem foldl_Unsetenv_apply (n : String) :
    ∀ (ns : List String) (env : Environ),
      ns.foldl Unsetenv env n = if n ∈ ns then none else env n := by
  intro ns
  induction ns with
  | nil => intro env; simp
  | cons a ns ih =>
    intro env
    rw [List.foldl_cons, ih]
    by_cases hn : n ∈ ns
    · simp [hn]
    · by_cases ha : n = a
      · simp [hn, ha, Unsetenv]
      · simp [hn, ha, Unsetenv]

theorem unsetZitiEnv_apply (names : Constants) (env : Environ) (n : String) :
    unsetZitiEnv names env n = if n ∈ zitiEnvNames names then none else env n :=
  foldl_Unsetenv_apply n (zitiEnvNames names) env

theorem setEnvByMap_congr (n : String) :
    ∀ (keys : List (String × String)) (e1 e2 : Environ), e1 n = e2 n →
      setEnvByMap keys e1 n = setEnvByMap keys e2 n := by
  intro keys
  induction keys with
  | nil => intro e1 e2 h; exact h
  | cons kv keys ih =>
    intro e1 e2 h
    unfold setEnvByMap at ih ⊢
    rw [List.foldl_cons, List.foldl_cons]
    apply ih
    simp only [Setenv, h]

theorem build_environ_congr (i : BuildInput) (e1 e2 : Environ)
    (h : ∀ n ∈ zitiEnvNames i.names, e1 n = e2 n) :
    build { i with environ := e1 } = build { i with environ := e2 } := by
  simp only [zitiEnvNames, List.mem_cons, List.mem_singleton, forall_eq_or_imp, forall_eq,
    List.not_mem_nil, false_implies, implies_true, and_true] at h
  obtain ⟨h1, h2, h3, h4, h5, h6, h7, h8, h9, h10, h11, h12, h13, h14, h15, h16, h17, h18,
    h19, h20, h21, h22, h23⟩ := h
  simp only [build, resolveDuration, assemble, resolveString, override, defaultIdentityCert,
    HostnameOrNetworkName, osHostname, h1, h2, h3, h4, h5, h6, h7, h8, h9, h10, h11, h12, h13,
    h14, h15, h16, h17, h18, h19, h20, h21, h22, h23]

theorem generate_environ_congr (i : BuildInput) (e1 e2 : Environ)
    (h : ∀ n ∈ zitiEnvNames i.names, e1 n = e2 n) :
    generate { i with environ := e1 } = generate { i with environ := e2 } := by
  unfold generate
  rw [build_environ_congr i e1 e2 h]

theorem harness_environ_agree (names : Constants) (keys : List (String × String))
    (e1 e2 : Environ) :
    ∀ n ∈ zitiEnvNames names,
      setEnvByMap keys (unsetZitiEnv names e1) n = setEnvByMap keys (unsetZitiEnv names e2) n := by
  intro n hn
  apply setEnvByMap_congr
  rw [unsetZitiEnv_apply, unsetZitiEnv_apply, if_pos hn, if_pos hn]

theorem unsetZitiEnv_idem (names : Constants) (env : Environ) :
    unsetZitiEnv names (unsetZitiEnv names env) = unsetZitiEnv names env := by
  funext n
  rw [unsetZitiEnv_apply, unsetZitiEnv_apply]
  by_cases hn : n ∈ zitiEnvNames names
  · simp [hn]
  · simp [hn]


theorem exec_key (base : BuildInput) (args : Flags) (keys : List (String × String))
    (t t' : ProcessState) :
    generate { base with flags := args,
                         environ := setEnvByMap keys (unsetZitiEnv base.names t.environ) }
      = generate { base with flags := args,
                             environ := setEnvByMap keys (unsetZitiEnv base.names t'.environ) } :=
  generate_environ_congr { base with flags := args } _ _
      (harness_environ_agree base.names keys t.environ t'.environ)


theorem exec_agree (base : BuildInput) (defaultOutput : String) (args : Flags)
    (keys : List (String × String)) (t t' : ProcessState) :
    (execCreateConfigControllerCommand base defaultOutput t args keys).1.data
      = (execCreateConfigControllerCommand base defaultOutput t' args keys).1.data ∧
    (execCreateConfigControllerCommand base defaultOutput t args keys).2
      = (execCreateConfigControllerCommand base defaultOutput t' args keys).2 ∧
    (execCreateConfigControllerCommand base defaultOutput t args keys).1.controllerOptions
      = (execCreateConfigControllerCommand base defaultOutput t' args keys).1.controllerOptions := by
  have hk := exec_key base args keys t t'
  unfold execCreateConfigControllerCommand
  simp only [clearControllerOptionsAndTemplateData]
  rw [hk]
  split
  · exact ⟨rfl, rfl, rfl⟩
  · exact ⟨rfl, rfl, rfl⟩

/-- C18, the state is reset between invocations.  Whatever `controllerOptions`, `data` and
the environment held before, `clearControllerOptionsAndTemplateData` leaves
`controllerOptions` at the zero value and `data` at an empty value tree, and clearing twice is
clearing once.  As `execCreateConfigControllerCommand` clears before it applies its keys and
its flags, two invocations with the same flags and keys, from any two states of the process
(such as the states left by different earlier invocations), produce the same value tree, the
same parsed document and the same options. -/
theorem state_reset_between_invocations (base : BuildInput) (defaultOutput : String)
    (s s' : ProcessState) (args args0 : Flags) (keys keys0 : List (String × String)) :
    (clearControllerOptionsAndTemplateData base.names s).controllerOptions
      = emptyCreateConfigControllerOptions ∧
    (clearControllerOptionsAndTemplateData base.names s).data = emptyConfigTemplateValues ∧
    clearControllerOptionsAndTemplateData base.names
        (clearControllerOptionsAndTemplateData base.names s)
      = clearControllerOptionsAndTemplateData base.names s ∧
    (execCreateConfigControllerCommand base defaultOutput s args keys).1.data
      = (execCreateConfigControllerCommand base defaultOutput s' args keys).1.data ∧
    (execCreateConfigControllerCommand base defaultOutput s args keys).2
      = (execCreateConfigControllerCommand base defaultOutput s' args keys).2 ∧
    (execCreateConfigControllerCommand base defaultOutput s args keys).1.controllerOptions
      = (execCreateConfigControllerCommand base defaultOutput s' args keys).1.controllerOptions ∧
    (execCreateConfigControllerCommand base defaultOutput
        (execCreateConfigControllerCommand base defaultOutput s args0 keys0).1 args keys).1.data
      = (execCreateConfigControllerCommand base defaultOutput s args keys).1.data := by
  refine ⟨rfl, rfl, ?_, (exec_agree base defaultOutput args keys s s').1,
    (exec_agree base defaultOutput args keys s s').2.1,
    (exec_agree base defaultOutput args keys s s').2.2,
    (exec_agree base defaultOutput args keys
      (execCreateConfigControllerCommand base defaultOutput s args0 keys0).1 s).1⟩
  unfold clearControllerOptionsAndTemplateData
  simp only [unsetZitiEnv_idem]

/-- C19, standard output is closed by `run`.  For every `Output` whose lower-casing is
`stdout`, the embedded template being parsed, the last effect of `run` is the closing of the
standard-output handle of the process, and `run` returns: with `nil` when the execution
succeeded, with the wrapped error when it failed. -/
theorem stdout_closed_by_run (w : World) (options : CreateConfigEnvironmentOptions)
    (hp : w.parseErr = none) (hout : strings.ToLower options.Output = "stdout") :
    (CreateConfigEnvironmentOptions.run w options).effects.getLast?
      = some (Effect.Close os.File.Stdout) ∧
    ((w.execute os.File.Stdout options).2 = none →
      (CreateConfigEnvironmentOptions.run w options).outcome = Outcome.returned none) ∧
    (∀ err, (w.execute os.File.Stdout options).2 = some err →
      (CreateConfigEnvironmentOptions.run w options).outcome
        = Outcome.returned (some (GoError.Wrap err "unable to execute template"))) := by
  unfold CreateConfigEnvironmentOptions.run
  simp only [hp, hout, bne_self_eq_false, Bool.false_eq_true, if_false]
  unfold CreateConfigEnvironmentOptions.runExecute
  rcases hxe : w.execute os.File.Stdout options with ⟨text, _ | e⟩
  · simp
  · simp [errors.Wrap]

/-- C19 at `Output = "STDOUT"`, with an execution that succeeds and with one that fails. -/
theorem stdout_closed_by_run_witness :
    (CreateConfigEnvironmentOptions.run exampleWorld (exampleOptions "STDOUT")).effects.getLast?
      = some (Effect.Close os.File.Stdout) ∧
    (CreateConfigEnvironmentOptions.run failingWorld (exampleOptions "STDOUT")).effects
      = [Effect.Execute os.File.Stdout "# environment\n", Effect.Close os.File.Stdout] :=
  ⟨(stdout_closed_by_run exampleWorld (exampleOptions "STDOUT") rfl (by decide)).1, by decide⟩

/-! ## The help text -/

set_option maxRecDepth 100000

/-- Text in front of the rest of a format is printed as it is. -/
theorem render_text_append (ps : List fmt.Piece) (args : List String) :
    ∀ cs : List Char,
      fmt.render (cs.map fmt.Piece.text ++ ps) args
        = (fmt.render ps args).map (fun out => String.mk cs ++ out) := by
  intro cs
  induction cs with
  | nil =>
    have hid : (fun out : String => String.mk [] ++ out) = id := by
      funext out
      exact String.empty_append out
    simp [hid]
  | cons c cs ih =>
    rw [List.map_cons, List.cons_append, fmt.render, ih, Option.map_map]
    congr 1

/-- The three verbs of a row print the row of the entry they are given. -/
theorem render_row (width : Nat) (e : EnvVar) (ps : List fmt.Piece) (args : List String) :
    fmt.render
        (fmt.Piece.verb true (some width) 's' :: fmt.Piece.text ' '
          :: fmt.Piece.verb true (some 50) 's' :: fmt.Piece.text ' '
          :: fmt.Piece.verb false none 's' :: ps)
        (e.Name :: e.Description :: e.Value :: args)
      = (fmt.render ps args).map
          (fun out => NewCmdCreateConfigEnvironment.helpRow width e ++ out) := by
  simp only [fmt.render, fmt.pad, Option.map_map, true_or, if_true]
  congr 1
  funext out
  simp only [Function.comp, NewCmdCreateConfigEnvironment.helpRow, String.append_assoc]
  rfl

/-- The rows after the first: each is a line end and the three verbs, and prints the line
end and the row of its entry. -/
theorem render_rows (ps : List fmt.Piece) (args : List String) :
    ∀ es : List EnvVar,
      fmt.render
          ((List.replicate es.length
              [fmt.Piece.text '\n', fmt.Piece.verb true (some 40) 's', fmt.Piece.text ' ',
               fmt.Piece.verb true (some 50) 's', fmt.Piece.text ' ',
               fmt.Piece.verb false none 's']).flatten ++ ps)
          (es.flatMap (fun e => [e.Name, e.Description, e.Value]) ++ args)
        = (fmt.render ps args).map
            (fun out => es.foldr
              (fun e acc => "\n" ++ (NewCmdCreateConfigEnvironment.helpRow 40 e ++ acc)) out) := by
  intro es
  induction es with
  | nil => simp
  | cons e es ih =>
    rw [List.length_cons, List.replicate_succ, List.flatten_cons, List.flatMap_cons]
    simp only [List.cons_append, List.nil_append]
    rw [fmt.render, render_row, ih, Option.map_map, Option.map_map]
    congr 1

/-- Rows joined with line ends, the text so far in front. -/
theorem intercalate_go_foldr :
    ∀ (rows : List String) (acc : String),
      String.intercalate.go acc "\n" rows
        = acc ++ rows.foldr (fun r rest => "\n" ++ (r ++ rest)) "" := by
  intro rows
  induction rows with
  | nil =>
    intro acc
    simp [String.intercalate.go]
  | cons r rows ih =>
    intro acc
    rw [String.intercalate.go, ih, List.foldr_cons]
    simp only [String.append_assoc]

/-- The pieces of the format of the help text: the introduction, the verbs of the first row
and 33 more rows, each after a line end. -/
theorem scan_createConfigLongFormat :
    fmt.scan NewCmdCreateConfigEnvironment.createConfigLongFormat.data none
      = NewCmdCreateConfigEnvironment.helpIntroduction.data.map fmt.Piece.text
        ++ (fmt.Piece.verb true (some 36) 's' :: fmt.Piece.text ' '
          :: fmt.Piece.verb true (some 50) 's' :: fmt.Piece.text ' '
          :: fmt.Piece.verb false none 's'
          :: ((List.replicate 33
              [fmt.Piece.text '\n', fmt.Piece.verb true (some 40) 's', fmt.Piece.text ' ',
               fmt.Piece.verb true (some 50) 's', fmt.Piece.text ' ',
               fmt.Piece.verb false none 's']).flatten ++ [])) := by
  decide

/-- The text that `fmt.Sprintf` builds is the help table. -/
theorem createConfigLong_eq_helpTable (round : time.Duration → String) (c : Constants)
    (l : ListingConstants) (data : ConfigTemplateValues) :
    NewCmdCreateConfigEnvironment.createConfigLong round c l data
      = some (NewCmdCreateConfigEnvironment.helpTable round c l data) := by
  obtain ⟨e, es, hes, hlen⟩ : ∃ e es,
      NewCmdCreateConfigEnvironment.helpEntries round c l data = e :: es ∧ es.length = 33 :=
    ⟨_, _, rfl, rfl⟩
  have hargs : NewCmdCreateConfigEnvironment.createConfigLongArgs round c l data
      = (NewCmdCreateConfigEnvironment.helpEntries round c l data).flatMap
          (fun e => [e.Name, e.Description, e.Value]) := rfl
  have hintro : String.mk NewCmdCreateConfigEnvironment.helpIntroduction.data
      = NewCmdCreateConfigEnvironment.helpIntroduction := rfl
  unfold NewCmdCreateConfigEnvironment.createConfigLong fmt.Sprintf
  rw [scan_createConfigLongFormat, hargs, hes, List.flatMap_cons, ← hlen, render_text_append]
  simp only [List.cons_append, List.nil_append]
  rw [← List.append_nil (es.flatMap (fun e => [e.Name, e.Description, e.Value])),
    render_row, render_rows, hintro]
  simp only [fmt.render, Option.map_some']
  unfold NewCmdCreateConfigEnvironment.helpTable NewCmdCreateConfigEnvironment.helpRows
  rw [hes]
  simp only [String.intercalate, intercalate_go_foldr, List.foldr_map]

/-- C20, the help table matches the listing.  The format of the long description has three
lines without a verb and then 34 lines of three verbs each, 102 verbs in all, and it is given
102 arguments, so that the text is produced with no verb lacking its argument and no argument
left over.  The first 96 arguments are the names, descriptions and values of the 32 entries
of `EnvVars` on the same value tree, in order; the last 6 are the names and descriptions of
the two enrollment durations with the values in minutes, which for a whole number of minutes
is the decimal numeral of that number.  The text that is built is the help table: the
introduction and 34 rows, one per line, of which the first 32 are the rows of the entries of
`EnvVars` and the last 2 those of the two enrollment durations in minutes; on the example
installation it has 37 lines, the fourth being the row of `ZITI_HOME` and the last the row of
the router enrollment duration with the value `180`. -/
theorem help_table_matches_listing (round : time.Duration → String) (c : Constants)
    (l : ListingConstants) (data : ConfigTemplateValues) :
    (strings.Split NewCmdCreateConfigEnvironment.createConfigLongFormat '\n').map fmt.verbs
      = [0, 0, 0] ++ List.replicate 34 3 ∧
    fmt.verbs NewCmdCreateConfigEnvironment.createConfigLongFormat = 102 ∧
    (NewCmdCreateConfigEnvironment.createConfigLongArgs round c l data).length = 102 ∧
    (NewCmdCreateConfigEnvironment.createConfigLong round c l data).isSome = true ∧
    (NewCmdCreateConfigEnvironment.createConfigLongArgs round c l data).take 96
      = (NewCmdCreateConfigEnvironment.EnvVars c l data).flatMap
          (fun e => [e.Name, e.Description, e.Value]) ∧
    (NewCmdCreateConfigEnvironment.createConfigLongArgs round c l data).drop 96
      = [constants.CtrlEdgeIdentityEnrollmentDurationVarName,
         l.CtrlEdgeIdentityEnrollmentDurationVarDescription,
         fmt.SprintfMinutes round data.Controller.EdgeEnrollment.EdgeIdentityDuration,
         constants.CtrlEdgeRouterEnrollmentDurationVarName,
         l.CtrlEdgeRouterEnrollmentDurationVarDescription,
         fmt.SprintfMinutes round data.Controller.EdgeEnrollment.EdgeRouterDuration] ∧
    (∀ n : Int, fmt.SprintfMinutes round (n * time.Minute) = toString n) ∧
    NewCmdCreateConfigEnvironment.createConfigLong round c l data
      = some (NewCmdCreateConfigEnvironment.helpTable round c l data) ∧
    (NewCmdCreateConfigEnvironment.helpRows round c l data).length = 34 ∧
    (NewCmdCreateConfigEnvironment.helpRows round c l data).take 32
      = (NewCmdCreateConfigEnvironment.EnvVars c l data).enum.map
          (fun ie => NewCmdCreateConfigEnvironment.helpRow (if ie.1 = 0 then 36 else 40) ie.2) ∧
    (NewCmdCreateConfigEnvironment.helpRows round c l data).drop 32
      = [NewCmdCreateConfigEnvironment.helpRow 40
           ⟨constants.CtrlEdgeIdentityEnrollmentDurationVarName,
             l.CtrlEdgeIdentityEnrollmentDurationVarDescription,
             fmt.SprintfMinutes round data.Controller.EdgeEnrollment.EdgeIdentityDuration⟩,
         NewCmdCreateConfigEnvironment.helpRow 40
           ⟨constants.CtrlEdgeRouterEnrollmentDurationVarName,
             l.CtrlEdgeRouterEnrollmentDurationVarDescription,
             fmt.SprintfMinutes round data.Controller.EdgeEnrollment.EdgeRouterDuration⟩] ∧
    ((NewCmdCreateConfigEnvironment.createConfigLong (fun _ => "") exampleNames exampleListing
        exampleDefaults).map (fun text => (strings.Split text '\n').length)) = some 37 ∧
    ((NewCmdCreateConfigEnvironment.createConfigLong (fun _ => "") exampleNames exampleListing
        exampleDefaults).map (fun text => (strings.Split text '\n').get? 3))
      = some (some "ZITI_HOME                            Description of ZitiHome                            /home/ziti") ∧
    ((NewCmdCreateConfigEnvironment.createConfigLong (fun _ => "") exampleNames exampleListing
        exampleDefaults).map (fun text => (strings.Split text '\n').get? 16))
      = some (some "ZITI_EDGE_IDENTITY_ENROLLMENT_DURATION   Description of CtrlEdgeIdentityEnrollmentDuration  10800000000000") ∧
    ((NewCmdCreateConfigEnvironment.createConfigLong (fun _ => "") exampleNames exampleListing
        exampleDefaults).map (fun text => (strings.Split text '\n').getLast?))
      = some (some "ZITI_EDGE_ROUTER_ENROLLMENT_DURATION     Description of CtrlEdgeRouterEnrollmentDuration    180") := by
  refine ⟨by decide, by decide, rfl, rfl, rfl, rfl, fun n => ?_,
    createConfigLong_eq_helpTable round c l data, rfl, rfl, rfl,
    by decide, by decide, by decide, by decide⟩
  have hm : (time.Minute : Int) ≠ 0 := by decide
  simp [fmt.SprintfMinutes, hm]

/-! ## The run of the environment command: a file that cannot be created -/

/-- The path `run` examines, `filepath.Dir(basePath)`, is `filepath.Dir(Output)`. -/
theorem Dir_basePath (p : String) : filepath.Dir (filepath.Dir p ++ "/") = filepath.Dir p := by
  have hdata : (filepath.Dir p ++ "/").data
      = filepath.cleanChars (filepath.dirPart p.data) ++ ['/'] := by
    simp [filepath.Dir, String.data_append]
  unfold filepath.Dir at hdata ⊢
  rw [hdata, dirPart_slash, cleanChars_slash]

/-- `os.IsNotExist` of the error of `os.Stat` is true exactly for the error number
`ENOENT`. -/
theorem IsNotExist_Stat (w : World) (name : String) :
    os.IsNotExist (os.Stat w name) = true ↔ w.stat name = some syscall.Errno.ENOENT := by
  unfold os.Stat
  cases h : w.stat name with
  | none => simp [os.IsNotExist]
  | some e => cases e <;> simp [os.IsNotExist]

/-- C21, creation failure.  The template being parsed and `Output` not being `stdout` in any
casing: when the examination of the parent directory does not report that it does not exist
and the file cannot be created, `run` returns the wrapper of the error of `os.Create`, whose
message is `unable to create config file: ` and `Output`, followed by a colon and the message
of the cause; before that it has examined the parent, tried to create the file and logged a
debug line, and it has neither executed the template nor closed anything.  When the
examination fails with an error other than `ENOENT`, such as permission denied, `run` does not
stop there: its next effect is the attempt to create `Output`, and it returns. -/
theorem creation_failure (w : World) (options : CreateConfigEnvironmentOptions)
    (hp : w.parseErr = none) (hout : strings.ToLower options.Output ≠ "stdout") :
    (∀ errno : syscall.Errno,
      w.stat (filepath.Dir options.Output) ≠ some syscall.Errno.ENOENT →
      w.create options.Output = some errno →
      (CreateConfigEnvironmentOptions.run w options).outcome
        = Outcome.returned (some (GoError.Wrap
            (GoError.PathError "open" options.Output errno)
            ("unable to create config file: " ++ options.Output))) ∧
      (GoError.Wrap (GoError.PathError "open" options.Output errno)
          ("unable to create config file: " ++ options.Output)).Error
        = "unable to create config file: " ++ options.Output ++ ": "
            ++ (GoError.PathError "open" options.Output errno).Error ∧
      (GoError.Wrap (GoError.PathError "open" options.Output errno)
          ("unable to create config file: " ++ options.Output)).Cause
        = GoError.PathError "open" options.Output errno ∧
      (CreateConfigEnvironmentOptions.run w options).effects
        = [Effect.Stat (filepath.Dir options.Output), Effect.Create options.Output,
           Effect.Debugf ("Created output file: " ++ options.Output)] ∧
      (∀ f text, Effect.Execute f text ∉ (CreateConfigEnvironmentOptions.run w options).effects) ∧
      (∀ f, Effect.Close f ∉ (CreateConfigEnvironmentOptions.run w options).effects)) ∧
    (∀ errno : syscall.Errno,
      w.stat (filepath.Dir options.Output) = some errno → errno ≠ syscall.Errno.ENOENT →
      (CreateConfigEnvironmentOptions.run w options).effects.take 2
        = [Effect.Stat (filepath.Dir options.Output), Effect.Create options.Output] ∧
      ∃ err, (CreateConfigEnvironmentOptions.run w options).outcome = Outcome.returned err) := by
  have hb : (strings.ToLower options.Output != "stdout") = true := by
    simpa [bne_iff_ne] using hout
  have hrun : ∀ hstat : w.stat (filepath.Dir options.Output) ≠ some syscall.Errno.ENOENT,
      CreateConfigEnvironmentOptions.run w options
        = match os.Create w options.Output with
          | some err =>
            { outcome := Outcome.returned
                (some (errors.Wrap err ("unable to create config file: " ++ options.Output))),
              effects := [Effect.Stat (filepath.Dir options.Output),
                Effect.Create options.Output,
                Effect.Debugf ("Created output file: " ++ options.Output)] }
          | none =>
            CreateConfigEnvironmentOptions.runExecute w options (os.File.named options.Output)
              [Effect.Stat (filepath.Dir options.Output), Effect.Create options.Output,
                Effect.Debugf ("Created output file: " ++ options.Output)] := by
    intro hstat
    have hne : os.IsNotExist (os.Stat w (filepath.Dir options.Output)) = false := by
      cases hx : os.IsNotExist (os.Stat w (filepath.Dir options.Output)) with
      | false => rfl
      | true => exact absurd ((IsNotExist_Stat w _).1 hx) hstat
    unfold CreateConfigEnvironmentOptions.run
    simp only [hp, hb, if_true, Dir_basePath, hne, Bool.false_eq_true, if_false]
  constructor
  · intro errno hstat hc
    have hcr : os.Create w options.Output
        = some (GoError.PathError "open" options.Output errno) := by
      simp [os.Create, hc]
    rw [hrun hstat, hcr]
    refine ⟨rfl, ?_, rfl, rfl, ?_, ?_⟩
    · simp [GoError.Error, String.append_assoc]
    · intro f text
      simp
    · intro f
      simp
  · intro errno hs hne
    have hstat : w.stat (filepath.Dir options.Output) ≠ some syscall.Errno.ENOENT := by
      rw [hs]
      intro h
      exact hne (Option.some.inj h)
    rw [hrun hstat]
    cases hc : w.create options.Output with
    | some e =>
      have hcr : os.Create w options.Output
          = some (GoError.PathError "open" options.Output e) := by
        simp [os.Create, hc]
      rw [hcr]
      exact ⟨rfl, _, rfl⟩
    | none =>
      have hcr : os.Create w options.Output = none := by
        simp [os.Create, hc]
      rw [hcr]
      simp only
      unfold CreateConfigEnvironmentOptions.runExecute
      rcases w.execute (os.File.named options.Output) options with ⟨text, _ | err⟩
      · exact ⟨rfl, _, rfl⟩
      · exact ⟨rfl, _, rfl⟩

/-- C21 at `/etc/env.sh`, whose parent exists and which cannot be created, and at
`/locked/env.sh`, whose parent cannot be examined. -/
theorem creation_failure_witness :
    (CreateConfigEnvironmentOptions.run deniedWorld (exampleOptions "/etc/env.sh")).outcome
      = Outcome.returned (some (GoError.Wrap
          (GoError.PathError "open" "/etc/env.sh" syscall.Errno.EACCES)
          "unable to create config file: /etc/env.sh")) ∧
    (GoError.Wrap (GoError.PathError "open" "/etc/env.sh" syscall.Errno.EACCES)
        "unable to create config file: /etc/env.sh").Error
      = "unable to create config file: /etc/env.sh: open /etc/env.sh: permission denied" ∧
    (CreateConfigEnvironmentOptions.run deniedWorld (exampleOptions "/etc/env.sh")).effects
      = [Effect.Stat "/etc", Effect.Create "/etc/env.sh",
         Effect.Debugf "Created output file: /etc/env.sh"] ∧
    (CreateConfigEnvironmentOptions.run deniedWorld (exampleOptions "/locked/env.sh")).effects.take 2
      = [Effect.Stat "/locked", Effect.Create "/locked/env.sh"] := by
  have h1 := (creation_failure deniedWorld (exampleOptions "/etc/env.sh") rfl (by decide)).1
    syscall.Errno.EACCES (by decide) (by decide)
  have h2 := (creation_failure deniedWorld (exampleOptions "/locked/env.sh") rfl (by decide)).2
    syscall.Errno.EACCES (by decide) (by decide)
  exact ⟨h1.1, by decide, h1.2.2.2.1.trans (by decide), h2.1.trans (by decide)⟩

end Ziti
